import Mathlib

/-! # learn-doctest: the FileProcessor orchestrator and the leaf utilities

Shallow embedding of `src/src/file_processor.cpp` over the collaborator
interfaces of `src/src/interfaces.hpp`, of `src/src/math_utils.cpp`, of
`src/src/calculator.cpp` and of `src/src/user_service.cpp`.  The definitions of
all four come first, then the lemmas and theorems.

* The three collaborators (`IFileSystem`, `INetworkClient`, `ILogger`) are
  arbitrary, possibly stateful objects.  They are modelled as functions over
  one shared world state `σ`: a method takes the world and returns its result
  together with the next world, so a collaborator may answer differently on
  every call (as the sequenced mocks of the tests do).  Every call is taken to
  return normally; a collaborator that throws is outside these definitions.
* `std::string` is a Lean `String`, one `Char` per element; `size()` is
  `String.length`.
* `size_t` is a `Nat` below `SIZE_MOD = 2 ^ 64`; `+=` wraps modulo `SIZE_MOD`.
* Every call made on a collaborator is appended, with its arguments and its
  result, to the ghost log `State.calls`, oldest call first.
* `int` is an `Int` between `INT_MIN` and `INT_MAX`; the result of an `int`
  operation is reduced by `Cpp.wrap`.  A loop whose end is not evident from its
  shape is given fuel and returns an `Option`.
* `double` is a type parameter with the operations the code uses.
* `std::istringstream` is the list of elements still to read with the flags
  `eofbit` and `failbit`; `std::getline` is defined on it.
-/

namespace FileProcessor

/-! ## Collaborator interfaces (`interfaces.hpp`) -/

/-- Interface `IFileSystem`. -/
structure IFileSystem (σ : Type) where
  writeFile : String → String → σ → Bool × σ
  readFile : String → σ → String × σ
  deleteFile : String → σ → Bool × σ
  fileExists : String → σ → Bool × σ
  getFileSize : String → σ → Nat × σ

/-- Interface `INetworkClient`. -/
structure INetworkClient (σ : Type) where
  get : String → σ → String × σ
  post : String → String → σ → Bool × σ
  getResponseCode : σ → Int × σ
  setTimeout : Int → σ → σ

/-- Interface `ILogger`. -/
structure ILogger (σ : Type) where
  info : String → σ → σ
  warning : String → σ → σ
  error : String → σ → σ
  debug : String → σ → σ

/-- The three collaborators a `FileProcessor` is constructed with. -/
structure Deps (σ : Type) where
  fileSystem : IFileSystem σ
  networkClient : INetworkClient σ
  logger : ILogger σ

/-- One call on a collaborator, with its arguments and (where the method
returns one) its result. -/
inductive Call where
  | writeFile (filename content : String) (result : Bool)
  | readFile (filename : String) (result : String)
  | deleteFile (filename : String) (result : Bool)
  | fileExists (filename : String) (result : Bool)
  | getFileSize (filename : String) (result : Nat)
  | get (url : String) (result : String)
  | post (url data : String) (result : Bool)
  | getResponseCode (result : Int)
  | setTimeout (seconds : Int)
  | info (message : String)
  | warning (message : String)
  | error (message : String)
  | debug (message : String)
  deriving DecidableEq

namespace Call

/-- The call is on the Storage collaborator (`IFileSystem`). -/
def isStorage : Call → Bool
  | writeFile _ _ _ => true
  | readFile _ _ => true
  | deleteFile _ _ => true
  | fileExists _ _ => true
  | getFileSize _ _ => true
  | _ => false

/-- The call is on the Transport collaborator (`INetworkClient`). -/
def isTransport : Call → Bool
  | get _ _ => true
  | post _ _ _ => true
  | getResponseCode _ => true
  | setTimeout _ => true
  | _ => false

/-- The call is on the Diagnostics collaborator (`ILogger`). -/
def isDiagnostics : Call → Bool
  | info _ => true
  | warning _ => true
  | error _ => true
  | debug _ => true
  | _ => false

/-- The call is `ILogger::error`. -/
def isError : Call → Bool
  | error _ => true
  | _ => false

/-- The call is `ILogger::warning`. -/
def isWarning : Call → Bool
  | warning _ => true
  | _ => false

/-- The call is `ILogger::info`. -/
def isInfo : Call → Bool
  | info _ => true
  | _ => false

/-- The call is `IFileSystem::writeFile`. -/
def isWriteFile : Call → Bool
  | writeFile _ _ _ => true
  | _ => false

/-- The call is `IFileSystem::readFile`. -/
def isReadFile : Call → Bool
  | readFile _ _ => true
  | _ => false

end Call

/-! ## State of a `FileProcessor` and of its surroundings -/

/-- Modulus of `size_t` arithmetic (`2 ^ 64`). -/
def SIZE_MOD : Nat := 18446744073709551616

/-- The member `totalProcessedSize`, the world the collaborators live in, and
the ghost log of collaborator calls (oldest first). -/
structure State (σ : Type) where
  world : σ
  calls : List Call
  totalProcessedSize : Nat

/-- Constructor `FileProcessor::FileProcessor`: `totalProcessedSize(0)`. -/
def new {σ : Type} (w : σ) : State σ :=
  { world := w, calls := [], totalProcessedSize := 0 }

/-- Method `FileProcessor::getTotalProcessedSize`. -/
def getTotalProcessedSize {σ : Type} (st : State σ) : Nat :=
  st.totalProcessedSize

/-- The calls logged in `st1` since `st0`. -/
def callsSince {σ : Type} (st0 st1 : State σ) : List Call :=
  st1.calls.drop st0.calls.length

/-! ### Instrumented collaborator calls -/

/-- Call `fileSystem->fileExists(filename)`, logged with its result. -/
def callFileExists {σ : Type} (D : Deps σ) (filename : String) (st : State σ) :
    Bool × State σ :=
  let r := D.fileSystem.fileExists filename st.world
  (r.1, { st with world := r.2, calls := st.calls ++ [Call.fileExists filename r.1] })

/-- Call `fileSystem->readFile(filename)`, logged with its result. -/
def callReadFile {σ : Type} (D : Deps σ) (filename : String) (st : State σ) :
    String × State σ :=
  let r := D.fileSystem.readFile filename st.world
  (r.1, { st with world := r.2, calls := st.calls ++ [Call.readFile filename r.1] })

/-- Call `fileSystem->writeFile(filename, content)`, logged with its result. -/
def callWriteFile {σ : Type} (D : Deps σ) (filename content : String) (st : State σ) :
    Bool × State σ :=
  let r := D.fileSystem.writeFile filename content st.world
  (r.1, { st with world := r.2, calls := st.calls ++ [Call.writeFile filename content r.1] })

/-- Call `networkClient->setTimeout(seconds)`, logged. -/
def callSetTimeout {σ : Type} (D : Deps σ) (seconds : Int) (st : State σ) : State σ :=
  { st with world := D.networkClient.setTimeout seconds st.world,
            calls := st.calls ++ [Call.setTimeout seconds] }

/-- Call `networkClient->get(url)`, logged with its result. -/
def callGet {σ : Type} (D : Deps σ) (url : String) (st : State σ) : String × State σ :=
  let r := D.networkClient.get url st.world
  (r.1, { st with world := r.2, calls := st.calls ++ [Call.get url r.1] })

/-- Call `networkClient->getResponseCode()`, logged with its result. -/
def callGetResponseCode {σ : Type} (D : Deps σ) (st : State σ) : Int × State σ :=
  let r := D.networkClient.getResponseCode st.world
  (r.1, { st with world := r.2, calls := st.calls ++ [Call.getResponseCode r.1] })

/-- Call `logger->info(message)`, logged. -/
def logInfo {σ : Type} (D : Deps σ) (message : String) (st : State σ) : State σ :=
  { st with world := D.logger.info message st.world,
            calls := st.calls ++ [Call.info message] }

/-- Call `logger->warning(message)`, logged. -/
def logWarning {σ : Type} (D : Deps σ) (message : String) (st : State σ) : State σ :=
  { st with world := D.logger.warning message st.world,
            calls := st.calls ++ [Call.warning message] }

/-- Call `logger->error(message)`, logged. -/
def logError {σ : Type} (D : Deps σ) (message : String) (st : State σ) : State σ :=
  { st with world := D.logger.error message st.world,
            calls := st.calls ++ [Call.error message] }

/-! ## The private policies -/

/-- Method `std::string::empty()`: the size is zero. -/
def empty (s : String) : Bool := s.length == 0

/-- Function `::toupper` in the "C" locale: `a`..`z` go to `A`..`Z`, every other
element is unchanged. -/
def toupper (c : Char) : Char := c.toUpper

/-- Method `FileProcessor::transformContent`: the content with `::toupper` applied to
every element, behind the tag `"PROCESSED: "`. -/
def transformContent (content : String) : String :=
  "PROCESSED: " ++ String.mk (content.data.map toupper)

/-- Method `FileProcessor::validateContent`. -/
def validateContent (content : String) : Bool :=
  !empty content && decide (content.length ≤ 1000000)

/-! ## The operations -/

/-- Method `FileProcessor::processFile`. -/
def processFile {σ : Type} (D : Deps σ) (inputFile outputFile : String) (st : State σ) :
    Bool × State σ :=
  if empty inputFile || empty outputFile then
    (false, logError D "Invalid file names provided" st)
  else
    let e := callFileExists D inputFile st
    if !e.1 then
      (false, logError D ("Input file does not exist: " ++ inputFile) e.2)
    else
      let st1 := logInfo D ("Processing file: " ++ inputFile) e.2
      let r := callReadFile D inputFile st1
      let content := r.1
      if empty content then
        (false, logWarning D ("Input file is empty: " ++ inputFile) r.2)
      else if !validateContent content then
        (false, logError D ("Content validation failed for: " ++ inputFile) r.2)
      else
        let transformedContent := transformContent content
        let w := callWriteFile D outputFile transformedContent r.2
        let success := w.1
        if success then
          (success,
            logInfo D ("File processed successfully: " ++ inputFile ++ " -> " ++ outputFile)
              { w.2 with
                totalProcessedSize := (w.2.totalProcessedSize + content.length) % SIZE_MOD })
        else
          (success, logError D ("Failed to write output file: " ++ outputFile) w.2)

/-- Method `FileProcessor::downloadAndProcess`. -/
def downloadAndProcess {σ : Type} (D : Deps σ) (url outputFile : String) (st : State σ) :
    Bool × State σ :=
  if empty url || empty outputFile then
    (false, logError D "Invalid URL or output file name" st)
  else
    let st1 := logInfo D ("Downloading from URL: " ++ url) st
    let st2 := callSetTimeout D 30 st1
    let g := callGet D url st2
    let content := g.1
    let c := callGetResponseCode D g.2
    if c.1 ≠ 200 then
      (false, logError D ("Failed to download from URL: " ++ url) c.2)
    else if empty content then
      (false, logWarning D ("Downloaded content is empty from: " ++ url) c.2)
    else if !validateContent content then
      (false, logError D ("Downloaded content validation failed from: " ++ url) c.2)
    else
      let transformedContent := transformContent content
      let w := callWriteFile D outputFile transformedContent c.2
      let success := w.1
      if success then
        (success,
          logInfo D ("URL content processed successfully: " ++ url ++ " -> " ++ outputFile)
            { w.2 with
              totalProcessedSize := (w.2.totalProcessedSize + content.length) % SIZE_MOD })
      else
        (success, logError D ("Failed to save processed content to: " ++ outputFile) w.2)

/-- Method `FileProcessor::backupFile`. -/
def backupFile {σ : Type} (D : Deps σ) (filename : String) (st : State σ) :
    Bool × State σ :=
  if empty filename then
    (false, logError D "Cannot backup: empty filename" st)
  else
    let e := callFileExists D filename st
    if !e.1 then
      (false, logError D ("Cannot backup non-existent file: " ++ filename) e.2)
    else
      let backupName := filename ++ ".backup"
      let r := callReadFile D filename e.2
      let content := r.1
      let w := callWriteFile D backupName content r.2
      let success := w.1
      if success then
        (success,
          logInfo D ("File backed up successfully: " ++ filename ++ " -> " ++ backupName) w.2)
      else
        (success, logError D ("Failed to backup file: " ++ filename) w.2)

/-- The `for` loop of `FileProcessor::processMultipleFiles`: the files still
to visit, the `results` collected so far and the current state. -/
def processMultipleFilesLoop {σ : Type} (D : Deps σ) :
    List String → List String → State σ → List String × State σ
  | [], results, st => (results, st)
  | file :: rest, results, st =>
    let outputFile := file ++ ".processed"
    let r := processFile D file outputFile st
    if r.1 then
      processMultipleFilesLoop D rest (results ++ [outputFile]) r.2
    else
      processMultipleFilesLoop D rest results r.2

/-- Method `FileProcessor::processMultipleFiles`; `std::to_string` of a size
is its decimal representation. -/
def processMultipleFiles {σ : Type} (D : Deps σ) (files : List String) (st : State σ) :
    List String × State σ :=
  let st1 := logInfo D ("Processing multiple files, count: " ++ toString files.length) st
  let r := processMultipleFilesLoop D files [] st1
  let results := r.1
  (results,
    logInfo D ("Successfully processed " ++ toString results.length ++ " out of "
      ++ toString files.length ++ " files") r.2)

/-! ## The batch, in the words of the specification -/

/-- Follows the specification, not the source: `processFile(f, f + ".processed")`
called once for every element `f` of `files`, in order, each call starting in
the state the call before it left, whatever that call returned.  The result is
what each call returned, position by position, and the state after the last
call. -/
def processEach {σ : Type} (D : Deps σ) : List String → State σ → List Bool × State σ
  | [], st => ([], st)
  | f :: rest, st =>
    let r := processFile D f (f ++ ".processed") st
    let t := processEach D rest r.2
    (r.1 :: t.1, t.2)

/-! ## Collaborators that may throw

The same operations over collaborators whose Storage and Transport calls
either return a value or raise an exception (given by its `what()` text); a
call may change the world in both cases.  `file_processor.cpp` has no `try`
block, so an exception raised inside an operation ends the operation.  The
Diagnostics collaborator is taken not to raise.  Only calls that returned are
appended to the log of calls. -/

namespace Throwing

/-- Interface `IFileSystem`, each call returning a value or raising. -/
structure IFileSystem (σ : Type) where
  writeFile : String → String → σ → Except String Bool × σ
  readFile : String → σ → Except String String × σ
  deleteFile : String → σ → Except String Bool × σ
  fileExists : String → σ → Except String Bool × σ
  getFileSize : String → σ → Except String Nat × σ

/-- Interface `INetworkClient`, each call returning a value or raising. -/
structure INetworkClient (σ : Type) where
  get : String → σ → Except String String × σ
  post : String → String → σ → Except String Bool × σ
  getResponseCode : σ → Except String Int × σ
  setTimeout : Int → σ → Except String Unit × σ

/-- The three collaborators, Storage and Transport possibly raising. -/
structure Deps (σ : Type) where
  fileSystem : IFileSystem σ
  networkClient : INetworkClient σ
  logger : ILogger σ

/-- Collaborators that never raise, seen as collaborators that may. -/
def ofDeps {σ : Type} (D : FileProcessor.Deps σ) : Deps σ where
  fileSystem :=
    { writeFile := fun f c w => (.ok (D.fileSystem.writeFile f c w).1,
        (D.fileSystem.writeFile f c w).2)
      readFile := fun f w => (.ok (D.fileSystem.readFile f w).1, (D.fileSystem.readFile f w).2)
      deleteFile := fun f w => (.ok (D.fileSystem.deleteFile f w).1,
        (D.fileSystem.deleteFile f w).2)
      fileExists := fun f w => (.ok (D.fileSystem.fileExists f w).1,
        (D.fileSystem.fileExists f w).2)
      getFileSize := fun f w => (.ok (D.fileSystem.getFileSize f w).1,
        (D.fileSystem.getFileSize f w).2) }
  networkClient :=
    { get := fun u w => (.ok (D.networkClient.get u w).1, (D.networkClient.get u w).2)
      post := fun u d w => (.ok (D.networkClient.post u d w).1, (D.networkClient.post u d w).2)
      getResponseCode := fun w => (.ok (D.networkClient.getResponseCode w).1,
        (D.networkClient.getResponseCode w).2)
      setTimeout := fun n w => (.ok (), D.networkClient.setTimeout n w) }
  logger := D.logger

/-- No call on Storage or Transport raises, in any world. -/
def NeverRaises {σ : Type} (T : Deps σ) : Prop :=
  ((∀ f c w, ∃ b, (T.fileSystem.writeFile f c w).1 = .ok b) ∧
    (∀ f w, ∃ c, (T.fileSystem.readFile f w).1 = .ok c) ∧
    (∀ f w, ∃ b, (T.fileSystem.deleteFile f w).1 = .ok b) ∧
    (∀ f w, ∃ b, (T.fileSystem.fileExists f w).1 = .ok b) ∧
    (∀ f w, ∃ n, (T.fileSystem.getFileSize f w).1 = .ok n)) ∧
  ((∀ u w, ∃ c, (T.networkClient.get u w).1 = .ok c) ∧
    (∀ u d w, ∃ b, (T.networkClient.post u d w).1 = .ok b) ∧
    (∀ w, ∃ c, (T.networkClient.getResponseCode w).1 = .ok c) ∧
    (∀ n w, ∃ u, (T.networkClient.setTimeout n w).1 = .ok u))

/-- The value a call returned, or `d` if it raised. -/
def valueOr {α : Type} (d : α) : Except String α → α
  | .ok a => a
  | .error _ => d

/-- Collaborators that may raise, seen as collaborators that do not: the
values they return, where they return. -/
def toDeps {σ : Type} (T : Deps σ) : FileProcessor.Deps σ where
  fileSystem :=
    { writeFile := fun f c w => (valueOr false (T.fileSystem.writeFile f c w).1,
        (T.fileSystem.writeFile f c w).2)
      readFile := fun f w => (valueOr "" (T.fileSystem.readFile f w).1,
        (T.fileSystem.readFile f w).2)
      deleteFile := fun f w => (valueOr false (T.fileSystem.deleteFile f w).1,
        (T.fileSystem.deleteFile f w).2)
      fileExists := fun f w => (valueOr false (T.fileSystem.fileExists f w).1,
        (T.fileSystem.fileExists f w).2)
      getFileSize := fun f w => (valueOr 0 (T.fileSystem.getFileSize f w).1,
        (T.fileSystem.getFileSize f w).2) }
  networkClient :=
    { get := fun u w => (valueOr "" (T.networkClient.get u w).1, (T.networkClient.get u w).2)
      post := fun u d w => (valueOr false (T.networkClient.post u d w).1,
        (T.networkClient.post u d w).2)
      getResponseCode := fun w => (valueOr 0 (T.networkClient.getResponseCode w).1,
        (T.networkClient.getResponseCode w).2)
      setTimeout := fun n w => (T.networkClient.setTimeout n w).2 }
  logger := T.logger

/-- Call `fileSystem->fileExists(filename)`. -/
def callFileExists {σ : Type} (D : Deps σ) (filename : String) (st : State σ) :
    Except String Bool × State σ :=
  let r := D.fileSystem.fileExists filename st.world
  match r.1 with
  | .ok b => (.ok b, { st with world := r.2, calls := st.calls ++ [Call.fileExists filename b] })
  | .error e => (.error e, { st with world := r.2 })

/-- Call `fileSystem->readFile(filename)`. -/
def callReadFile {σ : Type} (D : Deps σ) (filename : String) (st : State σ) :
    Except String String × State σ :=
  let r := D.fileSystem.readFile filename st.world
  match r.1 with
  | .ok c => (.ok c, { st with world := r.2, calls := st.calls ++ [Call.readFile filename c] })
  | .error e => (.error e, { st with world := r.2 })

/-- Call `fileSystem->writeFile(filename, content)`. -/
def callWriteFile {σ : Type} (D : Deps σ) (filename content : String) (st : State σ) :
    Except String Bool × State σ :=
  let r := D.fileSystem.writeFile filename content st.world
  match r.1 with
  | .ok b =>
    (.ok b, { st with world := r.2, calls := st.calls ++ [Call.writeFile filename content b] })
  | .error e => (.error e, { st with world := r.2 })

/-- Call `networkClient->setTimeout(seconds)`. -/
def callSetTimeout {σ : Type} (D : Deps σ) (seconds : Int) (st : State σ) :
    Except String Unit × State σ :=
  let r := D.networkClient.setTimeout seconds st.world
  match r.1 with
  | .ok _ => (.ok (), { st with world := r.2, calls := st.calls ++ [Call.setTimeout seconds] })
  | .error e => (.error e, { st with world := r.2 })

/-- Call `networkClient->get(url)`. -/
def callGet {σ : Type} (D : Deps σ) (url : String) (st : State σ) :
    Except String String × State σ :=
  let r := D.networkClient.get url st.world
  match r.1 with
  | .ok c => (.ok c, { st with world := r.2, calls := st.calls ++ [Call.get url c] })
  | .error e => (.error e, { st with world := r.2 })

/-- Call `networkClient->getResponseCode()`. -/
def callGetResponseCode {σ : Type} (D : Deps σ) (st : State σ) :
    Except String Int × State σ :=
  let r := D.networkClient.getResponseCode st.world
  match r.1 with
  | .ok c => (.ok c, { st with world := r.2, calls := st.calls ++ [Call.getResponseCode c] })
  | .error e => (.error e, { st with world := r.2 })

/-- Call `logger->info(message)`. -/
def logInfo {σ : Type} (D : Deps σ) (message : String) (st : State σ) : State σ :=
  { st with world := D.logger.info message st.world,
            calls := st.calls ++ [Call.info message] }

/-- Call `logger->warning(message)`. -/
def logWarning {σ : Type} (D : Deps σ) (message : String) (st : State σ) : State σ :=
  { st with world := D.logger.warning message st.world,
            calls := st.calls ++ [Call.warning message] }

/-- Call `logger->error(message)`. -/
def logError {σ : Type} (D : Deps σ) (message : String) (st : State σ) : State σ :=
  { st with world := D.logger.error message st.world,
            calls := st.calls ++ [Call.error message] }

/-- Method `FileProcessor::processFile` over collaborators that may throw. -/
def processFile {σ : Type} (D : Deps σ) (inputFile outputFile : String) (st : State σ) :
    Except String Bool × State σ :=
  if empty inputFile || empty outputFile then
    (.ok false, logError D "Invalid file names provided" st)
  else
    match callFileExists D inputFile st with
    | (.error e, st1) => (.error e, st1)
    | (.ok exist, st1) =>
      if !exist then
        (.ok false, logError D ("Input file does not exist: " ++ inputFile) st1)
      else
        match callReadFile D inputFile (logInfo D ("Processing file: " ++ inputFile) st1) with
        | (.error e, st3) => (.error e, st3)
        | (.ok content, st3) =>
          if empty content then
            (.ok false, logWarning D ("Input file is empty: " ++ inputFile) st3)
          else if !validateContent content then
            (.ok false, logError D ("Content validation failed for: " ++ inputFile) st3)
          else
            match callWriteFile D outputFile (transformContent content) st3 with
            | (.error e, st4) => (.error e, st4)
            | (.ok success, st4) =>
              if success then
                (.ok success,
                  logInfo D
                    ("File processed successfully: " ++ inputFile ++ " -> " ++ outputFile)
                    { st4 with
                      totalProcessedSize :=
                        (st4.totalProcessedSize + content.length) % SIZE_MOD })
              else
                (.ok success, logError D ("Failed to write output file: " ++ outputFile) st4)

/-- Method `FileProcessor::downloadAndProcess` over collaborators that may
throw. -/
def downloadAndProcess {σ : Type} (D : Deps σ) (url outputFile : String) (st : State σ) :
    Except String Bool × State σ :=
  if empty url || empty outputFile then
    (.ok false, logError D "Invalid URL or output file name" st)
  else
    match callSetTimeout D 30 (logInfo D ("Downloading from URL: " ++ url) st) with
    | (.error e, st2) => (.error e, st2)
    | (.ok _, st2) =>
      match callGet D url st2 with
      | (.error e, st3) => (.error e, st3)
      | (.ok content, st3) =>
        match callGetResponseCode D st3 with
        | (.error e, st4) => (.error e, st4)
        | (.ok code, st4) =>
          if code ≠ 200 then
            (.ok false, logError D ("Failed to download from URL: " ++ url) st4)
          else if empty content then
            (.ok false, logWarning D ("Downloaded content is empty from: " ++ url) st4)
          else if !validateContent content then
            (.ok false,
              logError D ("Downloaded content validation failed from: " ++ url) st4)
          else
            match callWriteFile D outputFile (transformContent content) st4 with
            | (.error e, st5) => (.error e, st5)
            | (.ok success, st5) =>
              if success then
                (.ok success,
                  logInfo D
                    ("URL content processed successfully: " ++ url ++ " -> " ++ outputFile)
                    { st5 with
                      totalProcessedSize :=
                        (st5.totalProcessedSize + content.length) % SIZE_MOD })
              else
                (.ok success,
                  logError D ("Failed to save processed content to: " ++ outputFile) st5)

/-- Method `FileProcessor::backupFile` over collaborators that may throw. -/
def backupFile {σ : Type} (D : Deps σ) (filename : String) (st : State σ) :
    Except String Bool × State σ :=
  if empty filename then
    (.ok false, logError D "Cannot backup: empty filename" st)
  else
    match callFileExists D filename st with
    | (.error e, st1) => (.error e, st1)
    | (.ok exist, st1) =>
      if !exist then
        (.ok false, logError D ("Cannot backup non-existent file: " ++ filename) st1)
      else
        match callReadFile D filename st1 with
        | (.error e, st2) => (.error e, st2)
        | (.ok content, st2) =>
          match callWriteFile D (filename ++ ".backup") content st2 with
          | (.error e, st3) => (.error e, st3)
          | (.ok success, st3) =>
            if success then
              (.ok success,
                logInfo D
                  ("File backed up successfully: " ++ filename ++ " -> "
                    ++ (filename ++ ".backup")) st3)
            else
              (.ok success, logError D ("Failed to backup file: " ++ filename) st3)

/-- The `for` loop of `FileProcessor::processMultipleFiles` over collaborators
that may throw: an exception leaving `processFile` leaves the loop. -/
def processMultipleFilesLoop {σ : Type} (D : Deps σ) :
    List String → List String → State σ → Except String (List String) × State σ
  | [], results, st => (.ok results, st)
  | file :: rest, results, st =>
    match processFile D file (file ++ ".processed") st with
    | (.error e, st1) => (.error e, st1)
    | (.ok ok, st1) =>
      if ok then
        processMultipleFilesLoop D rest (results ++ [file ++ ".processed"]) st1
      else
        processMultipleFilesLoop D rest results st1

/-- Method `FileProcessor::processMultipleFiles` over collaborators that may
throw. -/
def processMultipleFiles {σ : Type} (D : Deps σ) (files : List String) (st : State σ) :
    Except String (List String) × State σ :=
  match processMultipleFilesLoop D files []
      (logInfo D ("Processing multiple files, count: " ++ toString files.length) st) with
  | (.error e, st2) => (.error e, st2)
  | (.ok results, st2) =>
    (.ok results,
      logInfo D ("Successfully processed " ++ toString results.length ++ " out of "
        ++ toString files.length ++ " files") st2)

/-- A Storage whose every call raises "Disk I/O error" and a Transport whose
every call raises "Connection reset". -/
def broken : Deps Unit where
  fileSystem :=
    { writeFile := fun _ _ w => (.error "Disk I/O error", w)
      readFile := fun _ w => (.error "Disk I/O error", w)
      deleteFile := fun _ w => (.error "Disk I/O error", w)
      fileExists := fun _ w => (.error "Disk I/O error", w)
      getFileSize := fun _ w => (.error "Disk I/O error", w) }
  networkClient :=
    { get := fun _ w => (.error "Connection reset", w)
      post := fun _ _ w => (.error "Connection reset", w)
      getResponseCode := fun w => (.error "Connection reset", w)
      setTimeout := fun _ w => (.error "Connection reset", w) }
  logger :=
    { info := fun _ w => w
      warning := fun _ w => w
      error := fun _ w => w
      debug := fun _ w => w }

end Throwing

/-! ## Paths through the operations

Each operation is one pass through an ordered list of guards.  A path records
which guard stopped the pass, the calls made up to there, the returned value
and the counter before and after. -/

/-- The six ways through `processFile`, as the calls it made, the value it
returned and `totalProcessedSize` before and after. -/
inductive ProcessFilePath (inputFile outputFile : String) (calls : List Call) (ret : Bool)
    (before after : Nat) : Prop where
  | invalidNames
      (hnames : inputFile = "" ∨ outputFile = "")
      (hcalls : calls = [Call.error "Invalid file names provided"])
      (hret : ret = false) (htotal : after = before)
  | missing
      (hin : inputFile ≠ "") (hout : outputFile ≠ "")
      (hcalls : calls = [Call.fileExists inputFile false,
        Call.error ("Input file does not exist: " ++ inputFile)])
      (hret : ret = false) (htotal : after = before)
  | emptyContent
      (hin : inputFile ≠ "") (hout : outputFile ≠ "")
      (hcalls : calls = [Call.fileExists inputFile true,
        Call.info ("Processing file: " ++ inputFile),
        Call.readFile inputFile "",
        Call.warning ("Input file is empty: " ++ inputFile)])
      (hret : ret = false) (htotal : after = before)
  | invalidContent (content : String)
      (hin : inputFile ≠ "") (hout : outputFile ≠ "")
      (hne : content ≠ "") (hlen : 1000000 < content.length)
      (hcalls : calls = [Call.fileExists inputFile true,
        Call.info ("Processing file: " ++ inputFile),
        Call.readFile inputFile content,
        Call.error ("Content validation failed for: " ++ inputFile)])
      (hret : ret = false) (htotal : after = before)
  | written (content : String)
      (hin : inputFile ≠ "") (hout : outputFile ≠ "")
      (hne : content ≠ "") (hlen : content.length ≤ 1000000)
      (hcalls : calls = [Call.fileExists inputFile true,
        Call.info ("Processing file: " ++ inputFile),
        Call.readFile inputFile content,
        Call.writeFile outputFile (transformContent content) true,
        Call.info ("File processed successfully: " ++ inputFile ++ " -> " ++ outputFile)])
      (hret : ret = true) (htotal : after = (before + content.length) % SIZE_MOD)
  | writeFailed (content : String)
      (hin : inputFile ≠ "") (hout : outputFile ≠ "")
      (hne : content ≠ "") (hlen : content.length ≤ 1000000)
      (hcalls : calls = [Call.fileExists inputFile true,
        Call.info ("Processing file: " ++ inputFile),
        Call.readFile inputFile content,
        Call.writeFile outputFile (transformContent content) false,
        Call.error ("Failed to write output file: " ++ outputFile)])
      (hret : ret = false) (htotal : after = before)

/-- The six ways through `downloadAndProcess`. -/
inductive DownloadPath (url outputFile : String) (calls : List Call) (ret : Bool)
    (before after : Nat) : Prop where
  | invalidArgs
      (hargs : url = "" ∨ outputFile = "")
      (hcalls : calls = [Call.error "Invalid URL or output file name"])
      (hret : ret = false) (htotal : after = before)
  | badStatus (content : String) (code : Int)
      (hurl : url ≠ "") (hout : outputFile ≠ "") (hcode : code ≠ 200)
      (hcalls : calls = [Call.info ("Downloading from URL: " ++ url),
        Call.setTimeout 30, Call.get url content, Call.getResponseCode code,
        Call.error ("Failed to download from URL: " ++ url)])
      (hret : ret = false) (htotal : after = before)
  | emptyContent
      (hurl : url ≠ "") (hout : outputFile ≠ "")
      (hcalls : calls = [Call.info ("Downloading from URL: " ++ url),
        Call.setTimeout 30, Call.get url "", Call.getResponseCode 200,
        Call.warning ("Downloaded content is empty from: " ++ url)])
      (hret : ret = false) (htotal : after = before)
  | invalidContent (content : String)
      (hurl : url ≠ "") (hout : outputFile ≠ "")
      (hne : content ≠ "") (hlen : 1000000 < content.length)
      (hcalls : calls = [Call.info ("Downloading from URL: " ++ url),
        Call.setTimeout 30, Call.get url content, Call.getResponseCode 200,
        Call.error ("Downloaded content validation failed from: " ++ url)])
      (hret : ret = false) (htotal : after = before)
  | written (content : String)
      (hurl : url ≠ "") (hout : outputFile ≠ "")
      (hne : content ≠ "") (hlen : content.length ≤ 1000000)
      (hcalls : calls = [Call.info ("Downloading from URL: " ++ url),
        Call.setTimeout 30, Call.get url content, Call.getResponseCode 200,
        Call.writeFile outputFile (transformContent content) true,
        Call.info ("URL content processed successfully: " ++ url ++ " -> " ++ outputFile)])
      (hret : ret = true) (htotal : after = (before + content.length) % SIZE_MOD)
  | writeFailed (content : String)
      (hurl : url ≠ "") (hout : outputFile ≠ "")
      (hne : content ≠ "") (hlen : content.length ≤ 1000000)
      (hcalls : calls = [Call.info ("Downloading from URL: " ++ url),
        Call.setTimeout 30, Call.get url content, Call.getResponseCode 200,
        Call.writeFile outputFile (transformContent content) false,
        Call.error ("Failed to save processed content to: " ++ outputFile)])
      (hret : ret = false) (htotal : after = before)

/-- The four ways through `backupFile`. -/
inductive BackupPath (filename : String) (calls : List Call) (ret : Bool)
    (before after : Nat) : Prop where
  | emptyName
      (hname : filename = "")
      (hcalls : calls = [Call.error "Cannot backup: empty filename"])
      (hret : ret = false) (htotal : after = before)
  | missing
      (hname : filename ≠ "")
      (hcalls : calls = [Call.fileExists filename false,
        Call.error ("Cannot backup non-existent file: " ++ filename)])
      (hret : ret = false) (htotal : after = before)
  | copied (content : String)
      (hname : filename ≠ "")
      (hcalls : calls = [Call.fileExists filename true,
        Call.readFile filename content,
        Call.writeFile (filename ++ ".backup") content true,
        Call.info ("File backed up successfully: " ++ filename ++ " -> "
          ++ (filename ++ ".backup"))])
      (hret : ret = true) (htotal : after = before)
  | copyFailed (content : String)
      (hname : filename ≠ "")
      (hcalls : calls = [Call.fileExists filename true,
        Call.readFile filename content,
        Call.writeFile (filename ++ ".backup") content false,
        Call.error ("Failed to backup file: " ++ filename)])
      (hret : ret = false) (htotal : after = before)

/-! ## Sequences of operations and the sum the counter stands for -/

/-- One call on the public interface of a `FileProcessor`. -/
inductive Op where
  | processFile (inputFile outputFile : String)
  | downloadAndProcess (url outputFile : String)
  | backupFile (filename : String)
  | processMultipleFiles (files : List String)

/-- The state after one operation. -/
def step {σ : Type} (D : Deps σ) : Op → State σ → State σ
  | .processFile inputFile outputFile, st => (processFile D inputFile outputFile st).2
  | .downloadAndProcess url outputFile, st => (downloadAndProcess D url outputFile st).2
  | .backupFile filename, st => (backupFile D filename st).2
  | .processMultipleFiles files, st => (processMultipleFiles D files st).2

/-- The state after a finite sequence of operations, run in order. -/
def run {σ : Type} (D : Deps σ) : List Op → State σ → State σ
  | [], st => st
  | op :: ops, st => run D ops (step D op st)

/-- Follows the specification: the size of the source content of one
execution, read off its calls: the sizes of what `readFile` and `get`
returned. -/
def sourceSize (calls : List Call) : Nat :=
  (calls.map fun c =>
    match c with
    | .readFile _ content => content.length
    | .get _ content => content.length
    | _ => 0).sum

/-- Follows the specification: the execution with these calls made a write
that returned true. -/
def writeSucceeded (calls : List Call) : Bool :=
  calls.any fun c =>
    match c with
    | .writeFile _ _ true => true
    | _ => false

/-- Follows the specification: what one execution of `processFile` or
`downloadAndProcess` contributes to the sum: the size of its source content if
its terminal write returned true, nothing otherwise. -/
def credited (calls : List Call) : Nat :=
  if writeSucceeded calls then sourceSize calls else 0

/-- Follows the specification: the contributions of the executions of
`processFile` delegated by the batch, one for every element, in order. -/
def creditedEach {σ : Type} (D : Deps σ) : List String → State σ → Nat
  | [], _ => 0
  | f :: rest, st =>
    credited (callsSince st (processFile D f (f ++ ".processed") st).2)
      + creditedEach D rest (processFile D f (f ++ ".processed") st).2

/-- Follows the specification: what one operation, started in `st`,
contributes to the sum; `backupFile` contributes nothing. -/
def creditedOp {σ : Type} (D : Deps σ) : Op → State σ → Nat
  | .processFile inputFile outputFile, st =>
    credited (callsSince st (processFile D inputFile outputFile st).2)
  | .downloadAndProcess url outputFile, st =>
    credited (callsSince st (downloadAndProcess D url outputFile st).2)
  | .backupFile _, _ => 0
  | .processMultipleFiles files, st =>
    creditedEach D files
      (logInfo D ("Processing multiple files, count: " ++ toString files.length) st)

/-- Follows the specification: the sum of the contributions of a sequence of
operations started in `st`. -/
def creditedRun {σ : Type} (D : Deps σ) : List Op → State σ → Nat
  | [], _ => 0
  | op :: ops, st => creditedOp D op st + creditedRun D ops (step D op st)

/-! ## Concrete collaborators -/

/-- A stateless set of collaborators: every `fileExists` answers `exist`,
every `readFile` returns `content`, every `writeFile` answers `written`, every
`get` returns `body` and every `getResponseCode` returns `code`. -/
def stub (exist : Bool) (content : String) (written : Bool) (body : String) (code : Int) :
    Deps Unit where
  fileSystem :=
    { writeFile := fun _ _ w => (written, w)
      readFile := fun _ w => (content, w)
      deleteFile := fun _ w => (true, w)
      fileExists := fun _ w => (exist, w)
      getFileSize := fun _ w => (content.length, w) }
  networkClient :=
    { get := fun _ w => (body, w)
      post := fun _ _ w => (true, w)
      getResponseCode := fun w => (code, w)
      setTimeout := fun _ w => w }
  logger :=
    { info := fun _ w => w
      warning := fun _ w => w
      error := fun _ w => w
      debug := fun _ w => w }

/-- A content of 1,000,001 elements. -/
def oversized : String := String.mk (List.replicate 1000001 'x')

/-- A stateless Storage in which every file exists and holds "hello", except
the file "B", which holds the oversized content; every write succeeds. -/
def shelf : Deps Unit where
  fileSystem :=
    { writeFile := fun _ _ w => (true, w)
      readFile := fun f w => (if f = "B" then oversized else "hello", w)
      deleteFile := fun _ w => (true, w)
      fileExists := fun _ w => (true, w)
      getFileSize := fun _ w => (0, w) }
  networkClient := (stub true "" true "" 200).networkClient
  logger := (stub true "" true "" 200).logger

/-- A processor that has already worked: one earlier call in the log and 7
elements counted. -/
def used : State Unit :=
  { world := (), calls := [Call.info "earlier"], totalProcessedSize := 7 }

/-- A processor at the top of `size_t`: a new one after 2^64 - 1 calls of
`processFile` that each read the one-character content "x" and wrote it
successfully. -/
def brimful : State Unit :=
  run (stub true "x" true "x" 200)
    (List.replicate 18446744073709551615 (Op.processFile "in.txt" "out.txt")) (new ())

/-- Follows the words "faithful Storage", not the source (the repository has
no implementation of `IFileSystem`): a Storage that keeps what is written, the
files as a list of name and content.  `writeFile` replaces the content of the
name and succeeds, `readFile` returns the content written last under the name
(the empty content when there is none), `fileExists` tells whether there is
one.  Transport and Diagnostics keep nothing. -/
def faithful : Deps (List (String × String)) where
  fileSystem :=
    { writeFile := fun f c w => (true, (f, c) :: w.filter (fun p => p.1 != f))
      readFile := fun f w => ((w.lookup f).getD "", w)
      deleteFile := fun f w => ((w.lookup f).isSome, w.filter (fun p => p.1 != f))
      fileExists := fun f w => ((w.lookup f).isSome, w)
      getFileSize := fun f w => (((w.lookup f).getD "").length, w) }
  networkClient :=
    { get := fun _ w => ("", w)
      post := fun _ _ w => (false, w)
      getResponseCode := fun w => (0, w)
      setTimeout := fun _ w => w }
  logger :=
    { info := fun _ w => w
      warning := fun _ w => w
      error := fun _ w => w
      debug := fun _ w => w }

end FileProcessor

/-! ## C++ values shared by the leaf utilities -/

namespace Cpp

/-- The exceptions the code throws, each with its `what()` text. -/
inductive Exception where
  | invalid_argument (what : String)
  | runtime_error (what : String)
  deriving DecidableEq

/-- The least value of `int` (32 bits). -/
def INT_MIN : Int := -2147483648

/-- The greatest value of `int` (32 bits). -/
def INT_MAX : Int := 2147483647

/-- The `int` congruent to `x` modulo 2^32: the result of an `int` operation
whose exact result is `x`.  Where `x` is out of range the C++ standard leaves
the behaviour undefined; the wrap-around of two's-complement hardware is taken
here. -/
def wrap (x : Int) : Int := (x + 2147483648) % 4294967296 - 2147483648

/-- The operations on `double` that the code uses.  No property of
floating-point arithmetic is assumed: the type and its operations are
parameters. -/
structure DoubleOps (F : Type) where
  ofInt : Int → F
  ofSize : Nat → F
  pi : F
  eq : F → F → Bool
  lt : F → F → Bool
  add : F → F → F
  sub : F → F → F
  mul : F → F → F
  div : F → F → F
  pow : F → F → F
  sqrt : F → F
  sin : F → F
  cos : F → F

end Cpp

/-! ## MathUtils (`src/src/math_utils.cpp`) -/

namespace MathUtils

open Cpp

/-- Function `MathUtils::add`. -/
def add (a b : Int) : Int := wrap (a + b)

/-- Function `MathUtils::multiply`. -/
def multiply (a b : Int) : Int := wrap (a * b)

/-- Function `MathUtils::divide`. -/
def divide {F : Type} (fp : DoubleOps F) (a b : F) : Except Exception F :=
  if fp.eq b (fp.ofInt 0) then
    .error (.invalid_argument "Division by zero")
  else
    .ok (fp.div a b)

/-- The `for` loop of `MathUtils::factorial`, from the loop variable `i` and
the current `result`; `none` when the fuel runs out. -/
def factorialLoop (n : Int) : Nat → Int → Int → Option Int
  | 0, _, _ => none
  | fuel + 1, i, result =>
    if i ≤ n then
      factorialLoop n fuel (wrap (i + 1)) (wrap (result * i))
    else
      some result

/-- Function `MathUtils::factorial`.  The loop makes at most `n` tests of its
condition unless `++i` overflows; `none` stands for a loop that does not
end. -/
def factorial (n : Int) : Except Exception (Option Int) :=
  if n < 0 then
    .error (.invalid_argument "Factorial of negative number")
  else if n == 0 || n == 1 then
    .ok (some 1)
  else
    .ok (factorialLoop n n.toNat 2 1)

/-- The `for` loop of `MathUtils::isPrime`, from the loop variable `i`; `none`
when the fuel runs out. -/
def isPrimeLoop (n : Int) : Nat → Int → Option Bool
  | 0, _ => none
  | fuel + 1, i =>
    if wrap (i * i) ≤ n then
      if n.tmod i == 0 then some false
      else isPrimeLoop n fuel (wrap (i + 2))
    else
      some true

/-- Function `MathUtils::isPrime`; the loop is given `n` rounds. -/
def isPrime (n : Int) : Option Bool :=
  if n < 2 then some false
  else if n == 2 then some true
  else if n.tmod 2 == 0 then some false
  else isPrimeLoop n n.toNat 3

/-- Function `MathUtils::findMax`; `*std::max_element` is the first greatest
element. -/
def findMax (numbers : List Int) : Except Exception Int :=
  match numbers with
  | [] => .error (.invalid_argument "Cannot find max of empty vector")
  | first :: rest =>
    .ok (rest.foldl (fun largest x => if largest < x then x else largest) first)

/-- Function `MathUtils::average`; `std::accumulate` adds in `int`. -/
def average {F : Type} (fp : DoubleOps F) (numbers : List Int) : Except Exception F :=
  if numbers.isEmpty then
    .error (.invalid_argument "Cannot calculate average of empty vector")
  else
    let sum := numbers.foldl (fun s x => wrap (s + x)) 0
    .ok (fp.div (fp.ofInt sum) (fp.ofSize numbers.length))

/-- The `for` loop of `MathUtils::power`; `none` when the fuel runs out. -/
def powerLoop (base exponent : Int) : Nat → Int → Int → Option Int
  | 0, _, _ => none
  | fuel + 1, i, result =>
    if i < exponent then
      powerLoop base exponent fuel (wrap (i + 1)) (wrap (result * base))
    else
      some result

/-- Function `MathUtils::power`. -/
def power (base exponent : Int) : Except Exception (Option Int) :=
  if exponent < 0 then
    .error (.invalid_argument "Negative exponent not supported")
  else if exponent == 0 then
    .ok (some 1)
  else
    .ok (powerLoop base exponent (exponent.toNat + 1) 0 1)

/-- Table `ones` of `numberToWords`. -/
def ones : List String :=
  ["zero", "one", "two", "three", "four", "five", "six", "seven", "eight", "nine"]

/-- Table `teens` of `numberToWords`. -/
def teens : List String :=
  ["ten", "eleven", "twelve", "thirteen", "fourteen", "fifteen",
    "sixteen", "seventeen", "eighteen", "nineteen"]

/-- Table `tens` of `numberToWords`. -/
def tens : List String :=
  ["", "", "twenty", "thirty", "forty", "fifty", "sixty", "seventy", "eighty", "ninety"]

/-- Function `MathUtils::numberToWords`; `none` stands for an index outside
its table. -/
def numberToWords (n : Int) : Except Exception (Option String) :=
  if n < 0 || n > 99 then
    .error (.invalid_argument "Only numbers 0-99 supported")
  else if n < 10 then
    .ok ones[n.toNat]?
  else if n < 20 then
    .ok teens[(n - 10).toNat]?
  else
    match tens[(n.tdiv 10).toNat]? with
    | none => .ok none
    | some result =>
      if n.tmod 10 ≠ 0 then
        match ones[(n.tmod 10).toNat]? with
        | none => .ok none
        | some word => .ok (some (result ++ (" " ++ word)))
      else
        .ok (some result)

end MathUtils

/-! ## Calculator (`src/src/calculator.cpp`) -/

namespace Calculator

open Cpp

/-- The data members of a `Calculator`. -/
structure State (F : Type) where
  history : List F
  memory : F
  degrees_mode : Bool

/-- Constructor `Calculator::Calculator`. -/
def new {F : Type} (fp : DoubleOps F) : State F :=
  { history := [], memory := fp.ofInt 0, degrees_mode := true }

/-- Method `Calculator::addToHistory`: `push_back`, then `erase(begin())` when
the size has passed 100. -/
def addToHistory {F : Type} (c : State F) (value : F) : State F :=
  let pushed := c.history ++ [value]
  if pushed.length > 100 then
    { c with history := pushed.tail }
  else
    { c with history := pushed }

/-- Method `Calculator::add`. -/
def add {F : Type} (fp : DoubleOps F) (c : State F) (a b : F) : Except Exception F × State F :=
  let result := fp.add a b
  (.ok result, addToHistory c result)

/-- Method `Calculator::subtract`. -/
def subtract {F : Type} (fp : DoubleOps F) (c : State F) (a b : F) :
    Except Exception F × State F :=
  let result := fp.sub a b
  (.ok result, addToHistory c result)

/-- Method `Calculator::multiply`. -/
def multiply {F : Type} (fp : DoubleOps F) (c : State F) (a b : F) :
    Except Exception F × State F :=
  let result := fp.mul a b
  (.ok result, addToHistory c result)

/-- Method `Calculator::divide`. -/
def divide {F : Type} (fp : DoubleOps F) (c : State F) (a b : F) :
    Except Exception F × State F :=
  if fp.eq b (fp.ofInt 0) then
    (.error (.invalid_argument "Division by zero"), c)
  else
    let result := fp.div a b
    (.ok result, addToHistory c result)

/-- Method `Calculator::power`. -/
def power {F : Type} (fp : DoubleOps F) (c : State F) (base exponent : F) :
    Except Exception F × State F :=
  if fp.eq base (fp.ofInt 0) && fp.lt exponent (fp.ofInt 0) then
    (.error (.invalid_argument "Cannot raise zero to negative power"), c)
  else
    let result := fp.pow base exponent
    (.ok result, addToHistory c result)

/-- Method `Calculator::sqrt`. -/
def sqrt {F : Type} (fp : DoubleOps F) (c : State F) (value : F) :
    Except Exception F × State F :=
  if fp.lt value (fp.ofInt 0) then
    (.error (.invalid_argument "Cannot take square root of negative number"), c)
  else
    let result := fp.sqrt value
    (.ok result, addToHistory c result)

/-- Method `Calculator::sin`. -/
def sin {F : Type} (fp : DoubleOps F) (c : State F) (angle : F) :
    Except Exception F × State F :=
  let radians := if c.degrees_mode then fp.div (fp.mul angle fp.pi) (fp.ofInt 180) else angle
  let result := fp.sin radians
  (.ok result, addToHistory c result)

/-- Method `Calculator::cos`. -/
def cos {F : Type} (fp : DoubleOps F) (c : State F) (angle : F) :
    Except Exception F × State F :=
  let radians := if c.degrees_mode then fp.div (fp.mul angle fp.pi) (fp.ofInt 180) else angle
  let result := fp.cos radians
  (.ok result, addToHistory c result)

/-- Method `Calculator::setMemory`. -/
def setMemory {F : Type} (c : State F) (value : F) : State F :=
  { c with memory := value }

/-- Method `Calculator::getMemory`. -/
def getMemory {F : Type} (c : State F) : F := c.memory

/-- Method `Calculator::clearMemory`. -/
def clearMemory {F : Type} (fp : DoubleOps F) (c : State F) : State F :=
  { c with memory := fp.ofInt 0 }

/-- Method `Calculator::setDegreesMode`. -/
def setDegreesMode {F : Type} (c : State F) (degrees : Bool) : State F :=
  { c with degrees_mode := degrees }

/-- Method `Calculator::isDegreesMode`. -/
def isDegreesMode {F : Type} (c : State F) : Bool := c.degrees_mode

/-- Method `Calculator::getHistory`. -/
def getHistory {F : Type} (c : State F) : List F := c.history

/-- Method `Calculator::clearHistory`. -/
def clearHistory {F : Type} (c : State F) : State F :=
  { c with history := [] }

/-- Method `Calculator::getLastResult`. -/
def getLastResult {F : Type} (c : State F) : Except Exception F :=
  match c.history with
  | [] => .error (.runtime_error "No calculations performed yet")
  | first :: rest => .ok ((first :: rest).getLast (List.cons_ne_nil first rest))

/-- Method `Calculator::evaluateExpression`. -/
def evaluateExpression {F : Type} (fp : DoubleOps F) (c : State F) (expression : String) :
    Except Exception F × State F :=
  if expression.length == 0 then
    (.error (.invalid_argument "Empty expression"), c)
  else if expression = "2+3" then add fp c (fp.ofInt 2) (fp.ofInt 3)
  else if expression = "10-4" then subtract fp c (fp.ofInt 10) (fp.ofInt 4)
  else if expression = "6*7" then multiply fp c (fp.ofInt 6) (fp.ofInt 7)
  else if expression = "15/3" then divide fp c (fp.ofInt 15) (fp.ofInt 3)
  else (.error (.invalid_argument "Unsupported expression format"), c)

/-- Method `Calculator::reset`. -/
def reset {F : Type} (fp : DoubleOps F) (_c : State F) : State F :=
  { history := [], memory := fp.ofInt 0, degrees_mode := true }

/-- One call of an arithmetic operation, with its arguments. -/
inductive Arith (F : Type) where
  | add (a b : F)
  | subtract (a b : F)
  | multiply (a b : F)
  | divide (a b : F)
  | power (base exponent : F)
  | sqrt (value : F)
  | sin (angle : F)
  | cos (angle : F)

/-- The outcome of one arithmetic operation and the state it leaves. -/
def Arith.run {F : Type} (fp : DoubleOps F) : Arith F → State F → Except Exception F × State F
  | .add a b, c => Calculator.add fp c a b
  | .subtract a b, c => Calculator.subtract fp c a b
  | .multiply a b, c => Calculator.multiply fp c a b
  | .divide a b, c => Calculator.divide fp c a b
  | .power base exponent, c => Calculator.power fp c base exponent
  | .sqrt value, c => Calculator.sqrt fp c value
  | .sin angle, c => Calculator.sin fp c angle
  | .cos angle, c => Calculator.cos fp c angle

/-- A sequence of arithmetic operations run in order: the outcome of each and
the final state. -/
def runArith {F : Type} (fp : DoubleOps F) :
    List (Arith F) → State F → List (Except Exception F) × State F
  | [], c => ([], c)
  | a :: rest, c =>
    let r := a.run fp c
    let t := runArith fp rest r.2
    (r.1 :: t.1, t.2)

/-- One call of a method that can change a `Calculator`. -/
inductive Op (F : Type) where
  | arith (a : Arith F)
  | setMemory (value : F)
  | clearMemory
  | setDegreesMode (degrees : Bool)
  | addToHistory (value : F)
  | clearHistory
  | evaluateExpression (expression : String)
  | reset

/-- The state one call leaves. -/
def Op.run {F : Type} (fp : DoubleOps F) : Op F → State F → State F
  | .arith a, c => (a.run fp c).2
  | .setMemory value, c => Calculator.setMemory c value
  | .clearMemory, c => Calculator.clearMemory fp c
  | .setDegreesMode degrees, c => Calculator.setDegreesMode c degrees
  | .addToHistory value, c => Calculator.addToHistory c value
  | .clearHistory, c => Calculator.clearHistory c
  | .evaluateExpression expression, c => (Calculator.evaluateExpression fp c expression).2
  | .reset, c => Calculator.reset fp c

/-- The state a sequence of calls, made in order, leaves. -/
def runOps {F : Type} (fp : DoubleOps F) : List (Op F) → State F → State F
  | [], c => c
  | op :: rest, c => runOps fp rest (op.run fp c)

/-- Integers standing in for `double` in examples; `sin` and `cos` are not
computed. -/
def intOps : DoubleOps Int where
  ofInt := fun x => x
  ofSize := fun n => n
  pi := 3
  eq := fun a b => a == b
  lt := fun a b => decide (a < b)
  add := fun a b => a + b
  sub := fun a b => a - b
  mul := fun a b => a * b
  div := fun a b => a / b
  pow := fun a b => a ^ b.toNat
  sqrt := fun a => Int.sqrt a
  sin := fun _ => 0
  cos := fun _ => 1

end Calculator

/-! ## Input string streams (`<sstream>`), as far as `user_service.cpp` uses them -/

namespace Cpp

/-- A `std::istringstream`: the elements not yet extracted and the state flags
`eofbit` and `failbit`. -/
structure IStringStream where
  rest : List Char
  eofbit : Bool
  failbit : Bool
  deriving DecidableEq

/-- Constructor `std::istringstream(data)`: all of `data` is still to read and
no flag is set. -/
def IStringStream.new (data : String) : IStringStream :=
  { rest := data.data, eofbit := false, failbit := false }

/-- The extraction of `std::getline`: elements are taken until the end of the
input or until `delim`, which is taken off the input and not stored.  Returns
the elements stored, the input left, and whether the end of the input was met. -/
def getlineLoop (delim : Char) : List Char → List Char → List Char × List Char × Bool
  | [], stored => (stored, [], true)
  | c :: cs, stored =>
    if c = delim then (stored, cs, false) else getlineLoop delim cs (stored ++ [c])

/-- Function `std::getline(ss, str, delim)`, returning the new `str` and the
stream.  On a stream with a flag set nothing is read, `str` is kept and
`failbit` is set; otherwise `str` is replaced by the elements extracted,
`eofbit` is set when the end of the input was met and `failbit` when nothing was
extracted, the delimiter neither. -/
def getline (ss : IStringStream) (str : String) (delim : Char) : String × IStringStream :=
  if ss.eofbit || ss.failbit then
    (str, { ss with failbit := true })
  else
    let r := getlineLoop delim ss.rest []
    (String.mk r.1, { rest := r.2.1, eofbit := r.2.2, failbit := r.2.2 && r.1.isEmpty })

end Cpp

/-! ## The record service (`user_service.cpp`) -/

namespace UserService

open Cpp

/-- Interface `IDatabase` of `interfaces.hpp`, over the world `σ`. -/
structure IDatabase (σ : Type) where
  save : String → String → σ → Bool × σ
  load : String → σ → String × σ
  remove : String → σ → Bool × σ
  getAllKeys : σ → List String × σ
  «exists» : String → σ → Bool × σ

/-- The two collaborators a `UserService` is constructed with. -/
structure Deps (σ : Type) where
  database : IDatabase σ
  logger : FileProcessor.ILogger σ

/-- Record `User`. -/
structure User where
  id : String
  name : String
  email : String
  deriving DecidableEq

/-- One call on a collaborator of the service, with its arguments and its
result. -/
inductive Call where
  | save (key value : String) (result : Bool)
  | load (key : String) (result : String)
  | remove (key : String) (result : Bool)
  | getAllKeys (result : List String)
  | «exists» (key : String) (result : Bool)
  | info (message : String)
  | warning (message : String)
  | error (message : String)
  | debug (message : String)
  deriving DecidableEq

/-- The call is `IDatabase::save`. -/
def Call.isSave : Call → Bool
  | .save _ _ _ => true
  | _ => false

/-- The world the collaborators live in and the ghost log of the calls made on
them (oldest first); a `UserService` has no other data member. -/
structure State (σ : Type) where
  world : σ
  calls : List Call

/-- Constructor `UserService::UserService`. -/
def new {σ : Type} (w : σ) : State σ := { world := w, calls := [] }

/-- The calls logged in `st1` since `st0`. -/
def callsSince {σ : Type} (st0 st1 : State σ) : List Call :=
  st1.calls.drop st0.calls.length

/-- Call `database->exists(key)`, logged with its result. -/
def callExists {σ : Type} (D : Deps σ) (key : String) (st : State σ) : Bool × State σ :=
  let r := D.database.«exists» key st.world
  (r.1, { world := r.2, calls := st.calls ++ [Call.«exists» key r.1] })

/-- Call `database->save(key, value)`, logged with its result. -/
def callSave {σ : Type} (D : Deps σ) (key value : String) (st : State σ) : Bool × State σ :=
  let r := D.database.save key value st.world
  (r.1, { world := r.2, calls := st.calls ++ [Call.save key value r.1] })

/-- Call `database->load(key)`, logged with its result. -/
def callLoad {σ : Type} (D : Deps σ) (key : String) (st : State σ) : String × State σ :=
  let r := D.database.load key st.world
  (r.1, { world := r.2, calls := st.calls ++ [Call.load key r.1] })

/-- Call `database->remove(key)`, logged with its result. -/
def callRemove {σ : Type} (D : Deps σ) (key : String) (st : State σ) : Bool × State σ :=
  let r := D.database.remove key st.world
  (r.1, { world := r.2, calls := st.calls ++ [Call.remove key r.1] })

/-- Call `database->getAllKeys()`, logged with its result. -/
def callGetAllKeys {σ : Type} (D : Deps σ) (st : State σ) : List String × State σ :=
  let r := D.database.getAllKeys st.world
  (r.1, { world := r.2, calls := st.calls ++ [Call.getAllKeys r.1] })

/-- Call `logger->info(message)`, logged. -/
def logInfo {σ : Type} (D : Deps σ) (message : String) (st : State σ) : State σ :=
  { world := D.logger.info message st.world, calls := st.calls ++ [Call.info message] }

/-- Call `logger->warning(message)`, logged. -/
def logWarning {σ : Type} (D : Deps σ) (message : String) (st : State σ) : State σ :=
  { world := D.logger.warning message st.world, calls := st.calls ++ [Call.warning message] }

/-- Call `logger->error(message)`, logged. -/
def logError {σ : Type} (D : Deps σ) (message : String) (st : State σ) : State σ :=
  { world := D.logger.error message st.world, calls := st.calls ++ [Call.error message] }

/-- Call `logger->debug(message)`, logged. -/
def logDebug {σ : Type} (D : Deps σ) (message : String) (st : State σ) : State σ :=
  { world := D.logger.debug message st.world, calls := st.calls ++ [Call.debug message] }

/-- Method `std::string::empty()`. -/
def empty (s : String) : Bool := s.length == 0

/-- Method `UserService::userToString`. -/
def userToString (user : User) : String :=
  user.id ++ "|" ++ user.name ++ "|" ++ user.email

/-- Method `UserService::stringToUser`: three `std::getline` on one stream, the
later ones only when the earlier ones succeeded (`||` short-circuits), and
`std::invalid_argument` when one of them leaves `failbit` set. -/
def stringToUser (data : String) : Except Exception User :=
  let ss := IStringStream.new data
  let g1 := getline ss "" '|'
  if g1.2.failbit then
    .error (.invalid_argument "Invalid user data format")
  else
    let g2 := getline g1.2 "" '|'
    if g2.2.failbit then
      .error (.invalid_argument "Invalid user data format")
    else
      let g3 := getline g2.2 "" '\n'
      if g3.2.failbit then
        .error (.invalid_argument "Invalid user data format")
      else
        .ok { id := g1.1, name := g2.1, email := g3.1 }

/-- Method `UserService::createUser`. -/
def createUser {σ : Type} (D : Deps σ) (user : User) (st : State σ) : Bool × State σ :=
  if empty user.id || empty user.name || empty user.email then
    (false, logError D "Invalid user data: missing required fields" st)
  else
    let e := callExists D user.id st
    if e.1 then
      (false, logWarning D ("User already exists: " ++ user.id) e.2)
    else
      let userData := userToString user
      let s := callSave D user.id userData e.2
      let success := s.1
      if success then
        (success, logInfo D ("User created successfully: " ++ user.id) s.2)
      else
        (success, logError D ("Failed to create user: " ++ user.id) s.2)

/-- Method `UserService::getUser`; the `User*` returned is `none` for `nullptr`
and `some` of the new record otherwise.  The `catch` takes the exception of
`stringToUser`. -/
def getUser {σ : Type} (D : Deps σ) (userId : String) (st : State σ) :
    Option User × State σ :=
  if empty userId then
    (none, logError D "Invalid user ID: empty string" st)
  else
    let e := callExists D userId st
    if !e.1 then
      (none, logWarning D ("User not found: " ++ userId) e.2)
    else
      let l := callLoad D userId e.2
      let userData := l.1
      if empty userData then
        (none, logError D ("Failed to load user data: " ++ userId) l.2)
      else
        match stringToUser userData with
        | .ok user => (some user, logInfo D ("User retrieved successfully: " ++ userId) l.2)
        | .error _ => (none, logError D ("Failed to parse user data: " ++ userId) l.2)

/-- Method `UserService::updateUser`. -/
def updateUser {σ : Type} (D : Deps σ) (user : User) (st : State σ) : Bool × State σ :=
  if empty user.id then
    (false, logError D "Cannot update user: empty ID" st)
  else
    let e := callExists D user.id st
    if !e.1 then
      (false, logWarning D ("Cannot update non-existent user: " ++ user.id) e.2)
    else
      let userData := userToString user
      let s := callSave D user.id userData e.2
      let success := s.1
      if success then
        (success, logInfo D ("User updated successfully: " ++ user.id) s.2)
      else
        (success, logError D ("Failed to update user: " ++ user.id) s.2)

/-- Method `UserService::deleteUser`. -/
def deleteUser {σ : Type} (D : Deps σ) (userId : String) (st : State σ) : Bool × State σ :=
  if empty userId then
    (false, logError D "Cannot delete user: empty ID" st)
  else
    let e := callExists D userId st
    if !e.1 then
      (false, logWarning D ("Cannot delete non-existent user: " ++ userId) e.2)
    else
      let r := callRemove D userId e.2
      let success := r.1
      if success then
        (success, logInfo D ("User deleted successfully: " ++ userId) r.2)
      else
        (success, logError D ("Failed to delete user: " ++ userId) r.2)

/-- Method `UserService::getAllUserIds`. -/
def getAllUserIds {σ : Type} (D : Deps σ) (st : State σ) : List String × State σ :=
  callGetAllKeys D (logDebug D "Retrieving all user IDs" st)

/-! ### A database that keeps what is saved -/

/-- Follows the words "a database that returns the saved string", not the
source (the repository has no implementation of `IDatabase`): a database that
keeps its records in a list of key and value.  `save` replaces the record of
the key and succeeds, `load` returns the value saved last under the key (the
empty string when there is none), `exists` tells whether there is one; the
logger keeps nothing. -/
def keeping : Deps (List (String × String)) where
  database :=
    { save := fun k v w => (true, (k, v) :: w.filter (fun p => p.1 != k))
      load := fun k w => ((w.lookup k).getD "", w)
      remove := fun k w => ((w.lookup k).isSome, w.filter (fun p => p.1 != k))
      getAllKeys := fun w => (w.map Prod.fst, w)
      «exists» := fun k w => ((w.lookup k).isSome, w) }
  logger :=
    { info := fun _ w => w
      warning := fun _ w => w
      error := fun _ w => w
      debug := fun _ w => w }

end UserService

namespace FileProcessor

/-! ## Lemmas on the instrumented calls -/

section CallLemmas
variable {σ : Type} (D : Deps σ) (st : State σ)

@[simp] theorem callFileExists_calls (f : String) :
    (callFileExists D f st).2.calls
      = st.calls ++ [Call.fileExists f (callFileExists D f st).1] := rfl

@[simp] theorem callFileExists_total (f : String) :
    (callFileExists D f st).2.totalProcessedSize = st.totalProcessedSize := rfl

@[simp] theorem callReadFile_calls (f : String) :
    (callReadFile D f st).2.calls
      = st.calls ++ [Call.readFile f (callReadFile D f st).1] := rfl

@[simp] theorem callReadFile_total (f : String) :
    (callReadFile D f st).2.totalProcessedSize = st.totalProcessedSize := rfl

@[simp] theorem callWriteFile_calls (f c : String) :
    (callWriteFile D f c st).2.calls
      = st.calls ++ [Call.writeFile f c (callWriteFile D f c st).1] := rfl

@[simp] theorem callWriteFile_total (f c : String) :
    (callWriteFile D f c st).2.totalProcessedSize = st.totalProcessedSize := rfl

@[simp] theorem callSetTimeout_calls (n : Int) :
    (callSetTimeout D n st).calls = st.calls ++ [Call.setTimeout n] := rfl

@[simp] theorem callSetTimeout_total (n : Int) :
    (callSetTimeout D n st).totalProcessedSize = st.totalProcessedSize := rfl

@[simp] theorem callGet_calls (u : String) :
    (callGet D u st).2.calls = st.calls ++ [Call.get u (callGet D u st).1] := rfl

@[simp] theorem callGet_total (u : String) :
    (callGet D u st).2.totalProcessedSize = st.totalProcessedSize := rfl

@[simp] theorem callGetResponseCode_calls :
    (callGetResponseCode D st).2.calls
      = st.calls ++ [Call.getResponseCode (callGetResponseCode D st).1] := rfl

@[simp] theorem callGetResponseCode_total :
    (callGetResponseCode D st).2.totalProcessedSize = st.totalProcessedSize := rfl

@[simp] theorem logInfo_calls (m : String) :
    (logInfo D m st).calls = st.calls ++ [Call.info m] := rfl

@[simp] theorem logInfo_total (m : String) :
    (logInfo D m st).totalProcessedSize = st.totalProcessedSize := rfl

@[simp] theorem logWarning_calls (m : String) :
    (logWarning D m st).calls = st.calls ++ [Call.warning m] := rfl

@[simp] theorem logWarning_total (m : String) :
    (logWarning D m st).totalProcessedSize = st.totalProcessedSize := rfl

@[simp] theorem logError_calls (m : String) :
    (logError D m st).calls = st.calls ++ [Call.error m] := rfl

@[simp] theorem logError_total (m : String) :
    (logError D m st).totalProcessedSize = st.totalProcessedSize := rfl

end CallLemmas

/-! ## Lemmas on the policies -/

theorem empty_iff (s : String) : empty s = true ↔ s = "" := by
  cases s with
  | mk l =>
    simp only [empty, String.length, beq_iff_eq, List.length_eq_zero]
    constructor
    · intro h; subst h; rfl
    · intro h; exact congrArg String.data h

theorem empty_eq_false_iff (s : String) : empty s = false ↔ s ≠ "" := by
  rw [Ne, ← empty_iff]; simp

theorem validateContent_iff (content : String) :
    validateContent content = true ↔ content ≠ "" ∧ content.length ≤ 1000000 := by
  simp [validateContent, empty_eq_false_iff]

theorem length_gt_of_not_validateContent {content : String} (hne : content ≠ "")
    (h : (!validateContent content) = true) : 1000000 < content.length := by
  have h1 : ¬ validateContent content = true := by simpa using h
  rw [validateContent_iff] at h1
  have h2 : ¬ content.length ≤ 1000000 := fun hle => h1 ⟨hne, hle⟩
  omega

theorem length_le_of_validateContent {content : String}
    (h : ¬ (!validateContent content) = true) : content.length ≤ 1000000 := by
  have h1 : validateContent content = true := by simpa using h
  exact ((validateContent_iff content).1 h1).2

theorem transformContent_length (content : String) :
    (transformContent content).length = content.length + 11 := by
  have h : ("PROCESSED: " : String).length = 11 := by decide
  unfold transformContent
  rw [String.length_append, h, String.length_mk, List.length_map, Nat.add_comm]
  rfl

/-! ## Every run of an operation follows one of its paths -/

theorem processFile_path {σ : Type} (D : Deps σ) (inputFile outputFile : String)
    (st : State σ) :
    ProcessFilePath inputFile outputFile
      (callsSince st (processFile D inputFile outputFile st).2)
      (processFile D inputFile outputFile st).1
      st.totalProcessedSize (processFile D inputFile outputFile st).2.totalProcessedSize := by
  dsimp only [processFile]
  split_ifs with h1 h2 h3 h4 h5
  · refine .invalidNames ?_ ?_ rfl rfl
    · simpa [empty_iff] using h1
    · simp [callsSince]
  · simp only [Bool.or_eq_true, empty_iff, not_or] at h1
    simp at h2
    refine .missing h1.1 h1.2 ?_ rfl rfl
    simp [callsSince, h2]
  · simp only [Bool.or_eq_true, empty_iff, not_or] at h1
    rw [empty_iff] at h3
    simp at h2
    refine .emptyContent h1.1 h1.2 ?_ rfl rfl
    simp [callsSince, h2, h3]
  · simp only [Bool.or_eq_true, empty_iff, not_or] at h1
    rw [empty_iff] at h3
    have h4 := length_gt_of_not_validateContent h3 h4
    simp at h2
    refine .invalidContent _ h1.1 h1.2 h3 h4 ?_ rfl rfl
    simp [callsSince, h2]
  · simp only [Bool.or_eq_true, empty_iff, not_or] at h1
    rw [empty_iff] at h3
    have h4 := length_le_of_validateContent h4
    simp at h2
    refine .written _ h1.1 h1.2 h3 h4 ?_ h5 (by simp)
    simp [callsSince, h2, h5]
  · simp only [Bool.or_eq_true, empty_iff, not_or] at h1
    rw [empty_iff] at h3
    have h4 := length_le_of_validateContent h4
    simp at h2 h5
    refine .writeFailed _ h1.1 h1.2 h3 h4 ?_ h5 (by simp)
    simp [callsSince, h2, h5]

theorem downloadAndProcess_path {σ : Type} (D : Deps σ) (url outputFile : String)
    (st : State σ) :
    DownloadPath url outputFile
      (callsSince st (downloadAndProcess D url outputFile st).2)
      (downloadAndProcess D url outputFile st).1
      st.totalProcessedSize
      (downloadAndProcess D url outputFile st).2.totalProcessedSize := by
  dsimp only [downloadAndProcess]
  split_ifs with h1 h2 h3 h4 h5
  · refine .invalidArgs ?_ ?_ rfl rfl
    · simpa [empty_iff] using h1
    · simp [callsSince]
  · simp only [Bool.or_eq_true, empty_iff, not_or] at h1
    refine .badStatus
      (callGet D url (callSetTimeout D 30 (logInfo D ("Downloading from URL: " ++ url) st))).1
      _ h1.1 h1.2 h2 ?_ rfl rfl
    simp [callsSince]
  · simp only [Bool.or_eq_true, empty_iff, not_or] at h1
    rw [empty_iff] at h3
    simp at h2
    refine .emptyContent h1.1 h1.2 ?_ rfl rfl
    simp [callsSince, h2, h3]
  · simp only [Bool.or_eq_true, empty_iff, not_or] at h1
    rw [empty_iff] at h3
    have h4 := length_gt_of_not_validateContent h3 h4
    simp at h2
    refine .invalidContent _ h1.1 h1.2 h3 h4 ?_ rfl rfl
    simp [callsSince, h2]
  · simp only [Bool.or_eq_true, empty_iff, not_or] at h1
    rw [empty_iff] at h3
    have h4 := length_le_of_validateContent h4
    simp at h2
    refine .written _ h1.1 h1.2 h3 h4 ?_ h5 (by simp)
    simp [callsSince, h2, h5]
  · simp only [Bool.or_eq_true, empty_iff, not_or] at h1
    rw [empty_iff] at h3
    have h4 := length_le_of_validateContent h4
    simp at h2 h5
    refine .writeFailed _ h1.1 h1.2 h3 h4 ?_ h5 (by simp)
    simp [callsSince, h2, h5]

theorem backupFile_path {σ : Type} (D : Deps σ) (filename : String) (st : State σ) :
    BackupPath filename
      (callsSince st (backupFile D filename st).2)
      (backupFile D filename st).1
      st.totalProcessedSize (backupFile D filename st).2.totalProcessedSize := by
  dsimp only [backupFile]
  split_ifs with h1 h2 h3
  · rw [empty_iff] at h1
    exact .emptyName h1 (by simp [callsSince]) rfl rfl
  · rw [empty_iff] at h1
    simp at h2
    exact .missing h1 (by simp [callsSince, h2]) rfl rfl
  · rw [empty_iff] at h1
    simp at h2
    refine .copied (callReadFile D filename (callFileExists D filename st).2).1 h1 ?_ h3
      (by simp)
    simp [callsSince, h2, h3]
  · rw [empty_iff] at h1
    simp at h2 h3
    refine .copyFailed (callReadFile D filename (callFileExists D filename st).2).1 h1 ?_ h3
      (by simp)
    simp [callsSince, h2, h3]

/-! ## processFile -/

theorem oversized_length : oversized.length = 1000001 :=
  List.length_replicate 1000001 'x'

/-- The guards of `processFile` read off the log: when a name is empty, or the
log of the run shows `fileExists(inputFile)` answered false, or shows
`readFile(inputFile)` returned the empty string or more than 1,000,000
characters, the run returned false and left the counter as it was. -/
theorem processFile_false_of_logged_guard {σ : Type} (D : Deps σ)
    (inputFile outputFile : String) (st : State σ)
    (h : inputFile = "" ∨ outputFile = "" ∨
      Call.fileExists inputFile false ∈
        callsSince st (processFile D inputFile outputFile st).2 ∨
      Call.readFile inputFile "" ∈
        callsSince st (processFile D inputFile outputFile st).2 ∨
      ∃ content, 1000000 < content.length ∧
        Call.readFile inputFile content ∈
          callsSince st (processFile D inputFile outputFile st).2) :
    (processFile D inputFile outputFile st).1 = false ∧
      getTotalProcessedSize (processFile D inputFile outputFile st).2
        = getTotalProcessedSize st := by
  unfold getTotalProcessedSize
  rcases processFile_path D inputFile outputFile st with
    ⟨_, _, hr, ht⟩ | ⟨_, _, _, hr, ht⟩ | ⟨_, _, _, hr, ht⟩ | ⟨c, _, _, _, _, _, hr, ht⟩ |
    ⟨c, hi, ho, hne, hlen, hc, _, _⟩ | ⟨c, _, _, _, _, _, hr, ht⟩
  · exact ⟨hr, ht⟩
  · exact ⟨hr, ht⟩
  · exact ⟨hr, ht⟩
  · exact ⟨hr, ht⟩
  · exfalso
    rw [hc] at h
    rcases h with h | h | h | h | ⟨c2, h2, h⟩
    · exact hi h
    · exact ho h
    · simp at h
    · simp at h
      exact hne h.symm
    · simp at h
      subst h
      omega
  · exact ⟨hr, ht⟩

/-- C1: for every processor state and every behaviour of the collaborators,
`processFile(inputFile, outputFile)` returns false and leaves
`getTotalProcessedSize()` unchanged whenever `inputFile` is empty, `outputFile`
is empty, the Storage answers false to `fileExists(inputFile)`, the Storage
returns the empty string to `readFile(inputFile)`, or it returns a content of
more than 1,000,000 characters.  The answers are those the Storage gives in
the world in which `processFile` asks: `fileExists` in the world of the call,
`readFile` in the world after `fileExists` and the `info` message. -/
theorem processFile_guard_failure_returns_false {σ : Type} (D : Deps σ)
    (inputFile outputFile : String) (st : State σ)
    (h : inputFile = "" ∨ outputFile = "" ∨
      (D.fileSystem.fileExists inputFile st.world).1 = false ∨
      (D.fileSystem.readFile inputFile
        (D.logger.info ("Processing file: " ++ inputFile)
          (D.fileSystem.fileExists inputFile st.world).2)).1 = "" ∨
      1000000 < (D.fileSystem.readFile inputFile
        (D.logger.info ("Processing file: " ++ inputFile)
          (D.fileSystem.fileExists inputFile st.world).2)).1.length) :
    (processFile D inputFile outputFile st).1 = false ∧
      getTotalProcessedSize (processFile D inputFile outputFile st).2
        = getTotalProcessedSize st := by
  unfold getTotalProcessedSize
  dsimp only [processFile]
  split_ifs with h1 h2 h3 h4 h5
  · exact ⟨rfl, rfl⟩
  · exact ⟨rfl, rfl⟩
  · exact ⟨rfl, rfl⟩
  · exact ⟨rfl, rfl⟩
  · exfalso
    simp only [Bool.or_eq_true, empty_iff, not_or] at h1
    rw [empty_iff] at h3
    have h4 := length_le_of_validateContent h4
    simp only [callFileExists, Bool.not_eq_true, Bool.not_eq_eq_eq_not, Bool.not_false] at h2
    simp only [callReadFile, callFileExists, logInfo] at h3 h4
    rcases h with h | h | h | h | h
    · exact h1.1 h
    · exact h1.2 h
    · rw [h] at h2; simp at h2
    · exact h3 h
    · omega
  · exact ⟨by simpa using h5, rfl⟩

/-- Witness for C1, one run for each guard, every other guard passing: an empty
input name, an empty output name, a missing input, an input that reads as the
empty string, an input of 1,000,001 characters; each returns false with the
counter still at 7, and with no guard failing the run returns true. -/
theorem processFile_guard_failure_returns_false_witness :
    (processFile (stub true "hello" true "" 200) "" "out.txt" used).1 = false ∧
      (processFile (stub true "hello" true "" 200) "in.txt" "" used).1 = false ∧
      (processFile (stub false "hello" true "" 200) "in.txt" "out.txt" used).1 = false ∧
      (processFile (stub true "" true "" 200) "in.txt" "out.txt" used).1 = false ∧
      (processFile shelf "B" "out.txt" used).1 = false ∧
      getTotalProcessedSize (processFile (stub true "hello" true "" 200) "" "out.txt" used).2
        = 7 ∧
      getTotalProcessedSize (processFile (stub true "hello" true "" 200) "in.txt" "" used).2
        = 7 ∧
      getTotalProcessedSize
        (processFile (stub false "hello" true "" 200) "in.txt" "out.txt" used).2 = 7 ∧
      getTotalProcessedSize (processFile (stub true "" true "" 200) "in.txt" "out.txt" used).2
        = 7 ∧
      getTotalProcessedSize (processFile shelf "B" "out.txt" used).2 = 7 ∧
      (processFile (stub true "hello" true "" 200) "in.txt" "out.txt" used).1 = true :=
  ⟨(processFile_guard_failure_returns_false (stub true "hello" true "" 200) "" "out.txt" used (Or.inl rfl)).1,
    (processFile_guard_failure_returns_false (stub true "hello" true "" 200) "in.txt" "" used (Or.inr (Or.inl rfl))).1,
    (processFile_guard_failure_returns_false (stub false "hello" true "" 200) "in.txt" "out.txt" used
      (Or.inr (Or.inr (Or.inl rfl)))).1,
    (processFile_guard_failure_returns_false (stub true "" true "" 200) "in.txt" "out.txt" used
      (Or.inr (Or.inr (Or.inr (Or.inl rfl))))).1,
    (processFile_guard_failure_returns_false shelf "B" "out.txt" used
      (Or.inr (Or.inr (Or.inr (Or.inr
        (show 1000000 < oversized.length by rw [oversized_length]; decide)))))).1,
    (processFile_guard_failure_returns_false (stub true "hello" true "" 200) "" "out.txt" used (Or.inl rfl)).2,
    (processFile_guard_failure_returns_false (stub true "hello" true "" 200) "in.txt" "" used (Or.inr (Or.inl rfl))).2,
    (processFile_guard_failure_returns_false (stub false "hello" true "" 200) "in.txt" "out.txt" used
      (Or.inr (Or.inr (Or.inl rfl)))).2,
    (processFile_guard_failure_returns_false (stub true "" true "" 200) "in.txt" "out.txt" used
      (Or.inr (Or.inr (Or.inr (Or.inl rfl))))).2,
    (processFile_guard_failure_returns_false shelf "B" "out.txt" used
      (Or.inr (Or.inr (Or.inr (Or.inr
        (show 1000000 < oversized.length by rw [oversized_length]; decide)))))).2,
    by decide⟩

/-- C2, amended: when `processFile(inputFile, outputFile)` returns true and `content`
is what its call `readFile(inputFile)` returned, `getTotalProcessedSize()`
after the call is its value before plus `content.size()` in `size_t`
arithmetic (exactly that sum whenever the sum fits `size_t`), and it is not
the value before plus the size of the transformed content, which is
`content.size() + 11`. -/
theorem processFile_success_adds_input_size {σ : Type} (D : Deps σ)
    (inputFile outputFile : String) (st : State σ) (content : String)
    (hret : (processFile D inputFile outputFile st).1 = true)
    (hread : Call.readFile inputFile content ∈
      callsSince st (processFile D inputFile outputFile st).2) :
    getTotalProcessedSize (processFile D inputFile outputFile st).2
        = (getTotalProcessedSize st + content.length) % SIZE_MOD ∧
      (getTotalProcessedSize st + content.length < SIZE_MOD →
        getTotalProcessedSize (processFile D inputFile outputFile st).2
          = getTotalProcessedSize st + content.length) ∧
      (transformContent content).length = content.length + 11 ∧
      getTotalProcessedSize (processFile D inputFile outputFile st).2
        ≠ (getTotalProcessedSize st + (transformContent content).length) % SIZE_MOD := by
  unfold getTotalProcessedSize
  rw [transformContent_length]
  rcases processFile_path D inputFile outputFile st with
    ⟨_, _, hr, _⟩ | ⟨_, _, _, hr, _⟩ | ⟨_, _, _, hr, _⟩ | ⟨c, _, _, _, _, _, hr, _⟩ |
    ⟨c, _, _, _, _, hc, _, ht⟩ | ⟨c, _, _, _, _, _, hr, _⟩
  · rw [hr] at hret; cases hret
  · rw [hr] at hret; cases hret
  · rw [hr] at hret; cases hret
  · rw [hr] at hret; cases hret
  · rw [hc] at hread
    simp at hread
    subst hread
    rw [ht]
    unfold SIZE_MOD
    refine ⟨rfl, ?_, rfl, ?_⟩
    · intro hfit
      exact Nat.mod_eq_of_lt hfit
    · omega
  · rw [hr] at hret; cases hret

/-- Witness for C2: the content "hello" adds 5 (from 7 to 12), not 16. -/
theorem processFile_success_adds_input_size_witness :
    getTotalProcessedSize (processFile (stub true "hello" true "" 200) "in.txt" "out.txt" used).2
        = (7 + 5) % SIZE_MOD ∧
      (7 + 5 < SIZE_MOD →
        getTotalProcessedSize
          (processFile (stub true "hello" true "" 200) "in.txt" "out.txt" used).2 = 7 + 5) ∧
      (transformContent "hello").length = 5 + 11 ∧
      getTotalProcessedSize (processFile (stub true "hello" true "" 200) "in.txt" "out.txt" used).2
        ≠ (7 + (transformContent "hello").length) % SIZE_MOD :=
  processFile_success_adds_input_size (stub true "hello" true "" 200) "in.txt" "out.txt" used
    "hello" (by decide) (by decide)

/-- C3: `processFile(inputFile, outputFile)` returns true if and only if both
names are non-empty, its call `fileExists(inputFile)` answered true, its call
`readFile(inputFile)` returned a non-empty content of at most 1,000,000
characters, and its call `writeFile(outputFile, ...)` answered true.  The
guards run in that order and the first failing one decides: with an empty name
Storage is not asked at all; with a missing input only `fileExists` is asked;
with an empty or oversized content only `fileExists` and `readFile` are asked;
in each of these cases the result is false; otherwise the three Storage calls
are made and the result is the answer of `writeFile`. -/
theorem processFile_true_iff_guards_in_order {σ : Type} (D : Deps σ)
    (inputFile outputFile : String) (st : State σ) :
    ((processFile D inputFile outputFile st).1 = true ↔
      inputFile ≠ "" ∧ outputFile ≠ "" ∧
      Call.fileExists inputFile true ∈
        callsSince st (processFile D inputFile outputFile st).2 ∧
      (∃ content, Call.readFile inputFile content ∈
          callsSince st (processFile D inputFile outputFile st).2 ∧
        content ≠ "" ∧ content.length ≤ 1000000) ∧
      (∃ written, Call.writeFile outputFile written true ∈
          callsSince st (processFile D inputFile outputFile st).2)) ∧
    (((inputFile = "" ∨ outputFile = "") ∧
        (processFile D inputFile outputFile st).1 = false ∧
        (callsSince st (processFile D inputFile outputFile st).2).filter Call.isStorage = []) ∨
      (inputFile ≠ "" ∧ outputFile ≠ "" ∧
        (processFile D inputFile outputFile st).1 = false ∧
        (callsSince st (processFile D inputFile outputFile st).2).filter Call.isStorage
          = [Call.fileExists inputFile false]) ∨
      (inputFile ≠ "" ∧ outputFile ≠ "" ∧
        ∃ content, (content = "" ∨ 1000000 < content.length) ∧
          (processFile D inputFile outputFile st).1 = false ∧
          (callsSince st (processFile D inputFile outputFile st).2).filter Call.isStorage
            = [Call.fileExists inputFile true, Call.readFile inputFile content]) ∨
      (inputFile ≠ "" ∧ outputFile ≠ "" ∧
        ∃ content, content ≠ "" ∧ content.length ≤ 1000000 ∧
          (callsSince st (processFile D inputFile outputFile st).2).filter Call.isStorage
            = [Call.fileExists inputFile true, Call.readFile inputFile content,
                Call.writeFile outputFile (transformContent content)
                  (processFile D inputFile outputFile st).1])) := by
  rcases processFile_path D inputFile outputFile st with
    ⟨hn, hc, hr, _⟩ | ⟨hi, ho, hc, hr, _⟩ | ⟨hi, ho, hc, hr, _⟩ |
    ⟨c, hi, ho, hne, hlen, hc, hr, _⟩ | ⟨c, hi, ho, hne, hlen, hc, hr, _⟩ |
    ⟨c, hi, ho, hne, hlen, hc, hr, _⟩
  · refine ⟨?_, Or.inl ⟨hn, hr, by simp [hc, Call.isStorage]⟩⟩
    rw [hr]
    constructor
    · intro h; cases h
    · rintro ⟨h1, h2, _⟩
      rcases hn with hn | hn
      · exact absurd hn h1
      · exact absurd hn h2
  · refine ⟨?_, Or.inr (Or.inl ⟨hi, ho, hr, by simp [hc, Call.isStorage]⟩)⟩
    rw [hr, hc]
    simp
  · refine ⟨?_, Or.inr (Or.inr (Or.inl ⟨hi, ho, "", Or.inl rfl, hr,
      by simp [hc, Call.isStorage]⟩))⟩
    rw [hr, hc]
    simp
  · refine ⟨?_, Or.inr (Or.inr (Or.inl ⟨hi, ho, c, Or.inr hlen, hr,
      by simp [hc, Call.isStorage]⟩))⟩
    rw [hr, hc]
    simp
  · refine ⟨?_, Or.inr (Or.inr (Or.inr ⟨hi, ho, c, hne, hlen,
      by simp [hc, hr, Call.isStorage]⟩))⟩
    rw [hr, hc]
    simp
    exact ⟨hi, ho, hne, hlen⟩
  · refine ⟨?_, Or.inr (Or.inr (Or.inr ⟨hi, ho, c, hne, hlen,
      by simp [hc, hr, Call.isStorage]⟩))⟩
    rw [hr, hc]
    simp

/-- C4: when the write is reached (all guards of `processFile` passed) and
`writeFile(outputFile, ...)` answers false, `processFile` returns false, makes
exactly one error-level Diagnostics call and leaves `getTotalProcessedSize()`
unchanged. -/
theorem processFile_write_failure {σ : Type} (D : Deps σ)
    (inputFile outputFile : String) (st : State σ) (written : String)
    (hw : Call.writeFile outputFile written false ∈
      callsSince st (processFile D inputFile outputFile st).2) :
    (processFile D inputFile outputFile st).1 = false ∧
      (callsSince st (processFile D inputFile outputFile st).2).countP Call.isError = 1 ∧
      getTotalProcessedSize (processFile D inputFile outputFile st).2
        = getTotalProcessedSize st := by
  unfold getTotalProcessedSize
  rcases processFile_path D inputFile outputFile st with
    ⟨_, hc, _, _⟩ | ⟨_, _, hc, _, _⟩ | ⟨_, _, hc, _, _⟩ | ⟨c, _, _, _, _, hc, _, _⟩ |
    ⟨c, _, _, _, _, hc, _, _⟩ | ⟨c, _, _, _, _, hc, hr, ht⟩
  · rw [hc] at hw; simp at hw
  · rw [hc] at hw; simp at hw
  · rw [hc] at hw; simp at hw
  · rw [hc] at hw; simp at hw
  · rw [hc] at hw; simp at hw
  · exact ⟨hr, by simp [hc, Call.isError], ht⟩

/-- Witness for C4: a valid input whose write is refused. -/
theorem processFile_write_failure_witness :
    Call.writeFile "out.txt" "PROCESSED: HELLO" false ∈
        callsSince used (processFile (stub true "hello" false "" 200) "in.txt" "out.txt" used).2 ∧
      (processFile (stub true "hello" false "" 200) "in.txt" "out.txt" used).1 = false ∧
      (callsSince used
          (processFile (stub true "hello" false "" 200) "in.txt" "out.txt" used).2).countP
        Call.isError = 1 ∧
      getTotalProcessedSize
          (processFile (stub true "hello" false "" 200) "in.txt" "out.txt" used).2
        = getTotalProcessedSize used :=
  ⟨by decide,
    processFile_write_failure (stub true "hello" false "" 200) "in.txt" "out.txt" used
      "PROCESSED: HELLO" (by decide)⟩

/-- C5: the Storage calls of one `processFile(inputFile, outputFile)` are a
prefix of `[fileExists(inputFile), readFile(inputFile), writeFile(outputFile,
transformContent(content))]`, `content` being what `readFile` returned;
`writeFile` is not called when a guard fails; neither `readFile` nor
`writeFile` is called when the input is missing; and when all guards pass
`writeFile` is called exactly once, with `outputFile` and the transformed
content. -/
theorem processFile_storage_calls_initial_segment {σ : Type} (D : Deps σ)
    (inputFile outputFile : String) (st : State σ) :
    (∃ exist content result,
      (callsSince st (processFile D inputFile outputFile st).2).filter Call.isStorage <+:
        [Call.fileExists inputFile exist, Call.readFile inputFile content,
          Call.writeFile outputFile (transformContent content) result]) ∧
    ((inputFile = "" ∨ outputFile = "" ∨
        Call.fileExists inputFile false ∈
          callsSince st (processFile D inputFile outputFile st).2 ∨
        (∃ content, (content = "" ∨ 1000000 < content.length) ∧
          Call.readFile inputFile content ∈
            callsSince st (processFile D inputFile outputFile st).2)) →
      (callsSince st (processFile D inputFile outputFile st).2).countP Call.isWriteFile = 0) ∧
    (Call.fileExists inputFile false ∈
        callsSince st (processFile D inputFile outputFile st).2 →
      (callsSince st (processFile D inputFile outputFile st).2).countP Call.isReadFile = 0 ∧
      (callsSince st (processFile D inputFile outputFile st).2).countP Call.isWriteFile = 0) ∧
    (∀ content, content ≠ "" → content.length ≤ 1000000 →
      Call.readFile inputFile content ∈
        callsSince st (processFile D inputFile outputFile st).2 →
      ∃ result,
        (callsSince st (processFile D inputFile outputFile st).2).filter Call.isWriteFile
          = [Call.writeFile outputFile (transformContent content) result]) := by
  rcases processFile_path D inputFile outputFile st with
    ⟨hn, hc, hr, _⟩ | ⟨hi, ho, hc, hr, _⟩ | ⟨hi, ho, hc, hr, _⟩ |
    ⟨c, hi, ho, hne, hlen, hc, hr, _⟩ | ⟨c, hi, ho, hne, hlen, hc, hr, _⟩ |
    ⟨c, hi, ho, hne, hlen, hc, hr, _⟩
  · rw [hc]
    refine ⟨⟨false, "", false, by simp [Call.isStorage]⟩, ?_, ?_, ?_⟩
    · intro _; simp [Call.isWriteFile]
    · intro h; simp at h
    · intro x _ _ h; simp at h
  · rw [hc]
    refine ⟨⟨false, "", false, ⟨[Call.readFile inputFile "",
      Call.writeFile outputFile (transformContent "") false], by simp [Call.isStorage]⟩⟩,
      ?_, ?_, ?_⟩
    · intro _; simp [Call.isWriteFile]
    · intro _; simp [Call.isReadFile, Call.isWriteFile]
    · intro x _ _ h; simp at h
  · rw [hc]
    refine ⟨⟨true, "", false, ⟨[Call.writeFile outputFile (transformContent "") false],
      by simp [Call.isStorage]⟩⟩, ?_, ?_, ?_⟩
    · intro _; simp [Call.isWriteFile]
    · intro h; simp at h
    · intro x hx _ h
      simp at h
      exact absurd h hx
  · rw [hc]
    refine ⟨⟨true, c, false, ⟨[Call.writeFile outputFile (transformContent c) false],
      by simp [Call.isStorage]⟩⟩, ?_, ?_, ?_⟩
    · intro _; simp [Call.isWriteFile]
    · intro h; simp at h
    · intro x _ hx h
      simp at h
      subst h
      omega
  · rw [hc]
    refine ⟨⟨true, c, true, ⟨[], by simp [Call.isStorage]⟩⟩, ?_, ?_, ?_⟩
    · rintro (h | h | h | ⟨x, hx, h⟩)
      · exact absurd h hi
      · exact absurd h ho
      · simp at h
      · simp at h
        subst h
        rcases hx with hx | hx
        · exact absurd hx hne
        · omega
    · intro h; simp at h
    · intro x _ _ h
      simp at h
      subst h
      exact ⟨true, by simp [Call.isWriteFile]⟩
  · rw [hc]
    refine ⟨⟨true, c, false, ⟨[], by simp [Call.isStorage]⟩⟩, ?_, ?_, ?_⟩
    · rintro (h | h | h | ⟨x, hx, h⟩)
      · exact absurd h hi
      · exact absurd h ho
      · simp at h
      · simp at h
        subst h
        rcases hx with hx | hx
        · exact absurd hx hne
        · omega
    · intro h; simp at h
    · intro x _ _ h
      simp at h
      subst h
      exact ⟨false, by simp [Call.isWriteFile]⟩

/-- Witness for C5: a missing input (only `fileExists` is asked) and a valid
input (one `writeFile` with the transformed content). -/
theorem processFile_storage_calls_initial_segment_witness :
    ((callsSince used (processFile (stub false "hello" true "" 200) "in.txt" "out.txt" used).2).countP
        Call.isReadFile = 0 ∧
      (callsSince used (processFile (stub false "hello" true "" 200) "in.txt" "out.txt" used).2).countP
        Call.isWriteFile = 0) ∧
    (∃ result,
      (callsSince used (processFile (stub true "hello" true "" 200) "in.txt" "out.txt" used).2).filter
          Call.isWriteFile
        = [Call.writeFile "out.txt" (transformContent "hello") result]) :=
  ⟨(processFile_storage_calls_initial_segment (stub false "hello" true "" 200) "in.txt" "out.txt"
      used).2.2.1 (by decide),
    (processFile_storage_calls_initial_segment (stub true "hello" true "" 200) "in.txt" "out.txt"
      used).2.2.2 "hello" (by decide) (by decide) (by decide)⟩

/-! ## Empty arguments -/

theorem backupFile_empty_filename {σ : Type} (D : Deps σ) (st : State σ) :
    backupFile D "" st = (false, logError D "Cannot backup: empty filename" st) := by
  simp [backupFile, empty]

/-- C6: with an empty locator argument (`inputFile` or `outputFile` of
`processFile`, `url` or `outputFile` of `downloadAndProcess`, `filename` of
`backupFile`) the operation returns false and its only collaborator call is
one error-level Diagnostics call: no call on Storage or Transport is made. -/
theorem empty_locator_only_logs_error {σ : Type} (D : Deps σ) (st : State σ) :
    (∀ inputFile outputFile : String, inputFile = "" ∨ outputFile = "" →
      (processFile D inputFile outputFile st).1 = false ∧
      callsSince st (processFile D inputFile outputFile st).2
        = [Call.error "Invalid file names provided"] ∧
      (callsSince st (processFile D inputFile outputFile st).2).filter
        (fun c => c.isStorage || c.isTransport) = []) ∧
    (∀ url outputFile : String, url = "" ∨ outputFile = "" →
      (downloadAndProcess D url outputFile st).1 = false ∧
      callsSince st (downloadAndProcess D url outputFile st).2
        = [Call.error "Invalid URL or output file name"] ∧
      (callsSince st (downloadAndProcess D url outputFile st).2).filter
        (fun c => c.isStorage || c.isTransport) = []) ∧
    (∀ filename : String, filename = "" →
      (backupFile D filename st).1 = false ∧
      callsSince st (backupFile D filename st).2
        = [Call.error "Cannot backup: empty filename"] ∧
      (callsSince st (backupFile D filename st).2).filter
        (fun c => c.isStorage || c.isTransport) = []) := by
  refine ⟨?_, ?_, ?_⟩
  · intro inputFile outputFile h
    rcases processFile_path D inputFile outputFile st with
      ⟨_, hc, hr, _⟩ | ⟨hi, ho, _, _, _⟩ | ⟨hi, ho, _, _, _⟩ | ⟨c, hi, ho, _, _, _, _, _⟩ |
      ⟨c, hi, ho, _, _, _, _, _⟩ | ⟨c, hi, ho, _, _, _, _, _⟩
    · exact ⟨hr, hc, by simp [hc, Call.isStorage, Call.isTransport]⟩
    all_goals exact absurd h (not_or.2 ⟨hi, ho⟩)
  · intro url outputFile h
    rcases downloadAndProcess_path D url outputFile st with
      ⟨_, hc, hr, _⟩ | ⟨c, k, hi, ho, _, _, _, _⟩ | ⟨hi, ho, _, _, _⟩ |
      ⟨c, hi, ho, _, _, _, _, _⟩ | ⟨c, hi, ho, _, _, _, _, _⟩ | ⟨c, hi, ho, _, _, _, _, _⟩
    · exact ⟨hr, hc, by simp [hc, Call.isStorage, Call.isTransport]⟩
    all_goals exact absurd h (not_or.2 ⟨hi, ho⟩)
  · intro filename h
    subst h
    rw [backupFile_empty_filename]
    simp [callsSince, Call.isStorage, Call.isTransport]

/-- Witness for C6: each operation with an empty argument. -/
theorem empty_locator_only_logs_error_witness :
    callsSince used (processFile (stub true "hello" true "hello" 200) "in.txt" "" used).2
        = [Call.error "Invalid file names provided"] ∧
      callsSince used (downloadAndProcess (stub true "hello" true "hello" 200) "" "out.txt" used).2
        = [Call.error "Invalid URL or output file name"] ∧
      callsSince used (backupFile (stub true "hello" true "hello" 200) "" used).2
        = [Call.error "Cannot backup: empty filename"] :=
  ⟨((empty_locator_only_logs_error (stub true "hello" true "hello" 200) used).1
      "in.txt" "" (Or.inr rfl)).2.1,
    ((empty_locator_only_logs_error (stub true "hello" true "hello" 200) used).2.1
      "" "out.txt" (Or.inl rfl)).2.1,
    ((empty_locator_only_logs_error (stub true "hello" true "hello" 200) used).2.2
      "" rfl).2.1⟩

/-! ## downloadAndProcess -/

/-- C7: whenever the status code read by `downloadAndProcess(url, outputFile)`
is not 200, whatever content `get(url)` returned, the call returns false, logs
exactly one error, never calls `writeFile` and leaves
`getTotalProcessedSize()` unchanged.  (The status code is read only when `url`
and `outputFile` are non-empty.) -/
theorem downloadAndProcess_non200_fails {σ : Type} (D : Deps σ)
    (url outputFile : String) (st : State σ) (code : Int) (hcode : code ≠ 200)
    (h : Call.getResponseCode code ∈
      callsSince st (downloadAndProcess D url outputFile st).2) :
    (downloadAndProcess D url outputFile st).1 = false ∧
      (callsSince st (downloadAndProcess D url outputFile st).2).countP Call.isError = 1 ∧
      (callsSince st (downloadAndProcess D url outputFile st).2).countP Call.isWriteFile = 0 ∧
      getTotalProcessedSize (downloadAndProcess D url outputFile st).2
        = getTotalProcessedSize st := by
  unfold getTotalProcessedSize
  rcases downloadAndProcess_path D url outputFile st with
    ⟨_, hc, hr, ht⟩ | ⟨c, k, _, _, _, hc, hr, ht⟩ | ⟨_, _, hc, hr, ht⟩ |
    ⟨c, _, _, _, _, hc, hr, ht⟩ | ⟨c, _, _, _, _, hc, hr, ht⟩ | ⟨c, _, _, _, _, hc, hr, ht⟩
  · rw [hc] at h; simp at h
  · exact ⟨hr, by simp [hc, Call.isError], by simp [hc, Call.isWriteFile], ht⟩
  · rw [hc] at h; simp at h; exact absurd h hcode
  · rw [hc] at h; simp at h; exact absurd h hcode
  · rw [hc] at h; simp at h; exact absurd h hcode
  · rw [hc] at h; simp at h; exact absurd h hcode

/-- Witness for C7: status 404 with a non-empty, valid body. -/
theorem downloadAndProcess_non200_fails_witness :
    Call.get "http://test.com" "Content 1" ∈
        callsSince used
          (downloadAndProcess (stub true "" true "Content 1" 404) "http://test.com" "out.txt"
            used).2 ∧
      (downloadAndProcess (stub true "" true "Content 1" 404) "http://test.com" "out.txt"
        used).1 = false ∧
      (callsSince used
          (downloadAndProcess (stub true "" true "Content 1" 404) "http://test.com" "out.txt"
            used).2).countP Call.isError = 1 ∧
      (callsSince used
          (downloadAndProcess (stub true "" true "Content 1" 404) "http://test.com" "out.txt"
            used).2).countP Call.isWriteFile = 0 ∧
      getTotalProcessedSize
          (downloadAndProcess (stub true "" true "Content 1" 404) "http://test.com" "out.txt"
            used).2
        = getTotalProcessedSize used :=
  ⟨by decide,
    downloadAndProcess_non200_fails (stub true "" true "Content 1" 404) "http://test.com"
      "out.txt" used 404 (by decide) (by decide)⟩

/-- C8: for non-empty `url` and `outputFile`, the Transport calls of
`downloadAndProcess(url, outputFile)` are exactly `setTimeout(30)`, then
`get(url)`, then `getResponseCode()`: each once and in this order. -/
theorem downloadAndProcess_transport_calls {σ : Type} (D : Deps σ)
    (url outputFile : String) (st : State σ) (hurl : url ≠ "") (hout : outputFile ≠ "") :
    ∃ content code,
      (callsSince st (downloadAndProcess D url outputFile st).2).filter Call.isTransport
        = [Call.setTimeout 30, Call.get url content, Call.getResponseCode code] := by
  rcases downloadAndProcess_path D url outputFile st with
    ⟨hn, _, _, _⟩ | ⟨c, k, _, _, _, hc, _, _⟩ | ⟨_, _, hc, _, _⟩ |
    ⟨c, _, _, _, _, hc, _, _⟩ | ⟨c, _, _, _, _, hc, _, _⟩ | ⟨c, _, _, _, _, hc, _, _⟩
  · exact absurd hn (not_or.2 ⟨hurl, hout⟩)
  · exact ⟨c, k, by simp [hc, Call.isTransport]⟩
  · exact ⟨"", 200, by simp [hc, Call.isTransport]⟩
  · exact ⟨c, 200, by simp [hc, Call.isTransport]⟩
  · exact ⟨c, 200, by simp [hc, Call.isTransport]⟩
  · exact ⟨c, 200, by simp [hc, Call.isTransport]⟩

/-- Witness for C8: a download that fails with status 404. -/
theorem downloadAndProcess_transport_calls_witness :
    ∃ content code,
      (callsSince used
          (downloadAndProcess (stub true "" true "Content 1" 404) "http://test.com" "out.txt"
            used).2).filter Call.isTransport
        = [Call.setTimeout 30, Call.get "http://test.com" content, Call.getResponseCode code] :=
  downloadAndProcess_transport_calls (stub true "" true "Content 1" 404) "http://test.com"
    "out.txt" used (by decide) (by decide)

/-- C9, amended: when `downloadAndProcess(url, outputFile)` reads status 200 and
`get(url)` returned a non-empty content of at most 1,000,000 characters, it
calls `writeFile(outputFile, transformContent(content))` exactly once, returns
the answer of that call, and `getTotalProcessedSize()` grows by
`content.size()` (in `size_t` arithmetic; exactly, when the sum fits) if the
answer was true and stays as it was if the answer was false. -/
theorem downloadAndProcess_valid_content {σ : Type} (D : Deps σ)
    (url outputFile : String) (st : State σ) (content : String)
    (h200 : Call.getResponseCode 200 ∈
      callsSince st (downloadAndProcess D url outputFile st).2)
    (hget : Call.get url content ∈
      callsSince st (downloadAndProcess D url outputFile st).2)
    (hne : content ≠ "") (hlen : content.length ≤ 1000000) :
    (callsSince st (downloadAndProcess D url outputFile st).2).filter Call.isWriteFile
        = [Call.writeFile outputFile (transformContent content)
            (downloadAndProcess D url outputFile st).1] ∧
      ((downloadAndProcess D url outputFile st).1 = true →
        getTotalProcessedSize (downloadAndProcess D url outputFile st).2
          = (getTotalProcessedSize st + content.length) % SIZE_MOD ∧
        (getTotalProcessedSize st + content.length < SIZE_MOD →
          getTotalProcessedSize (downloadAndProcess D url outputFile st).2
            = getTotalProcessedSize st + content.length)) ∧
      ((downloadAndProcess D url outputFile st).1 = false →
        getTotalProcessedSize (downloadAndProcess D url outputFile st).2
          = getTotalProcessedSize st) := by
  unfold getTotalProcessedSize
  rcases downloadAndProcess_path D url outputFile st with
    ⟨_, hc, hr, ht⟩ | ⟨c, k, _, _, hk, hc, hr, ht⟩ | ⟨_, _, hc, hr, ht⟩ |
    ⟨c, _, _, _, hl, hc, hr, ht⟩ | ⟨c, _, _, _, _, hc, hr, ht⟩ | ⟨c, _, _, _, _, hc, hr, ht⟩
  · rw [hc] at hget; simp at hget
  · rw [hc] at h200; simp at h200; exact absurd h200.symm hk
  · rw [hc] at hget; simp at hget; exact absurd hget hne
  · rw [hc] at hget; simp at hget; subst hget; omega
  · rw [hc] at hget; simp at hget; subst hget
    refine ⟨by simp [hc, hr, Call.isWriteFile], ?_, ?_⟩
    · intro _
      exact ⟨ht, fun hfit => by rw [ht]; exact Nat.mod_eq_of_lt hfit⟩
    · intro hf; rw [hr] at hf; cases hf
  · rw [hc] at hget; simp at hget; subst hget
    refine ⟨by simp [hc, hr, Call.isWriteFile], ?_, ?_⟩
    · intro hf; rw [hr] at hf; cases hf
    · intro _; exact ht

/-- Witness for C9: status 200 with the body "Content 1", written with
success. -/
theorem downloadAndProcess_valid_content_witness :
    (callsSince used
        (downloadAndProcess (stub true "" true "Content 1" 200) "http://test.com" "out.txt"
          used).2).filter Call.isWriteFile
      = [Call.writeFile "out.txt" "PROCESSED: CONTENT 1" true] ∧
    getTotalProcessedSize
        (downloadAndProcess (stub true "" true "Content 1" 200) "http://test.com" "out.txt"
          used).2 = 16 :=
  ⟨(downloadAndProcess_valid_content (stub true "" true "Content 1" 200) "http://test.com"
      "out.txt" used "Content 1" (by decide) (by decide) (by decide) (by decide)).1,
    ((downloadAndProcess_valid_content (stub true "" true "Content 1" 200) "http://test.com"
      "out.txt" used "Content 1" (by decide) (by decide) (by decide) (by decide)).2.1
        (by decide)).2 (by decide)⟩

/-- C10, as stated, fails: with non-empty arguments, an empty fetched content
and status 404, `downloadAndProcess` reports the failure by an error-level
call and makes no warning-level call. -/
theorem downloadAndProcess_empty_content_404_logs_error :
    (downloadAndProcess (stub true "" true "" 404) "http://test.com" "out.txt" used).1 = false ∧
      callsSince used
          (downloadAndProcess (stub true "" true "" 404) "http://test.com" "out.txt" used).2
        = [Call.info "Downloading from URL: http://test.com", Call.setTimeout 30,
            Call.get "http://test.com" "", Call.getResponseCode 404,
            Call.error "Failed to download from URL: http://test.com"] ∧
      (callsSince used
          (downloadAndProcess (stub true "" true "" 404) "http://test.com" "out.txt"
            used).2).countP Call.isWarning = 0 ∧
      (callsSince used
          (downloadAndProcess (stub true "" true "" 404) "http://test.com" "out.txt"
            used).2).countP Call.isError = 1 := by
  decide

/-- C10, amended: when `downloadAndProcess(url, outputFile)` reads status 200
and `get(url)` returned the empty content, the call returns false and reports
the failure by exactly one warning-level Diagnostics call and no error-level
one.  (Both calls are made only when `url` and `outputFile` are non-empty.) -/
theorem downloadAndProcess_empty_content_200_warns {σ : Type} (D : Deps σ)
    (url outputFile : String) (st : State σ)
    (h200 : Call.getResponseCode 200 ∈
      callsSince st (downloadAndProcess D url outputFile st).2)
    (hget : Call.get url "" ∈
      callsSince st (downloadAndProcess D url outputFile st).2) :
    (downloadAndProcess D url outputFile st).1 = false ∧
      (callsSince st (downloadAndProcess D url outputFile st).2).countP Call.isWarning = 1 ∧
      (callsSince st (downloadAndProcess D url outputFile st).2).countP Call.isError = 0 := by
  rcases downloadAndProcess_path D url outputFile st with
    ⟨_, hc, hr, ht⟩ | ⟨c, k, _, _, hk, hc, hr, ht⟩ | ⟨_, _, hc, hr, ht⟩ |
    ⟨c, _, _, hne, _, hc, hr, ht⟩ | ⟨c, _, _, hne, _, hc, hr, ht⟩ |
    ⟨c, _, _, hne, _, hc, hr, ht⟩
  · rw [hc] at hget; simp at hget
  · rw [hc] at h200; simp at h200; exact absurd h200.symm hk
  · exact ⟨hr, by simp [hc, Call.isWarning], by simp [hc, Call.isError]⟩
  · rw [hc] at hget; simp at hget; exact absurd hget.symm hne
  · rw [hc] at hget; simp at hget; exact absurd hget.symm hne
  · rw [hc] at hget; simp at hget; exact absurd hget.symm hne

/-- Witness for C10, amended: status 200 with an empty body. -/
theorem downloadAndProcess_empty_content_200_warns_witness :
    (downloadAndProcess (stub true "" true "" 200) "http://test.com" "out.txt" used).1 = false ∧
      (callsSince used
          (downloadAndProcess (stub true "" true "" 200) "http://test.com" "out.txt"
            used).2).countP Call.isWarning = 1 ∧
      (callsSince used
          (downloadAndProcess (stub true "" true "" 200) "http://test.com" "out.txt"
            used).2).countP Call.isError = 0 :=
  downloadAndProcess_empty_content_200_warns (stub true "" true "" 200) "http://test.com"
    "out.txt" used (by decide) (by decide)

/-! ## backupFile -/

/-- C11: `backupFile` never changes `getTotalProcessedSize()`; and whenever
its call `fileExists(filename)` answered true (so `filename` is non-empty and
exists), its Storage calls are exactly `fileExists(filename)`,
`readFile(filename)` and one `writeFile(filename + ".backup", C)` where `C` is
the very string `readFile` returned: no validation and no transformation,
whatever `C` is (empty or longer than 1,000,000 characters included). -/
theorem backupFile_copies_verbatim {σ : Type} (D : Deps σ) (filename : String)
    (st : State σ) :
    getTotalProcessedSize (backupFile D filename st).2 = getTotalProcessedSize st ∧
    (Call.fileExists filename true ∈ callsSince st (backupFile D filename st).2 →
      filename ≠ "" ∧
      ∃ content,
        (callsSince st (backupFile D filename st).2).filter Call.isStorage
          = [Call.fileExists filename true, Call.readFile filename content,
              Call.writeFile (filename ++ ".backup") content (backupFile D filename st).1]) ∧
    (∀ content, Call.readFile filename content ∈ callsSince st (backupFile D filename st).2 →
      (callsSince st (backupFile D filename st).2).filter Call.isWriteFile
        = [Call.writeFile (filename ++ ".backup") content (backupFile D filename st).1]) := by
  unfold getTotalProcessedSize
  rcases backupFile_path D filename st with
    ⟨_, hc, _, ht⟩ | ⟨_, hc, _, ht⟩ | ⟨c, hn, hc, hr, ht⟩ | ⟨c, hn, hc, hr, ht⟩
  · refine ⟨ht, ?_, ?_⟩
    · intro h; rw [hc] at h; simp at h
    · intro x h; rw [hc] at h; simp at h
  · refine ⟨ht, ?_, ?_⟩
    · intro h; rw [hc] at h; simp at h
    · intro x h; rw [hc] at h; simp at h
  · refine ⟨ht, ?_, ?_⟩
    · intro _
      exact ⟨hn, c, by simp [hc, hr, Call.isStorage]⟩
    · intro x h
      rw [hc] at h; simp at h; subst h
      simp [hc, hr, Call.isWriteFile]
  · refine ⟨ht, ?_, ?_⟩
    · intro _
      exact ⟨hn, c, by simp [hc, hr, Call.isStorage]⟩
    · intro x h
      rw [hc] at h; simp at h; subst h
      simp [hc, hr, Call.isWriteFile]

/-- Witness for C11: an existing file that reads as the empty string is copied
as it is, and the counter stays at 7. -/
theorem backupFile_copies_verbatim_witness :
    getTotalProcessedSize (backupFile (stub true "" true "" 200) "a.txt" used).2 = 7 ∧
    (∃ content,
      (callsSince used (backupFile (stub true "" true "" 200) "a.txt" used).2).filter
          Call.isStorage
        = [Call.fileExists "a.txt" true, Call.readFile "a.txt" content,
            Call.writeFile ("a.txt" ++ ".backup") content
              (backupFile (stub true "" true "" 200) "a.txt" used).1]) ∧
    (callsSince used (backupFile (stub true "" true "" 200) "a.txt" used).2).filter
        Call.isWriteFile
      = [Call.writeFile ("a.txt" ++ ".backup") ""
          (backupFile (stub true "" true "" 200) "a.txt" used).1] :=
  ⟨(backupFile_copies_verbatim (stub true "" true "" 200) "a.txt" used).1,
    ((backupFile_copies_verbatim (stub true "" true "" 200) "a.txt" used).2.1
      (by decide)).2,
    (backupFile_copies_verbatim (stub true "" true "" 200) "a.txt" used).2.2 ""
      (by decide)⟩

/-- C12: `backupFile(filename)` returns true if and only if `filename` is
non-empty, its call `fileExists(filename)` answered true and its write to
`filename + ".backup"` answered true; with an empty or missing `filename` it
returns false and calls neither `readFile` nor `writeFile`; every false return
makes exactly one Diagnostics call, at error level, and every true return
exactly one, at info level. -/
theorem backupFile_true_iff {σ : Type} (D : Deps σ) (filename : String) (st : State σ) :
    ((backupFile D filename st).1 = true ↔
      filename ≠ "" ∧
      Call.fileExists filename true ∈ callsSince st (backupFile D filename st).2 ∧
      ∃ content, Call.writeFile (filename ++ ".backup") content true ∈
        callsSince st (backupFile D filename st).2) ∧
    ((filename = "" ∨
        Call.fileExists filename false ∈ callsSince st (backupFile D filename st).2) →
      (backupFile D filename st).1 = false ∧
      (callsSince st (backupFile D filename st).2).countP Call.isReadFile = 0 ∧
      (callsSince st (backupFile D filename st).2).countP Call.isWriteFile = 0) ∧
    ((backupFile D filename st).1 = false →
      ∃ message,
        (callsSince st (backupFile D filename st).2).filter Call.isDiagnostics
          = [Call.error message]) ∧
    ((backupFile D filename st).1 = true →
      ∃ message,
        (callsSince st (backupFile D filename st).2).filter Call.isDiagnostics
          = [Call.info message]) := by
  rcases backupFile_path D filename st with
    ⟨hn, hc, hr, _⟩ | ⟨hn, hc, hr, _⟩ | ⟨c, hn, hc, hr, _⟩ | ⟨c, hn, hc, hr, _⟩
  · rw [hr, hc]
    refine ⟨?_, ?_, ?_, ?_⟩
    · simp [hn]
    · intro _; simp [Call.isReadFile, Call.isWriteFile]
    · intro _; exact ⟨_, by simp [Call.isDiagnostics]; rfl⟩
    · intro h; cases h
  · rw [hr, hc]
    refine ⟨?_, ?_, ?_, ?_⟩
    · simp
    · intro _; simp [Call.isReadFile, Call.isWriteFile]
    · intro _; exact ⟨_, by simp [Call.isDiagnostics]; rfl⟩
    · intro h; cases h
  · rw [hr, hc]
    refine ⟨?_, ?_, ?_, ?_⟩
    · simp [hn]
    · rintro (h | h)
      · exact absurd h hn
      · simp at h
    · intro h; cases h
    · intro _; exact ⟨_, by simp [Call.isDiagnostics]; rfl⟩
  · rw [hr, hc]
    refine ⟨?_, ?_, ?_, ?_⟩
    · simp
    · rintro (h | h)
      · exact absurd h hn
      · simp at h
    · intro _; exact ⟨_, by simp [Call.isDiagnostics]; rfl⟩
    · intro h; cases h

/-- Witness for C12: a missing file (false, one error, nothing read or
written) and an existing one (true, one info). -/
theorem backupFile_true_iff_witness :
    ((backupFile (stub false "hello" true "" 200) "a.txt" used).1 = false ∧
      (callsSince used (backupFile (stub false "hello" true "" 200) "a.txt" used).2).countP
        Call.isReadFile = 0 ∧
      (callsSince used (backupFile (stub false "hello" true "" 200) "a.txt" used).2).countP
        Call.isWriteFile = 0) ∧
    (∃ message,
      (callsSince used (backupFile (stub true "hello" true "" 200) "a.txt" used).2).filter
          Call.isDiagnostics
        = [Call.info message]) :=
  ⟨(backupFile_true_iff (stub false "hello" true "" 200) "a.txt" used).2.1
      (Or.inr (by decide)),
    (backupFile_true_iff (stub true "hello" true "" 200) "a.txt" used).2.2.2 (by decide)⟩

/-! ## processMultipleFiles -/

theorem processEach_length {σ : Type} (D : Deps σ) (files : List String) (st : State σ) :
    (processEach D files st).1.length = files.length := by
  induction files generalizing st with
  | nil => rfl
  | cons f rest ih => simp [processEach, ih]

theorem processMultipleFilesLoop_eq {σ : Type} (D : Deps σ) (files results : List String)
    (st : State σ) :
    processMultipleFilesLoop D files results st
      = (results ++ ((files.zip (processEach D files st).1).filter (fun p => p.2)).map
            (fun p => p.1 ++ ".processed"),
          (processEach D files st).2) := by
  induction files generalizing results st with
  | nil => simp [processMultipleFilesLoop, processEach]
  | cons f rest ih =>
    simp only [processMultipleFilesLoop, processEach]
    split_ifs with h
    · rw [ih]
      simp [h]
    · rw [ih]
      simp [h]

theorem processFile_calls_append {σ : Type} (D : Deps σ) (inputFile outputFile : String)
    (st : State σ) :
    (processFile D inputFile outputFile st).2.calls
      = st.calls ++ callsSince st (processFile D inputFile outputFile st).2 := by
  have h : ∃ l, (processFile D inputFile outputFile st).2.calls = st.calls ++ l := by
    dsimp only [processFile]
    split_ifs <;> simp
  obtain ⟨l, hl⟩ := h
  simp [callsSince, hl]

theorem processEach_calls_append {σ : Type} (D : Deps σ) (files : List String)
    (st : State σ) :
    (processEach D files st).2.calls = st.calls ++ callsSince st (processEach D files st).2 := by
  have h : ∃ l, (processEach D files st).2.calls = st.calls ++ l := by
    induction files generalizing st with
    | nil => exact ⟨[], by simp [processEach]⟩
    | cons f rest ih =>
      obtain ⟨l, hl⟩ := ih (processFile D f (f ++ ".processed") st).2
      refine ⟨callsSince st (processFile D f (f ++ ".processed") st).2 ++ l, ?_⟩
      simp only [processEach]
      rw [hl, processFile_calls_append, List.append_assoc]
  obtain ⟨l, hl⟩ := h
  simp [callsSince, hl]

theorem validateContent_oversized : validateContent oversized = false := by
  simp [validateContent, oversized_length]

theorem processFile_shelf (f o : String) (st : State Unit) (hf : f ≠ "") (ho : o ≠ "") :
    (processFile shelf f o st).1 = decide (f ≠ "B") := by
  have h1 : empty f = false := (empty_eq_false_iff f).2 hf
  have h2 : empty o = false := (empty_eq_false_iff o).2 ho
  have e1 : empty "hello" = false := by decide
  have v1 : validateContent "hello" = true := by decide
  have e2 : empty oversized = false := by simp [empty, oversized_length]
  by_cases hB : f = "B"
  · subst hB
    have hb : empty "B" = false := by decide
    simp [processFile, hb, h2, callFileExists, callReadFile, callWriteFile, shelf, e2,
      validateContent_oversized]
  · simp [processFile, h1, h2, callFileExists, callReadFile, callWriteFile, shelf, hB, e1, v1]

theorem processEach_shelf (st : State Unit) :
    (processEach shelf ["A", "B", "C"] st).1 = [true, false, true] := by
  simp only [processEach]
  rw [processFile_shelf _ _ _ (by decide) (by decide),
    processFile_shelf _ _ _ (by decide) (by decide),
    processFile_shelf _ _ _ (by decide) (by decide)]
  decide

/-- C13: `processMultipleFiles(files)` returns exactly the names
`f + ".processed"` of those positions of `files` at which the delegated
`processFile(f, f + ".processed")` returned true, in source order, so at most
`files.size()` names; for `[A, B, C]` where the calls return true, false, true
the result is `[A.processed, C.processed]`. -/
theorem processMultipleFiles_returns_succeeded {σ : Type} (D : Deps σ) (st : State σ) :
    (∀ files : List String,
      (processMultipleFiles D files st).1
          = ((files.zip (processEach D files
                (logInfo D ("Processing multiple files, count: " ++ toString files.length)
                  st)).1).filter (fun p => p.2)).map (fun p => p.1 ++ ".processed") ∧
        (processEach D files
          (logInfo D ("Processing multiple files, count: " ++ toString files.length)
            st)).1.length = files.length ∧
        (processMultipleFiles D files st).1.length ≤ files.length) ∧
    (∀ A B C : String,
      (processEach D [A, B, C]
        (logInfo D ("Processing multiple files, count: " ++ toString [A, B, C].length)
          st)).1 = [true, false, true] →
      (processMultipleFiles D [A, B, C] st).1 = [A ++ ".processed", C ++ ".processed"]) := by
  have key : ∀ files : List String,
      (processMultipleFiles D files st).1
        = ((files.zip (processEach D files
              (logInfo D ("Processing multiple files, count: " ++ toString files.length)
                st)).1).filter (fun p => p.2)).map (fun p => p.1 ++ ".processed") := by
    intro files
    simp [processMultipleFiles, processMultipleFilesLoop_eq]
  refine ⟨fun files => ⟨key files, processEach_length D files _, ?_⟩, ?_⟩
  · rw [key files, List.length_map]
    refine le_trans (List.length_filter_le _ _) ?_
    rw [List.length_zip, processEach_length]
    simp
  · intro A B C h
    rw [key, h]
    rfl

/-- Witness for C13: of the files A, B, C only B fails validation (its content
has 1,000,001 elements); the batch returns A.processed and C.processed. -/
theorem processMultipleFiles_returns_succeeded_witness :
    (processMultipleFiles shelf ["A", "B", "C"] used).1
      = ["A" ++ ".processed", "C" ++ ".processed"] :=
  (processMultipleFiles_returns_succeeded shelf used).2 "A" "B" "C" (processEach_shelf _)

theorem processMultipleFiles_state {σ : Type} (D : Deps σ) (files : List String)
    (st : State σ) :
    (processMultipleFiles D files st).2
      = logInfo D
          ("Successfully processed " ++ toString (processMultipleFiles D files st).1.length
            ++ " out of " ++ toString files.length ++ " files")
          (processEach D files
            (logInfo D ("Processing multiple files, count: " ++ toString files.length)
              st)).2 := by
  simp [processMultipleFiles, processMultipleFilesLoop_eq]

theorem processMultipleFiles_calls {σ : Type} (D : Deps σ) (files : List String)
    (st : State σ) :
    callsSince st (processMultipleFiles D files st).2
      = [Call.info ("Processing multiple files, count: " ++ toString files.length)]
        ++ callsSince
            (logInfo D ("Processing multiple files, count: " ++ toString files.length) st)
            (processEach D files
              (logInfo D ("Processing multiple files, count: " ++ toString files.length)
                st)).2
        ++ [Call.info
            ("Successfully processed "
              ++ toString (processMultipleFiles D files st).1.length
              ++ " out of " ++ toString files.length ++ " files")] := by
  rw [processMultipleFiles_state]
  simp only [callsSince, logInfo_calls]
  rw [processEach_calls_append]
  simp [callsSince]

/-- C14: `processMultipleFiles(files)` never aborts early.  Apart from its own
two info messages, one before and one after, the state it leaves (the world of
the collaborators, and so Storage; the log of calls, and so the Diagnostics
trace; the counter) is the state left by calling
`processFile(f, f + ".processed")` once for every element of `files`, in
order, whatever the earlier calls returned; there are `files.size()` such
calls. -/
theorem processMultipleFiles_runs_every_file {σ : Type} (D : Deps σ) (files : List String)
    (st : State σ) :
    (processMultipleFiles D files st).2
        = logInfo D
            ("Successfully processed " ++ toString (processMultipleFiles D files st).1.length
              ++ " out of " ++ toString files.length ++ " files")
            (processEach D files
              (logInfo D ("Processing multiple files, count: " ++ toString files.length)
                st)).2 ∧
      callsSince st (processMultipleFiles D files st).2
        = [Call.info ("Processing multiple files, count: " ++ toString files.length)]
          ++ callsSince
              (logInfo D ("Processing multiple files, count: " ++ toString files.length) st)
              (processEach D files
                (logInfo D ("Processing multiple files, count: " ++ toString files.length)
                  st)).2
          ++ [Call.info
              ("Successfully processed "
                ++ toString (processMultipleFiles D files st).1.length
                ++ " out of " ++ toString files.length ++ " files")] ∧
      getTotalProcessedSize (processMultipleFiles D files st).2
        = getTotalProcessedSize
            (processEach D files
              (logInfo D ("Processing multiple files, count: " ++ toString files.length)
                st)).2 ∧
      (processEach D files
        (logInfo D ("Processing multiple files, count: " ++ toString files.length)
          st)).1.length = files.length := by
  refine ⟨processMultipleFiles_state D files st, processMultipleFiles_calls D files st, ?_,
    processEach_length D files _⟩
  rw [processMultipleFiles_state]
  rfl

/-- C15: for a list `files` of length `n`, the first Diagnostics call of
`processMultipleFiles(files)` is the info message
"Processing multiple files, count: n" and its last Diagnostics call is the info
message "Successfully processed k out of n files", where `k` is the length of
the returned list (numbers in decimal, as `std::to_string` writes them). -/
theorem processMultipleFiles_first_and_last_message {σ : Type} (D : Deps σ)
    (files : List String) (st : State σ) :
    ((callsSince st (processMultipleFiles D files st).2).filter Call.isDiagnostics).head?
        = some (Call.info ("Processing multiple files, count: " ++ toString files.length)) ∧
      ((callsSince st (processMultipleFiles D files st).2).filter Call.isDiagnostics).getLast?
        = some (Call.info
            ("Successfully processed "
              ++ toString (processMultipleFiles D files st).1.length
              ++ " out of " ++ toString files.length ++ " files")) := by
  rw [processMultipleFiles_calls]
  constructor
  · simp [Call.isDiagnostics]
  · rw [List.filter_append]
    have h : List.filter Call.isDiagnostics
        [Call.info
          ("Successfully processed "
            ++ toString (processMultipleFiles D files st).1.length
            ++ " out of " ++ toString files.length ++ " files")]
        = [Call.info
          ("Successfully processed "
            ++ toString (processMultipleFiles D files st).1.length
            ++ " out of " ++ toString files.length ++ " files")] := by
      simp [Call.isDiagnostics]
    rw [h]
    exact List.getLast?_concat _

/-- Example for C15: three files of which the second has an empty name. -/
theorem processMultipleFiles_first_and_last_message_witness :
    ((callsSince used
          (processMultipleFiles (stub true "hello" true "" 200) ["A", "", "C"] used).2).filter
        Call.isDiagnostics).head?
        = some (Call.info "Processing multiple files, count: 3") ∧
      ((callsSince used
          (processMultipleFiles (stub true "hello" true "" 200) ["A", "", "C"] used).2).filter
        Call.isDiagnostics).getLast?
        = some (Call.info "Successfully processed 2 out of 3 files") :=
  processMultipleFiles_first_and_last_message (stub true "hello" true "" 200) ["A", "", "C"]
    used

/-! ## The policies -/

/-- C16: `validateContent(content)` is true if and only if `content` is
non-empty and `content.size() <= 1000000`; a content of exactly 1,000,000
characters is valid and one of 1,000,001 characters is not. -/
theorem validateContent_true_iff_nonempty_and_bounded :
    (∀ content : String,
      validateContent content = true ↔ content ≠ "" ∧ content.length ≤ 1000000) ∧
    (∀ content : String, content.length = 1000000 → validateContent content = true) ∧
    (∀ content : String, content.length = 1000001 → validateContent content = false) := by
  refine ⟨validateContent_iff, ?_, ?_⟩
  · intro content h
    simp [validateContent, empty, h]
  · intro content h
    simp [validateContent, empty, h]

/-- Witness for C16: the contents made of 1,000,000 and of 1,000,001 copies of
one character. -/
theorem validateContent_true_iff_nonempty_and_bounded_witness :
    validateContent (String.mk (List.replicate 1000000 'x')) = true ∧
      validateContent (String.mk (List.replicate 1000001 'x')) = false :=
  ⟨validateContent_true_iff_nonempty_and_bounded.2.1 _ (List.length_replicate 1000000 'x'),
    validateContent_true_iff_nonempty_and_bounded.2.2 _ (List.length_replicate 1000001 'x')⟩

/-- C17: for every `content`, `transformContent(content)` is defined and is
the tag "PROCESSED: " followed by `content` with every character mapped
through `toupper` (which sends `a`..`z` to `A`..`Z` and leaves every other
character as it is); its length is `content.size() + 11`; and
`transformContent("hello")` is "PROCESSED: HELLO". -/
theorem transformContent_tag_then_upper :
    (∀ content : String,
      (transformContent content).data = "PROCESSED: ".data ++ content.data.map toupper ∧
      (transformContent content).length = content.length + 11) ∧
    (∀ c : Char,
      toupper c = if 97 ≤ c.toNat ∧ c.toNat ≤ 122 then Char.ofNat (c.toNat - 32) else c) ∧
    transformContent "hello" = "PROCESSED: HELLO" := by
  refine ⟨fun content => ⟨rfl, transformContent_length content⟩, fun c => rfl, by decide⟩

/-! ## Repeated calls and diagnostics -/

/-- C18, amended: when `processFile(inputFile, outputFile)` is invoked twice in a row,
both calls return true and `readFile(inputFile)` returned the same content `C`
in both, then both calls pass the same content `transformContent(C)` to
`writeFile(outputFile, ...)`, and `getTotalProcessedSize()` grows by
`C.size()` in each call, by twice `C.size()` in total (in `size_t`
arithmetic; exactly, when the sum fits). -/
theorem processFile_twice_same_output {σ : Type} (D : Deps σ)
    (inputFile outputFile : String) (st : State σ) (C : String)
    (h1 : (processFile D inputFile outputFile st).1 = true)
    (h2 : (processFile D inputFile outputFile (processFile D inputFile outputFile st).2).1
      = true)
    (hr1 : Call.readFile inputFile C ∈
      callsSince st (processFile D inputFile outputFile st).2)
    (hr2 : Call.readFile inputFile C ∈
      callsSince (processFile D inputFile outputFile st).2
        (processFile D inputFile outputFile (processFile D inputFile outputFile st).2).2) :
    (callsSince st (processFile D inputFile outputFile st).2).filter Call.isWriteFile
        = [Call.writeFile outputFile (transformContent C) true] ∧
      (callsSince (processFile D inputFile outputFile st).2
          (processFile D inputFile outputFile
            (processFile D inputFile outputFile st).2).2).filter Call.isWriteFile
        = [Call.writeFile outputFile (transformContent C) true] ∧
      getTotalProcessedSize (processFile D inputFile outputFile st).2
        = (getTotalProcessedSize st + C.length) % SIZE_MOD ∧
      getTotalProcessedSize
          (processFile D inputFile outputFile (processFile D inputFile outputFile st).2).2
        = (getTotalProcessedSize (processFile D inputFile outputFile st).2 + C.length)
            % SIZE_MOD ∧
      getTotalProcessedSize
          (processFile D inputFile outputFile (processFile D inputFile outputFile st).2).2
        = (getTotalProcessedSize st + 2 * C.length) % SIZE_MOD ∧
      (getTotalProcessedSize st + 2 * C.length < SIZE_MOD →
        getTotalProcessedSize (processFile D inputFile outputFile st).2
          = getTotalProcessedSize st + C.length ∧
        getTotalProcessedSize
            (processFile D inputFile outputFile (processFile D inputFile outputFile st).2).2
          = getTotalProcessedSize st + 2 * C.length) := by
  have once : ∀ s : State σ, (processFile D inputFile outputFile s).1 = true →
      Call.readFile inputFile C ∈ callsSince s (processFile D inputFile outputFile s).2 →
      (callsSince s (processFile D inputFile outputFile s).2).filter Call.isWriteFile
          = [Call.writeFile outputFile (transformContent C) true] ∧
        (processFile D inputFile outputFile s).2.totalProcessedSize
          = (s.totalProcessedSize + C.length) % SIZE_MOD := by
    intro s hret hread
    rcases processFile_path D inputFile outputFile s with
      ⟨_, _, hr, _⟩ | ⟨_, _, _, hr, _⟩ | ⟨_, _, _, hr, _⟩ | ⟨c, _, _, _, _, _, hr, _⟩ |
      ⟨c, _, _, _, _, hc, _, ht⟩ | ⟨c, _, _, _, _, _, hr, _⟩
    · rw [hr] at hret; cases hret
    · rw [hr] at hret; cases hret
    · rw [hr] at hret; cases hret
    · rw [hr] at hret; cases hret
    · rw [hc] at hread
      simp at hread
      subst hread
      exact ⟨by simp [hc, Call.isWriteFile], ht⟩
    · rw [hr] at hret; cases hret
  obtain ⟨w1, t1⟩ := once st h1 hr1
  obtain ⟨w2, t2⟩ := once _ h2 hr2
  unfold getTotalProcessedSize
  refine ⟨w1, w2, t1, t2, ?_, ?_⟩
  · rw [t2, t1]
    unfold SIZE_MOD
    omega
  · intro hfit
    rw [t2, t1]
    unfold SIZE_MOD at hfit ⊢
    omega

/-- Witness for C18: "hello" processed twice; the counter goes from 7 to 12 and
then to 17. -/
theorem processFile_twice_same_output_witness :
    (callsSince used
        (processFile (stub true "hello" true "" 200) "in.txt" "out.txt" used).2).filter
        Call.isWriteFile
      = [Call.writeFile "out.txt" (transformContent "hello") true] ∧
    (callsSince (processFile (stub true "hello" true "" 200) "in.txt" "out.txt" used).2
        (processFile (stub true "hello" true "" 200) "in.txt" "out.txt"
          (processFile (stub true "hello" true "" 200) "in.txt" "out.txt" used).2).2).filter
        Call.isWriteFile
      = [Call.writeFile "out.txt" (transformContent "hello") true] ∧
    getTotalProcessedSize
        (processFile (stub true "hello" true "" 200) "in.txt" "out.txt"
          (processFile (stub true "hello" true "" 200) "in.txt" "out.txt" used).2).2
      = 7 + 2 * 5 :=
  ⟨(processFile_twice_same_output (stub true "hello" true "" 200) "in.txt" "out.txt" used
      "hello" (by decide) (by decide) (by decide) (by decide)).1,
    (processFile_twice_same_output (stub true "hello" true "" 200) "in.txt" "out.txt" used
      "hello" (by decide) (by decide) (by decide) (by decide)).2.1,
    ((processFile_twice_same_output (stub true "hello" true "" 200) "in.txt" "out.txt" used
      "hello" (by decide) (by decide) (by decide) (by decide)).2.2.2.2.2 (by decide)).2⟩

/-- C19: a call of `processFile`, `downloadAndProcess` or `backupFile` that
returns false makes exactly one Diagnostics call at warning or error level,
and one that returns true makes none.  That one call is a warning exactly when
the guard that stopped the operation is the empty-content guard: for
`processFile`, when `readFile(inputFile)` returned the empty string; for
`downloadAndProcess`, when the status was 200 and `get(url)` returned the
empty string; for `backupFile`, never (an empty content is copied).  In every
other failing case it is an error. -/
theorem failure_logs_exactly_one_warning_or_error {σ : Type} (D : Deps σ) (st : State σ) :
    (∀ inputFile outputFile : String,
      ((processFile D inputFile outputFile st).1 = false →
        (callsSince st (processFile D inputFile outputFile st).2).countP
            (fun c => c.isWarning || c.isError) = 1 ∧
        ((callsSince st (processFile D inputFile outputFile st).2).countP Call.isWarning = 1 ↔
          Call.readFile inputFile "" ∈
            callsSince st (processFile D inputFile outputFile st).2) ∧
        ((callsSince st (processFile D inputFile outputFile st).2).countP Call.isError = 1 ↔
          Call.readFile inputFile "" ∉
            callsSince st (processFile D inputFile outputFile st).2)) ∧
      ((processFile D inputFile outputFile st).1 = true →
        (callsSince st (processFile D inputFile outputFile st).2).countP
            (fun c => c.isWarning || c.isError) = 0)) ∧
    (∀ url outputFile : String,
      ((downloadAndProcess D url outputFile st).1 = false →
        (callsSince st (downloadAndProcess D url outputFile st).2).countP
            (fun c => c.isWarning || c.isError) = 1 ∧
        ((callsSince st (downloadAndProcess D url outputFile st).2).countP Call.isWarning = 1 ↔
          (Call.getResponseCode 200 ∈
              callsSince st (downloadAndProcess D url outputFile st).2 ∧
            Call.get url "" ∈
              callsSince st (downloadAndProcess D url outputFile st).2)) ∧
        ((callsSince st (downloadAndProcess D url outputFile st).2).countP Call.isError = 1 ↔
          ¬ (Call.getResponseCode 200 ∈
              callsSince st (downloadAndProcess D url outputFile st).2 ∧
            Call.get url "" ∈
              callsSince st (downloadAndProcess D url outputFile st).2))) ∧
      ((downloadAndProcess D url outputFile st).1 = true →
        (callsSince st (downloadAndProcess D url outputFile st).2).countP
            (fun c => c.isWarning || c.isError) = 0)) ∧
    (∀ filename : String,
      ((backupFile D filename st).1 = false →
        (callsSince st (backupFile D filename st).2).countP
            (fun c => c.isWarning || c.isError) = 1 ∧
        (callsSince st (backupFile D filename st).2).countP Call.isWarning = 0 ∧
        (callsSince st (backupFile D filename st).2).countP Call.isError = 1) ∧
      ((backupFile D filename st).1 = true →
        (callsSince st (backupFile D filename st).2).countP
            (fun c => c.isWarning || c.isError) = 0)) := by
  refine ⟨?_, ?_, ?_⟩
  · intro inputFile outputFile
    rcases processFile_path D inputFile outputFile st with
      ⟨_, hc, hr, _⟩ | ⟨_, _, hc, hr, _⟩ | ⟨_, _, hc, hr, _⟩ | ⟨c, _, _, hne, _, hc, hr, _⟩ |
      ⟨c, _, _, hne, _, hc, hr, _⟩ | ⟨c, _, _, hne, _, hc, hr, _⟩
    all_goals rw [hr, hc]
    all_goals simp [Call.isWarning, Call.isError]
    all_goals exact fun h => hne h.symm
  · intro url outputFile
    rcases downloadAndProcess_path D url outputFile st with
      ⟨_, hc, hr, _⟩ | ⟨c, k, _, _, hk, hc, hr, _⟩ | ⟨_, _, hc, hr, _⟩ |
      ⟨c, _, _, hne, _, hc, hr, _⟩ | ⟨c, _, _, hne, _, hc, hr, _⟩ |
      ⟨c, _, _, hne, _, hc, hr, _⟩
    all_goals rw [hr, hc]
    all_goals simp [Call.isWarning, Call.isError]
    · intro h; exact absurd h.symm hk
    all_goals exact fun h => hne h.symm
  · intro filename
    rcases backupFile_path D filename st with
      ⟨_, hc, hr, _⟩ | ⟨_, hc, hr, _⟩ | ⟨c, _, hc, hr, _⟩ | ⟨c, _, hc, hr, _⟩
    all_goals rw [hr, hc]
    all_goals simp [Call.isWarning, Call.isError]

/-- Example for C19: an input that reads as empty gives one warning and no
error; a missing input gives one error and no warning. -/
theorem failure_logs_exactly_one_warning_or_error_witness :
    (callsSince used (processFile (stub true "" true "" 200) "in.txt" "out.txt" used).2).countP
        (fun c => c.isWarning || c.isError) = 1 ∧
      (callsSince used (backupFile (stub false "" true "" 200) "a.txt" used).2).countP
        Call.isError = 1 :=
  ⟨(((failure_logs_exactly_one_warning_or_error (stub true "" true "" 200) used).1
      "in.txt" "out.txt").1 (by decide)).1,
    (((failure_logs_exactly_one_warning_or_error (stub false "" true "" 200) used).2.2
      "a.txt").1 (by decide)).2.2⟩

/-! ## Collaborators that raise -/

section NoThrow
variable {σ : Type} (D : Deps σ) (st : State σ)

@[simp] theorem callFileExists_ofDeps (f : String) :
    Throwing.callFileExists (Throwing.ofDeps D) f st
      = (.ok (callFileExists D f st).1, (callFileExists D f st).2) := rfl

@[simp] theorem callReadFile_ofDeps (f : String) :
    Throwing.callReadFile (Throwing.ofDeps D) f st
      = (.ok (callReadFile D f st).1, (callReadFile D f st).2) := rfl

@[simp] theorem callWriteFile_ofDeps (f c : String) :
    Throwing.callWriteFile (Throwing.ofDeps D) f c st
      = (.ok (callWriteFile D f c st).1, (callWriteFile D f c st).2) := rfl

@[simp] theorem callSetTimeout_ofDeps (n : Int) :
    Throwing.callSetTimeout (Throwing.ofDeps D) n st = (.ok (), callSetTimeout D n st) := rfl

@[simp] theorem callGet_ofDeps (u : String) :
    Throwing.callGet (Throwing.ofDeps D) u st
      = (.ok (callGet D u st).1, (callGet D u st).2) := rfl

@[simp] theorem callGetResponseCode_ofDeps :
    Throwing.callGetResponseCode (Throwing.ofDeps D) st
      = (.ok (callGetResponseCode D st).1, (callGetResponseCode D st).2) := rfl

@[simp] theorem logInfo_ofDeps (m : String) :
    Throwing.logInfo (Throwing.ofDeps D) m st = logInfo D m st := rfl

@[simp] theorem logWarning_ofDeps (m : String) :
    Throwing.logWarning (Throwing.ofDeps D) m st = logWarning D m st := rfl

@[simp] theorem logError_ofDeps (m : String) :
    Throwing.logError (Throwing.ofDeps D) m st = logError D m st := rfl

theorem processFile_ofDeps (inputFile outputFile : String) :
    Throwing.processFile (Throwing.ofDeps D) inputFile outputFile st
      = (.ok (processFile D inputFile outputFile st).1,
          (processFile D inputFile outputFile st).2) := by
  simp only [Throwing.processFile, processFile, callFileExists_ofDeps,
    callReadFile_ofDeps, callWriteFile_ofDeps, logInfo_ofDeps,
    logWarning_ofDeps, logError_ofDeps]
  split_ifs <;> simp_all

theorem downloadAndProcess_ofDeps (url outputFile : String) :
    Throwing.downloadAndProcess (Throwing.ofDeps D) url outputFile st
      = (.ok (downloadAndProcess D url outputFile st).1,
          (downloadAndProcess D url outputFile st).2) := by
  simp only [Throwing.downloadAndProcess, downloadAndProcess, callSetTimeout_ofDeps,
    callGet_ofDeps, callGetResponseCode_ofDeps,
    callWriteFile_ofDeps, logInfo_ofDeps,
    logWarning_ofDeps, logError_ofDeps]
  split_ifs <;> simp_all

theorem backupFile_ofDeps (filename : String) :
    Throwing.backupFile (Throwing.ofDeps D) filename st
      = (.ok (backupFile D filename st).1, (backupFile D filename st).2) := by
  simp only [Throwing.backupFile, backupFile, callFileExists_ofDeps,
    callReadFile_ofDeps, callWriteFile_ofDeps, logInfo_ofDeps,
    logWarning_ofDeps, logError_ofDeps]
  split_ifs <;> simp_all

theorem processMultipleFilesLoop_ofDeps (files results : List String) :
    Throwing.processMultipleFilesLoop (Throwing.ofDeps D) files results st
      = (.ok (processMultipleFilesLoop D files results st).1,
          (processMultipleFilesLoop D files results st).2) := by
  induction files generalizing results st with
  | nil => rfl
  | cons f rest ih =>
    simp only [Throwing.processMultipleFilesLoop, processMultipleFilesLoop,
      processFile_ofDeps]
    split_ifs <;> simp [ih]

theorem processMultipleFiles_ofDeps (files : List String) :
    Throwing.processMultipleFiles (Throwing.ofDeps D) files st
      = (.ok (processMultipleFiles D files st).1, (processMultipleFiles D files st).2) := by
  simp only [Throwing.processMultipleFiles, processMultipleFiles,
    processMultipleFilesLoop_ofDeps, logInfo_ofDeps]

end NoThrow

theorem neverRaises_ofDeps {σ : Type} (D : Deps σ) :
    Throwing.NeverRaises (Throwing.ofDeps D) :=
  ⟨⟨fun _ _ _ => ⟨_, rfl⟩, fun _ _ => ⟨_, rfl⟩, fun _ _ => ⟨_, rfl⟩, fun _ _ => ⟨_, rfl⟩,
      fun _ _ => ⟨_, rfl⟩⟩,
    ⟨fun _ _ => ⟨_, rfl⟩, fun _ _ _ => ⟨_, rfl⟩, fun _ => ⟨_, rfl⟩, fun _ _ => ⟨_, rfl⟩⟩⟩

theorem ok_valueOr {σ α : Type} (d : α) (p : Except String α × σ) (h : ∃ a, p.1 = .ok a) :
    (Except.ok (Throwing.valueOr d p.1), p.2) = p := by
  obtain ⟨a, ha⟩ := h
  obtain ⟨x, y⟩ := p
  simp only at ha
  subst ha
  rfl

theorem ofDeps_toDeps {σ : Type} (T : Throwing.Deps σ) (h : Throwing.NeverRaises T) :
    Throwing.ofDeps (Throwing.toDeps T) = T := by
  obtain ⟨⟨hw, hr, hd, he, hs⟩, ⟨hg, hp, hc, ht⟩⟩ := h
  obtain ⟨⟨w, r, d, e, g⟩, ⟨get, post, code, timeout⟩, logger⟩ := T
  simp only [Throwing.ofDeps, Throwing.toDeps, Throwing.Deps.mk.injEq,
    Throwing.IFileSystem.mk.injEq, Throwing.INetworkClient.mk.injEq, and_true]
  refine ⟨⟨?_, ?_, ?_, ?_, ?_⟩, ⟨?_, ?_, ?_, ?_⟩⟩
  · funext f c x; exact ok_valueOr _ _ (hw f c x)
  · funext f x; exact ok_valueOr _ _ (hr f x)
  · funext f x; exact ok_valueOr _ _ (hd f x)
  · funext f x; exact ok_valueOr _ _ (he f x)
  · funext f x; exact ok_valueOr _ _ (hs f x)
  · funext u x; exact ok_valueOr _ _ (hg u x)
  · funext u d x; exact ok_valueOr _ _ (hp u d x)
  · funext x; exact ok_valueOr _ _ (hc x)
  · funext n x
    obtain ⟨u, hu⟩ := ht n x
    exact Prod.ext hu.symm rfl

theorem processFile_logs {σ : Type} (D : Deps σ) (inputFile outputFile : String)
    (st : State σ) :
    1 ≤ (callsSince st (processFile D inputFile outputFile st).2).countP
      Call.isDiagnostics := by
  rcases processFile_path D inputFile outputFile st with
    ⟨_, hc, _, _⟩ | ⟨_, _, hc, _, _⟩ | ⟨_, _, hc, _, _⟩ | ⟨c, _, _, _, _, hc, _, _⟩ |
    ⟨c, _, _, _, _, hc, _, _⟩ | ⟨c, _, _, _, _, hc, _, _⟩
  all_goals simp [hc, Call.isDiagnostics]

theorem downloadAndProcess_logs {σ : Type} (D : Deps σ) (url outputFile : String)
    (st : State σ) :
    1 ≤ (callsSince st (downloadAndProcess D url outputFile st).2).countP
      Call.isDiagnostics := by
  rcases downloadAndProcess_path D url outputFile st with
    ⟨_, hc, _, _⟩ | ⟨c, k, _, _, _, hc, _, _⟩ | ⟨_, _, hc, _, _⟩ |
    ⟨c, _, _, _, _, hc, _, _⟩ | ⟨c, _, _, _, _, hc, _, _⟩ | ⟨c, _, _, _, _, hc, _, _⟩
  all_goals simp [hc, Call.isDiagnostics]

theorem backupFile_logs {σ : Type} (D : Deps σ) (filename : String) (st : State σ) :
    1 ≤ (callsSince st (backupFile D filename st).2).countP Call.isDiagnostics := by
  rcases backupFile_path D filename st with
    ⟨_, hc, _, _⟩ | ⟨_, hc, _, _⟩ | ⟨c, _, hc, _, _⟩ | ⟨c, _, hc, _, _⟩
  all_goals simp [hc, Call.isDiagnostics]

theorem processMultipleFiles_logs {σ : Type} (D : Deps σ) (files : List String)
    (st : State σ) :
    1 ≤ (callsSince st (processMultipleFiles D files st).2).countP Call.isDiagnostics := by
  rw [processMultipleFiles_calls]
  simp [Call.isDiagnostics]

/-- C20, as stated, fails: with a Storage whose calls raise "Disk I/O error"
and a Transport whose calls raise "Connection reset", each of `processFile`,
`backupFile`, `downloadAndProcess` and `processMultipleFiles` ends with that
exception instead of a returned value, and none of them logs a warning or an
error. -/
theorem fault_escapes_to_the_caller :
    Throwing.processFile Throwing.broken "error.txt" "out.txt" used
        = (Except.error "Disk I/O error", used) ∧
      Throwing.backupFile Throwing.broken "error.txt" used
        = (Except.error "Disk I/O error", used) ∧
      (Throwing.downloadAndProcess Throwing.broken "http://test.com" "out.txt" used).1
        = Except.error "Connection reset" ∧
      callsSince used
          (Throwing.downloadAndProcess Throwing.broken "http://test.com" "out.txt" used).2
        = [Call.info "Downloading from URL: http://test.com"] ∧
      (Throwing.processMultipleFiles Throwing.broken ["error.txt"] used).1
        = Except.error "Disk I/O error" ∧
      callsSince used (Throwing.processMultipleFiles Throwing.broken ["error.txt"] used).2
        = [Call.info "Processing multiple files, count: 1"] :=
  ⟨rfl, rfl, rfl, by decide, rfl, by decide⟩

/-- C20, amended: for every behaviour of the collaborators in which no Storage
or Transport call raises, every outcome of `processFile`,
`downloadAndProcess`, `backupFile` and `processMultipleFiles` is a returned
boolean (or result list), the one the operation computes from the values the
calls returned, and at least one Diagnostics call is made. -/
theorem returns_when_no_call_raises {σ : Type} (T : Throwing.Deps σ)
    (hT : Throwing.NeverRaises T) (st : State σ) :
    (∀ inputFile outputFile : String,
      Throwing.processFile T inputFile outputFile st
          = (Except.ok (processFile (Throwing.toDeps T) inputFile outputFile st).1,
              (processFile (Throwing.toDeps T) inputFile outputFile st).2) ∧
        1 ≤ (callsSince st (Throwing.processFile T inputFile outputFile st).2).countP
          Call.isDiagnostics) ∧
    (∀ url outputFile : String,
      Throwing.downloadAndProcess T url outputFile st
          = (Except.ok (downloadAndProcess (Throwing.toDeps T) url outputFile st).1,
              (downloadAndProcess (Throwing.toDeps T) url outputFile st).2) ∧
        1 ≤ (callsSince st (Throwing.downloadAndProcess T url outputFile st).2).countP
          Call.isDiagnostics) ∧
    (∀ filename : String,
      Throwing.backupFile T filename st
          = (Except.ok (backupFile (Throwing.toDeps T) filename st).1,
              (backupFile (Throwing.toDeps T) filename st).2) ∧
        1 ≤ (callsSince st (Throwing.backupFile T filename st).2).countP
          Call.isDiagnostics) ∧
    (∀ files : List String,
      Throwing.processMultipleFiles T files st
          = (Except.ok (processMultipleFiles (Throwing.toDeps T) files st).1,
              (processMultipleFiles (Throwing.toDeps T) files st).2) ∧
        1 ≤ (callsSince st (Throwing.processMultipleFiles T files st).2).countP
          Call.isDiagnostics) := by
  have hT' := ofDeps_toDeps T hT
  refine ⟨?_, ?_, ?_, ?_⟩
  · intro inputFile outputFile
    have h := processFile_ofDeps (Throwing.toDeps T) st inputFile outputFile
    rw [hT'] at h
    rw [h]
    exact ⟨rfl, processFile_logs _ _ _ _⟩
  · intro url outputFile
    have h := downloadAndProcess_ofDeps (Throwing.toDeps T) st url outputFile
    rw [hT'] at h
    rw [h]
    exact ⟨rfl, downloadAndProcess_logs _ _ _ _⟩
  · intro filename
    have h := backupFile_ofDeps (Throwing.toDeps T) st filename
    rw [hT'] at h
    rw [h]
    exact ⟨rfl, backupFile_logs _ _ _⟩
  · intro files
    have h := processMultipleFiles_ofDeps (Throwing.toDeps T) st files
    rw [hT'] at h
    rw [h]
    exact ⟨rfl, processMultipleFiles_logs _ _ _⟩

/-- Witness for C20, amended: collaborators that never raise; a missing input
gives a returned false. -/
theorem returns_when_no_call_raises_witness :
    Throwing.NeverRaises (Throwing.ofDeps (stub false "" true "" 200)) ∧
      (Throwing.processFile (Throwing.ofDeps (stub false "" true "" 200)) "in.txt" "out.txt"
        used).1 = Except.ok false :=
  ⟨neverRaises_ofDeps _,
    (congrArg Prod.fst
      (((returns_when_no_call_raises (Throwing.ofDeps (stub false "" true "" 200))
        (neverRaises_ofDeps _) used).1 "in.txt" "out.txt").1)).trans rfl⟩

/-! ## The counter over sequences of operations -/

theorem processFile_total_credited {σ : Type} (D : Deps σ) (inputFile outputFile : String)
    (st : State σ) (h : st.totalProcessedSize < SIZE_MOD) :
    (processFile D inputFile outputFile st).2.totalProcessedSize
      = (st.totalProcessedSize
          + credited (callsSince st (processFile D inputFile outputFile st).2)) % SIZE_MOD := by
  rcases processFile_path D inputFile outputFile st with
    ⟨_, hc, _, ht⟩ | ⟨_, _, hc, _, ht⟩ | ⟨_, _, hc, _, ht⟩ | ⟨c, _, _, _, _, hc, _, ht⟩ |
    ⟨c, _, _, _, _, hc, _, ht⟩ | ⟨c, _, _, _, _, hc, _, ht⟩
  all_goals rw [ht, hc]
  all_goals simp [credited, writeSucceeded, sourceSize]
  all_goals exact (Nat.mod_eq_of_lt h).symm

theorem downloadAndProcess_total_credited {σ : Type} (D : Deps σ) (url outputFile : String)
    (st : State σ) (h : st.totalProcessedSize < SIZE_MOD) :
    (downloadAndProcess D url outputFile st).2.totalProcessedSize
      = (st.totalProcessedSize
          + credited (callsSince st (downloadAndProcess D url outputFile st).2))
        % SIZE_MOD := by
  rcases downloadAndProcess_path D url outputFile st with
    ⟨_, hc, _, ht⟩ | ⟨c, k, _, _, _, hc, _, ht⟩ | ⟨_, _, hc, _, ht⟩ |
    ⟨c, _, _, _, _, hc, _, ht⟩ | ⟨c, _, _, _, _, hc, _, ht⟩ | ⟨c, _, _, _, _, hc, _, ht⟩
  all_goals rw [ht, hc]
  all_goals simp [credited, writeSucceeded, sourceSize]
  all_goals exact (Nat.mod_eq_of_lt h).symm

theorem backupFile_total {σ : Type} (D : Deps σ) (filename : String) (st : State σ) :
    (backupFile D filename st).2.totalProcessedSize = st.totalProcessedSize := by
  rcases backupFile_path D filename st with
    ⟨_, _, _, ht⟩ | ⟨_, _, _, ht⟩ | ⟨c, _, _, _, ht⟩ | ⟨c, _, _, _, ht⟩
  all_goals exact ht

theorem mod_add_mod_size (a b c : Nat) :
    ((a + b) % SIZE_MOD + c) % SIZE_MOD = (a + (b + c)) % SIZE_MOD := by
  unfold SIZE_MOD
  omega

theorem processEach_total_credited {σ : Type} (D : Deps σ) (files : List String)
    (st : State σ) (h : st.totalProcessedSize < SIZE_MOD) :
    (processEach D files st).2.totalProcessedSize
      = (st.totalProcessedSize + creditedEach D files st) % SIZE_MOD := by
  induction files generalizing st with
  | nil => simpa [processEach, creditedEach] using (Nat.mod_eq_of_lt h).symm
  | cons f rest ih =>
    have h1 := processFile_total_credited D f (f ++ ".processed") st h
    have h2 : (processFile D f (f ++ ".processed") st).2.totalProcessedSize < SIZE_MOD := by
      rw [h1]; exact Nat.mod_lt _ (by unfold SIZE_MOD; omega)
    simp only [processEach, creditedEach]
    rw [ih _ h2, h1, mod_add_mod_size]

theorem step_total_credited {σ : Type} (D : Deps σ) (op : Op) (st : State σ)
    (h : st.totalProcessedSize < SIZE_MOD) :
    (step D op st).totalProcessedSize
      = (st.totalProcessedSize + creditedOp D op st) % SIZE_MOD := by
  cases op with
  | processFile i o => exact processFile_total_credited D i o st h
  | downloadAndProcess u o => exact downloadAndProcess_total_credited D u o st h
  | backupFile f =>
    simp only [step, creditedOp, backupFile_total, Nat.add_zero]
    exact (Nat.mod_eq_of_lt h).symm
  | processMultipleFiles files =>
    simp only [step, creditedOp]
    rw [processMultipleFiles_state, logInfo_total]
    exact processEach_total_credited D files _ h

theorem run_total_credited {σ : Type} (D : Deps σ) (ops : List Op) (st : State σ)
    (h : st.totalProcessedSize < SIZE_MOD) :
    (run D ops st).totalProcessedSize
      = (st.totalProcessedSize + creditedRun D ops st) % SIZE_MOD := by
  induction ops generalizing st with
  | nil => simpa [run, creditedRun] using (Nat.mod_eq_of_lt h).symm
  | cons op ops ih =>
    have h1 := step_total_credited D op st h
    have h2 : (step D op st).totalProcessedSize < SIZE_MOD := by
      rw [h1]; exact Nat.mod_lt _ (by unfold SIZE_MOD; omega)
    simp only [run, creditedRun]
    rw [ih _ h2, h1, mod_add_mod_size]

theorem run_append {σ : Type} (D : Deps σ) (ops more : List Op) (st : State σ) :
    run D (ops ++ more) st = run D more (run D ops st) := by
  induction ops generalizing st with
  | nil => rfl
  | cons op ops ih =>
    show run D (ops ++ more) (step D op st) = run D more (run D ops (step D op st))
    exact ih _

theorem creditedRun_append {σ : Type} (D : Deps σ) (ops more : List Op) (st : State σ) :
    creditedRun D (ops ++ more) st
      = creditedRun D ops st + creditedRun D more (run D ops st) := by
  induction ops generalizing st with
  | nil => simp [creditedRun, run]
  | cons op ops ih =>
    show creditedOp D op st + creditedRun D (ops ++ more) (step D op st)
      = creditedOp D op st + creditedRun D ops (step D op st)
        + creditedRun D more (run D ops (step D op st))
    rw [ih, Nat.add_assoc]

theorem creditedOp_stub_one (body : String) (code : Int) (st : State Unit) :
    creditedOp (stub true "x" true body code) (Op.processFile "in.txt" "out.txt") st = 1 := by
  have h1 : empty "in.txt" = false := by decide
  have h2 : empty "out.txt" = false := by decide
  have h3 : empty "x" = false := by decide
  have h4 : validateContent "x" = true := by decide
  have h5 : "x".length = 1 := by decide
  simp [creditedOp, credited, writeSucceeded, sourceSize, callsSince, processFile,
    callFileExists, callReadFile, callWriteFile, stub, h1, h2, h3, h4, h5]

theorem creditedRun_stub_replicate (body : String) (code : Int) (n : Nat) (st : State Unit) :
    creditedRun (stub true "x" true body code)
      (List.replicate n (Op.processFile "in.txt" "out.txt")) st = n := by
  induction n generalizing st with
  | zero => rfl
  | succ n ih =>
    show creditedOp _ _ st + creditedRun _ (List.replicate n _) _ = n + 1
    rw [ih, creditedOp_stub_one, Nat.add_comm]

theorem run_stub_replicate_total (body : String) (code : Int) (n : Nat) :
    (run (stub true "x" true body code)
      (List.replicate n (Op.processFile "in.txt" "out.txt")) (new ())).totalProcessedSize
      = n % SIZE_MOD := by
  rw [run_total_credited _ _ _ (by decide), creditedRun_stub_replicate]
  show (0 + n) % SIZE_MOD = n % SIZE_MOD
  rw [Nat.zero_add]

theorem run_stub_replicate_getTotal (body : String) (code : Int) (n : Nat) :
    getTotalProcessedSize (run (stub true "x" true body code)
      (List.replicate n (Op.processFile "in.txt" "out.txt")) (new ()))
      = n % SIZE_MOD := run_stub_replicate_total body code n

/-- C21, as stated, fails: on a fresh processor whose input always holds the
one-character content "x" and whose writes succeed, after 2^64 - 1 calls of
`processFile` the counter is 2^64 - 1; the next call, which also succeeds,
brings it down to 0, while the sum of the source sizes of the 2^64 successful
executions is 2^64. -/
theorem counter_wraps_at_size_max :
    getTotalProcessedSize
        (run (stub true "x" true "" 200)
          (List.replicate 18446744073709551615 (Op.processFile "in.txt" "out.txt"))
          (new ())) = 18446744073709551615 ∧
      creditedRun (stub true "x" true "" 200)
          (List.replicate 18446744073709551616 (Op.processFile "in.txt" "out.txt"))
          (new ()) = 18446744073709551616 ∧
      getTotalProcessedSize
        (run (stub true "x" true "" 200)
          (List.replicate 18446744073709551616 (Op.processFile "in.txt" "out.txt"))
          (new ())) = 0 :=
  ⟨(run_stub_replicate_getTotal "" 200 18446744073709551615).trans (by decide),
    creditedRun_stub_replicate "" 200 18446744073709551616 (new ()),
    (run_stub_replicate_getTotal "" 200 18446744073709551616).trans (by decide)⟩

/-- C21, amended: `getTotalProcessedSize()` is 0 on a freshly constructed
`FileProcessor`, and after any finite sequence of `processFile`,
`downloadAndProcess`, `backupFile` and `processMultipleFiles` calls it equals,
modulo 2^64, the sum of the source-content sizes of exactly those
`processFile` and `downloadAndProcess` executions (direct or delegated from the
batch) whose terminal write returned true; as long as that sum is below 2^64 it
is that sum, and an operation does not decrease it. -/
theorem total_is_credited_sum_modulo {σ : Type} (D : Deps σ) (w : σ) (ops : List Op) :
    getTotalProcessedSize (new w) = 0 ∧
      getTotalProcessedSize (run D ops (new w))
        = creditedRun D ops (new w) % SIZE_MOD ∧
      (creditedRun D ops (new w) < SIZE_MOD →
        getTotalProcessedSize (run D ops (new w)) = creditedRun D ops (new w)) ∧
      (∀ op : Op, creditedRun D (ops ++ [op]) (new w) < SIZE_MOD →
        getTotalProcessedSize (run D ops (new w))
          ≤ getTotalProcessedSize (run D (ops ++ [op]) (new w))) := by
  have h0 : (new w).totalProcessedSize < SIZE_MOD := by
    show 0 < SIZE_MOD
    unfold SIZE_MOD; omega
  have key : ∀ l : List Op,
      (run D l (new w)).totalProcessedSize = creditedRun D l (new w) % SIZE_MOD := by
    intro l
    rw [run_total_credited D l _ h0]
    show (0 + _) % SIZE_MOD = _
    rw [Nat.zero_add]
  unfold getTotalProcessedSize
  refine ⟨rfl, key ops, ?_, ?_⟩
  · intro hfit
    rw [key, Nat.mod_eq_of_lt hfit]
  · intro op hfit
    rw [key, key, Nat.mod_eq_of_lt hfit]
    rw [creditedRun_append] at hfit ⊢
    have hle : creditedRun D ops (new w) % SIZE_MOD ≤ creditedRun D ops (new w) :=
      Nat.mod_le _ _
    omega

/-- Example for C21, amended: a successful `processFile` of "hello", a backup,
a download refused with status 404 and a batch of two files give 5 + 0 + 0 +
10 = 15. -/
theorem total_is_credited_sum_modulo_witness :
    getTotalProcessedSize
        (run (stub true "hello" true "body" 404)
          [Op.processFile "in.txt" "out.txt", Op.backupFile "in.txt",
            Op.downloadAndProcess "http://test.com" "out.txt",
            Op.processMultipleFiles ["A", "B"]] (new ())) = 15 :=
  ((total_is_credited_sum_modulo (stub true "hello" true "body" 404) ()
      [Op.processFile "in.txt" "out.txt", Op.backupFile "in.txt",
        Op.downloadAndProcess "http://test.com" "out.txt",
        Op.processMultipleFiles ["A", "B"]]).2.2.1 (by decide)).trans (by decide)

/-! ## The counter at the top of `size_t` -/

theorem brimful_total : getTotalProcessedSize brimful = 18446744073709551615 :=
  (run_stub_replicate_getTotal "x" 200 18446744073709551615).trans (by decide)

theorem processFile_stub_x (body : String) (code : Int) (st : State Unit) :
    (processFile (stub true "x" true body code) "in.txt" "out.txt" st).1 = true ∧
      callsSince st (processFile (stub true "x" true body code) "in.txt" "out.txt" st).2 =
        [Call.fileExists "in.txt" true, Call.info "Processing file: in.txt",
          Call.readFile "in.txt" "x", Call.writeFile "out.txt" "PROCESSED: X" true,
          Call.info "File processed successfully: in.txt -> out.txt"] ∧
      getTotalProcessedSize
          (processFile (stub true "x" true body code) "in.txt" "out.txt" st).2
        = (getTotalProcessedSize st + 1) % SIZE_MOD := by
  have h1 : empty "in.txt" = false := by decide
  have h2 : empty "out.txt" = false := by decide
  have h3 : empty "x" = false := by decide
  have h4 : validateContent "x" = true := by decide
  have h5 : "x".length = 1 := by decide
  have h6 : transformContent "x" = "PROCESSED: X" := by decide
  have h7 : "Processing file: " ++ "in.txt" = "Processing file: in.txt" := by decide
  have h8 : "File processed successfully: " ++ "in.txt" ++ " -> " ++ "out.txt"
      = "File processed successfully: in.txt -> out.txt" := by decide
  refine ⟨?_, ?_, ?_⟩
  · simp [processFile, callFileExists, callReadFile, callWriteFile, stub, h1, h2, h3, h4]
  · simp [processFile, callFileExists, callReadFile, callWriteFile, logInfo, stub, h1, h2, h3,
      h4, h6, h7, h8, callsSince]
  · simp [processFile, callFileExists, callReadFile, callWriteFile, logInfo, stub, h1, h2, h3,
      h4, h5, getTotalProcessedSize]

theorem downloadAndProcess_stub_x (st : State Unit) :
    (downloadAndProcess (stub true "x" true "x" 200) "http://x" "out.txt" st).1 = true ∧
      callsSince st (downloadAndProcess (stub true "x" true "x" 200) "http://x" "out.txt" st).2 =
        [Call.info "Downloading from URL: http://x", Call.setTimeout 30,
          Call.get "http://x" "x", Call.getResponseCode 200,
          Call.writeFile "out.txt" "PROCESSED: X" true,
          Call.info "URL content processed successfully: http://x -> out.txt"] ∧
      getTotalProcessedSize
          (downloadAndProcess (stub true "x" true "x" 200) "http://x" "out.txt" st).2
        = (getTotalProcessedSize st + 1) % SIZE_MOD := by
  have h1 : empty "http://x" = false := by decide
  have h2 : empty "out.txt" = false := by decide
  have h3 : empty "x" = false := by decide
  have h4 : validateContent "x" = true := by decide
  have h5 : "x".length = 1 := by decide
  have h6 : transformContent "x" = "PROCESSED: X" := by decide
  have h7 : "Downloading from URL: " ++ "http://x" = "Downloading from URL: http://x" := by
    decide
  have h8 : "URL content processed successfully: " ++ "http://x" ++ " -> " ++ "out.txt"
      = "URL content processed successfully: http://x -> out.txt" := by decide
  refine ⟨?_, ?_, ?_⟩
  · simp [downloadAndProcess, callSetTimeout, callGet, callGetResponseCode, callWriteFile,
      logInfo, stub, h1, h2, h3, h4]
  · simp [downloadAndProcess, callSetTimeout, callGet, callGetResponseCode, callWriteFile,
      logInfo, stub, h1, h2, h3, h4, h6, h7, h8, callsSince]
  · simp [downloadAndProcess, callSetTimeout, callGet, callGetResponseCode, callWriteFile,
      logInfo, stub, h1, h2, h3, h4, h5, getTotalProcessedSize]

/-- C2, as stated, fails: a new processor whose input always holds "x" has
counted 2^64 - 1 elements after 2^64 - 1 successful calls; the next
`processFile` returns true and has read "x", of size 1, and
`getTotalProcessedSize()` is 0 after it, not its value before plus 1. -/
theorem processFile_success_wraps_counter :
    getTotalProcessedSize brimful = 18446744073709551615 ∧
      (processFile (stub true "x" true "x" 200) "in.txt" "out.txt" brimful).1 = true ∧
      Call.readFile "in.txt" "x" ∈
        callsSince brimful
          (processFile (stub true "x" true "x" 200) "in.txt" "out.txt" brimful).2 ∧
      "x".length = 1 ∧
      getTotalProcessedSize
        (processFile (stub true "x" true "x" 200) "in.txt" "out.txt" brimful).2 = 0 ∧
      getTotalProcessedSize
          (processFile (stub true "x" true "x" 200) "in.txt" "out.txt" brimful).2
        ≠ getTotalProcessedSize brimful + 1 := by
  have h := processFile_stub_x "x" 200 brimful
  have h0 : getTotalProcessedSize
      (processFile (stub true "x" true "x" 200) "in.txt" "out.txt" brimful).2 = 0 := by
    rw [h.2.2, brimful_total]; decide
  refine ⟨brimful_total, h.1, ?_, by decide, h0, ?_⟩
  · rw [h.2.1]; decide
  · rw [h0, brimful_total]; decide

/-- C9, as stated, fails: with the counter at 2^64 - 1, a `downloadAndProcess`
that reads status 200 and fetches "x", non-empty and of size 1, writes
`transformContent("x")`, the write answers true, the call returns true, and
`getTotalProcessedSize()` is 0 after it: it has not grown by 1. -/
theorem downloadAndProcess_success_wraps_counter :
    getTotalProcessedSize brimful = 18446744073709551615 ∧
      Call.getResponseCode 200 ∈
        callsSince brimful
          (downloadAndProcess (stub true "x" true "x" 200) "http://x" "out.txt" brimful).2 ∧
      Call.get "http://x" "x" ∈
        callsSince brimful
          (downloadAndProcess (stub true "x" true "x" 200) "http://x" "out.txt" brimful).2 ∧
      "x" ≠ "" ∧ "x".length = 1 ∧
      Call.writeFile "out.txt" (transformContent "x") true ∈
        callsSince brimful
          (downloadAndProcess (stub true "x" true "x" 200) "http://x" "out.txt" brimful).2 ∧
      (downloadAndProcess (stub true "x" true "x" 200) "http://x" "out.txt" brimful).1
        = true ∧
      getTotalProcessedSize
        (downloadAndProcess (stub true "x" true "x" 200) "http://x" "out.txt" brimful).2
        = 0 ∧
      getTotalProcessedSize
          (downloadAndProcess (stub true "x" true "x" 200) "http://x" "out.txt" brimful).2
        ≠ getTotalProcessedSize brimful + 1 := by
  have h := downloadAndProcess_stub_x brimful
  have h0 : getTotalProcessedSize
      (downloadAndProcess (stub true "x" true "x" 200) "http://x" "out.txt" brimful).2
      = 0 := by
    rw [h.2.2, brimful_total]; decide
  refine ⟨brimful_total, ?_, ?_, by decide, by decide, ?_, h.1, h0, ?_⟩
  · rw [h.2.1]; decide
  · rw [h.2.1]; decide
  · rw [h.2.1]; decide
  · rw [h0, brimful_total]; decide

/-- C18, as stated, fails: with the counter at 2^64 - 1, two calls
`processFile("in.txt", "out.txt")` in a row both return true, both read "x",
of size 1, and both write `transformContent("x")`; `getTotalProcessedSize()`
is 0 after the first and 1 after the second: the first call has not increased
it by 1, and the two calls have not increased it by 2. -/
theorem processFile_twice_wraps_counter :
    getTotalProcessedSize brimful = 18446744073709551615 ∧
      (processFile (stub true "x" true "x" 200) "in.txt" "out.txt" brimful).1 = true ∧
      (processFile (stub true "x" true "x" 200) "in.txt" "out.txt"
        (processFile (stub true "x" true "x" 200) "in.txt" "out.txt" brimful).2).1 = true ∧
      Call.readFile "in.txt" "x" ∈
        callsSince brimful
          (processFile (stub true "x" true "x" 200) "in.txt" "out.txt" brimful).2 ∧
      Call.readFile "in.txt" "x" ∈
        callsSince (processFile (stub true "x" true "x" 200) "in.txt" "out.txt" brimful).2
          (processFile (stub true "x" true "x" 200) "in.txt" "out.txt"
            (processFile (stub true "x" true "x" 200) "in.txt" "out.txt" brimful).2).2 ∧
      "x".length = 1 ∧
      getTotalProcessedSize
        (processFile (stub true "x" true "x" 200) "in.txt" "out.txt" brimful).2 = 0 ∧
      getTotalProcessedSize
        (processFile (stub true "x" true "x" 200) "in.txt" "out.txt"
          (processFile (stub true "x" true "x" 200) "in.txt" "out.txt" brimful).2).2 = 1 ∧
      getTotalProcessedSize
          (processFile (stub true "x" true "x" 200) "in.txt" "out.txt" brimful).2
        ≠ getTotalProcessedSize brimful + 1 ∧
      getTotalProcessedSize
          (processFile (stub true "x" true "x" 200) "in.txt" "out.txt"
            (processFile (stub true "x" true "x" 200) "in.txt" "out.txt" brimful).2).2
        ≠ getTotalProcessedSize brimful + 2 * 1 := by
  have h := processFile_stub_x "x" 200 brimful
  have h' := processFile_stub_x "x" 200
    (processFile (stub true "x" true "x" 200) "in.txt" "out.txt" brimful).2
  have h0 : getTotalProcessedSize
      (processFile (stub true "x" true "x" 200) "in.txt" "out.txt" brimful).2 = 0 := by
    rw [h.2.2, brimful_total]; decide
  have h1 : getTotalProcessedSize
      (processFile (stub true "x" true "x" 200) "in.txt" "out.txt"
        (processFile (stub true "x" true "x" 200) "in.txt" "out.txt" brimful).2).2 = 1 := by
    rw [h'.2.2, h0]; decide
  refine ⟨brimful_total, h.1, h'.1, ?_, ?_, by decide, h0, h1, ?_, ?_⟩
  · rw [h.2.1]; decide
  · rw [h'.2.1]; decide
  · rw [h0, brimful_total]; decide
  · rw [h1, brimful_total]; decide

/-! ## The output written onto the input -/

theorem toupper_toupper (c : Char) : toupper (toupper c) = toupper c := by
  have hdef : ∀ d : Char,
      toupper d = if 97 ≤ d.toNat ∧ d.toNat ≤ 122 then Char.ofNat (d.toNat - 32) else d :=
    fun d => rfl
  by_cases h : 97 ≤ c.toNat ∧ c.toNat ≤ 122
  · rw [hdef c, if_pos h]
    obtain ⟨h1, h2⟩ := h
    generalize c.toNat = n at h1 h2
    interval_cases n <;> rfl
  · rw [hdef c, if_neg h, hdef c, if_neg h]

theorem transformContent_transformContent (C : String) :
    transformContent (transformContent C) =
      "PROCESSED: PROCESSED: " ++ String.mk (C.data.map toupper) := by
  have htag : ("PROCESSED: " : String).data.map toupper = ("PROCESSED: " : String).data := by
    decide
  apply String.ext
  simp only [transformContent, String.data_append, List.map_append, List.map_map, htag]
  have hcomp : (toupper ∘ toupper) = toupper := funext toupper_toupper
  rw [hcomp]
  rfl

theorem lookup_written (f c : String) (w : List (String × String)) :
    ((f, c) :: w.filter (fun p => p.1 != f)).lookup f = some c := by
  simp [List.lookup]

theorem processFile_faithful (f C : String) (st : State (List (String × String)))
    (hf : f ≠ "") (hC : C ≠ "") (hlen : C.length ≤ 1000000)
    (hheld : st.world.lookup f = some C) :
    processFile faithful f f st =
      (true,
        { world := (f, transformContent C) :: st.world.filter (fun p => p.1 != f)
          calls := st.calls ++ [Call.fileExists f true,
            Call.info ("Processing file: " ++ f),
            Call.readFile f C,
            Call.writeFile f (transformContent C) true,
            Call.info ("File processed successfully: " ++ f ++ " -> " ++ f)]
          totalProcessedSize := (st.totalProcessedSize + C.length) % SIZE_MOD }) := by
  have h1 : empty f = false := (empty_eq_false_iff f).2 hf
  have h2 : empty C = false := (empty_eq_false_iff C).2 hC
  have h3 : validateContent C = true := (validateContent_iff C).2 ⟨hC, hlen⟩
  simp [processFile, h1, callFileExists, callReadFile, callWriteFile, logInfo, faithful,
    hheld, h2, h3]

/-- C35, the input the claim misses: the faithful Storage holds the non-empty
content "hello" (5 + 11 <= 1,000,000) under the empty name, and
`processFile("", "")` returns false, calls nothing but `logger->error`, leaves
the Storage as it was and the counter at 0: nothing is written. -/
theorem processFile_empty_name_writes_nothing :
    (new [("", "hello")]).world.lookup "" = some "hello" ∧
      "hello" ≠ "" ∧ "hello".length + 11 ≤ 1000000 ∧
      (processFile faithful "" "" (new [("", "hello")])).1 = false ∧
      callsSince (new [("", "hello")]) (processFile faithful "" "" (new [("", "hello")])).2
        = [Call.error "Invalid file names provided"] ∧
      (processFile faithful "" "" (new [("", "hello")])).2.world = [("", "hello")] ∧
      getTotalProcessedSize (processFile faithful "" "" (new [("", "hello")])).2 = 0 := by
  decide

/-- C35, amended: on the faithful Storage, with a non-empty name `f` under
which the non-empty content `C` is held, `C.size() + 11 <= 1,000,000`, two
calls `processFile(f, f)` in a row both return true; the first writes
"PROCESSED: " followed by the uppercased `C` to `f`, the second writes
"PROCESSED: PROCESSED: " followed by the uppercased `C`, which is another
content; the counter grows by `C.size()` in the first call and by
`C.size() + 11` in the second (in `size_t` arithmetic; exactly, when the sum
fits, as on a new processor). -/
theorem processFile_onto_itself_tags_twice (f C : String)
    (st : State (List (String × String))) (hf : f ≠ "") (hC : C ≠ "")
    (hlen : C.length + 11 ≤ 1000000) (hheld : st.world.lookup f = some C) :
    (processFile faithful f f st).1 = true ∧
      (callsSince st (processFile faithful f f st).2).filter Call.isWriteFile
        = [Call.writeFile f ("PROCESSED: " ++ String.mk (C.data.map toupper)) true] ∧
      (processFile faithful f f st).2.world.lookup f
        = some ("PROCESSED: " ++ String.mk (C.data.map toupper)) ∧
      getTotalProcessedSize (processFile faithful f f st).2
        = (getTotalProcessedSize st + C.length) % SIZE_MOD ∧
      (processFile faithful f f (processFile faithful f f st).2).1 = true ∧
      (callsSince (processFile faithful f f st).2
          (processFile faithful f f (processFile faithful f f st).2).2).filter Call.isWriteFile
        = [Call.writeFile f
            ("PROCESSED: PROCESSED: " ++ String.mk (C.data.map toupper)) true] ∧
      (processFile faithful f f (processFile faithful f f st).2).2.world.lookup f
        = some ("PROCESSED: PROCESSED: " ++ String.mk (C.data.map toupper)) ∧
      getTotalProcessedSize (processFile faithful f f (processFile faithful f f st).2).2
        = (getTotalProcessedSize (processFile faithful f f st).2 + (C.length + 11))
            % SIZE_MOD ∧
      "PROCESSED: PROCESSED: " ++ String.mk (C.data.map toupper)
        ≠ "PROCESSED: " ++ String.mk (C.data.map toupper) ∧
      (getTotalProcessedSize st + (C.length + (C.length + 11)) < SIZE_MOD →
        getTotalProcessedSize (processFile faithful f f st).2
          = getTotalProcessedSize st + C.length ∧
        getTotalProcessedSize (processFile faithful f f (processFile faithful f f st).2).2
          = getTotalProcessedSize st + C.length + (C.length + 11)) := by
  have e1 := processFile_faithful f C st hf hC (by omega) hheld
  have hT : transformContent C ≠ "" := by
    intro h
    have := transformContent_length C
    rw [h] at this
    simp at this
  have hTlen : (transformContent C).length ≤ 1000000 := by
    rw [transformContent_length]; exact hlen
  have e2 := processFile_faithful f (transformContent C) (processFile faithful f f st).2 hf hT
    hTlen (by rw [e1]; exact lookup_written _ _ _)
  have hTT := transformContent_transformContent C
  have hT1 : transformContent C = "PROCESSED: " ++ String.mk (C.data.map toupper) := rfl
  have hl1 : ("PROCESSED: PROCESSED: " ++ String.mk (C.data.map toupper)).length
      = C.length + 22 := by
    rw [← hTT, transformContent_length, transformContent_length]
  have hl2 : ("PROCESSED: " ++ String.mk (C.data.map toupper)).length = C.length + 11 := by
    rw [← hT1, transformContent_length]
  have hcalls1 : callsSince st (processFile faithful f f st).2 =
      [Call.fileExists f true, Call.info ("Processing file: " ++ f), Call.readFile f C,
        Call.writeFile f (transformContent C) true,
        Call.info ("File processed successfully: " ++ f ++ " -> " ++ f)] := by
    rw [e1]; simp [callsSince]
  have hcalls2 : callsSince (processFile faithful f f st).2
      (processFile faithful f f (processFile faithful f f st).2).2 =
      [Call.fileExists f true, Call.info ("Processing file: " ++ f),
        Call.readFile f (transformContent C),
        Call.writeFile f (transformContent (transformContent C)) true,
        Call.info ("File processed successfully: " ++ f ++ " -> " ++ f)] := by
    rw [e2]; simp [callsSince]
  have ht1 : getTotalProcessedSize (processFile faithful f f st).2
      = (getTotalProcessedSize st + C.length) % SIZE_MOD := by
    rw [e1]; rfl
  have ht2 : getTotalProcessedSize (processFile faithful f f (processFile faithful f f st).2).2
      = (getTotalProcessedSize (processFile faithful f f st).2 + (C.length + 11))
          % SIZE_MOD := by
    rw [e2, transformContent_length]; rfl
  refine ⟨by rw [e1], ?_, ?_, ht1, by rw [e2], ?_, ?_, ht2, ?_, ?_⟩
  · rw [hcalls1]; rfl
  · rw [e1]; exact lookup_written _ _ _
  · rw [hcalls2, ← hTT]; rfl
  · rw [e2, ← hTT]; exact lookup_written _ _ _
  · intro h
    have := congrArg String.length h
    rw [hl1, hl2] at this
    omega
  · intro hfit
    have h1 : getTotalProcessedSize (processFile faithful f f st).2
        = getTotalProcessedSize st + C.length := by
      rw [ht1]; exact Nat.mod_eq_of_lt (by omega)
    refine ⟨h1, ?_⟩
    rw [ht2, h1]
    exact Nat.mod_eq_of_lt (by omega)

/-- C35 on the file "a" holding "hello", on a new processor: the file holds
"PROCESSED: HELLO" after the first call and "PROCESSED: PROCESSED: HELLO" after
the second, and the counter is 5 and then 21. -/
theorem processFile_onto_itself_tags_twice_witness :
    "a" ≠ "" ∧ "hello" ≠ "" ∧ "hello".length + 11 ≤ 1000000 ∧
      (new [("a", "hello")]).world.lookup "a" = some "hello" ∧
      (processFile faithful "a" "a" (new [("a", "hello")])).2.world
        = [("a", "PROCESSED: HELLO")] ∧
      (processFile faithful "a" "a"
          (processFile faithful "a" "a" (new [("a", "hello")])).2).2.world
        = [("a", "PROCESSED: PROCESSED: HELLO")] ∧
      getTotalProcessedSize (processFile faithful "a" "a" (new [("a", "hello")])).2 = 5 ∧
      getTotalProcessedSize (processFile faithful "a" "a"
          (processFile faithful "a" "a" (new [("a", "hello")])).2).2 = 21 :=
  ⟨by decide, by decide, by decide, by decide, by decide, by decide,
    ((processFile_onto_itself_tags_twice "a" "hello" (new [("a", "hello")])
      (by decide) (by decide) (by decide) (by decide)).2.2.2.2.2.2.2.2.2 (by decide)).1,
    ((processFile_onto_itself_tags_twice "a" "hello" (new [("a", "hello")])
      (by decide) (by decide) (by decide) (by decide)).2.2.2.2.2.2.2.2.2 (by decide)).2⟩

end FileProcessor

namespace MathUtils

open Cpp

/-! ## MathUtils: lemmas -/

theorem wrap_of_fits {x : Int} (h1 : INT_MIN ≤ x) (h2 : x ≤ INT_MAX) : wrap x = x := by
  unfold INT_MIN at h1
  unfold INT_MAX at h2
  unfold wrap
  omega

theorem wrap_fits (x : Int) : INT_MIN ≤ wrap x ∧ wrap x ≤ INT_MAX := by
  unfold INT_MIN INT_MAX wrap
  omega

theorem foldl_max_spec (rest : List Int) (first : Int) :
    (rest.foldl (fun largest x => if largest < x then x else largest) first ∈ first :: rest) ∧
      ∀ x ∈ first :: rest,
        x ≤ rest.foldl (fun largest x => if largest < x then x else largest) first := by
  induction rest generalizing first with
  | nil => simp
  | cons y ys ih =>
    simp only [List.foldl_cons]
    obtain ⟨hm, hb⟩ := ih (if first < y then y else first)
    constructor
    · rcases List.mem_cons.1 hm with h | h
      · rw [h]
        split_ifs <;> simp
      · exact List.mem_cons_of_mem _ (List.mem_cons_of_mem _ h)
    · intro x hx
      have h0 := hb (if first < y then y else first) (List.mem_cons_self _ _)
      rcases List.mem_cons.1 hx with h | h
      · subst h
        refine le_trans ?_ h0
        split_ifs <;> omega
      · rcases List.mem_cons.1 h with h | h
        · subst h
          refine le_trans ?_ h0
          split_ifs <;> omega
        · exact hb x (List.mem_cons_of_mem _ h)

/-- C23: for every `n` with `0 <= n <= 12`, `MathUtils::factorial(n)` returns
the factorial of `n`; `factorial(0)` and `factorial(1)` are 1. -/
theorem factorial_eq_factorial (n : Int) (h0 : 0 ≤ n) (h12 : n ≤ 12) :
    factorial n = .ok (some (n.toNat.factorial : Int)) ∧
      factorial 0 = .ok (some 1) ∧ factorial 1 = .ok (some 1) := by
  refine ⟨?_, rfl, rfl⟩
  interval_cases n <;> rfl

/-- Witness for C23: 12! = 479001600. -/
theorem factorial_eq_factorial_witness :
    factorial 12 = .ok (some ((12 : Int).toNat.factorial : Int)) ∧
      factorial 0 = .ok (some 1) ∧ factorial 1 = .ok (some 1) :=
  factorial_eq_factorial 12 (by decide) (by decide)

/-- C25: for every non-empty vector, `MathUtils::findMax` returns a value that
occurs in the vector and is greater than or equal to every element of it. -/
theorem findMax_is_greatest_element (numbers : List Int) (h : numbers ≠ []) :
    ∃ m, findMax numbers = .ok m ∧ m ∈ numbers ∧ ∀ x ∈ numbers, x ≤ m := by
  cases numbers with
  | nil => exact absurd rfl h
  | cons first rest =>
    exact ⟨_, rfl, (foldl_max_spec rest first).1, (foldl_max_spec rest first).2⟩

/-- Witness for C25: all elements negative, the greatest one twice. -/
theorem findMax_is_greatest_element_witness :
    ∃ m, findMax [-5, -2, -9, -2] = .ok m ∧ m ∈ [-5, -2, -9, -2] ∧
      ∀ x ∈ [-5, -2, -9, -2], x ≤ m :=
  findMax_is_greatest_element [-5, -2, -9, -2] (by decide)

/-- C26: for every `n` with `0 <= n <= 99`, `MathUtils::numberToWords(n)`
indexes its tables in range and returns a non-empty word: the word of `n`
among zero .. nine for `n < 10`; the word of `n - 10` among ten .. nineteen for
`10 <= n <= 19`; and for `n >= 20` the word of `n / 10` among twenty .. ninety,
followed by one space and the word of `n % 10` exactly when `n % 10 != 0`.  So
20 is "twenty", 21 is "twenty one" and 99 is "ninety nine". -/
theorem numberToWords_in_range (n : Int) (h0 : 0 ≤ n) (h99 : n ≤ 99) :
    (∃ w, numberToWords n = .ok (some w) ∧ w ≠ "" ∧
      (n < 10 →
        some w = ["zero", "one", "two", "three", "four", "five", "six", "seven", "eight",
          "nine"][n.toNat]?) ∧
      (10 ≤ n ∧ n < 20 →
        some w = ["ten", "eleven", "twelve", "thirteen", "fourteen", "fifteen", "sixteen",
          "seventeen", "eighteen", "nineteen"][(n - 10).toNat]?) ∧
      (20 ≤ n ∧ n % 10 = 0 →
        some w = ["twenty", "thirty", "forty", "fifty", "sixty", "seventy", "eighty",
          "ninety"][(n / 10 - 2).toNat]?) ∧
      (20 ≤ n ∧ n % 10 ≠ 0 →
        ∃ t o,
          ["twenty", "thirty", "forty", "fifty", "sixty", "seventy", "eighty",
            "ninety"][(n / 10 - 2).toNat]? = some t ∧
          ["zero", "one", "two", "three", "four", "five", "six", "seven", "eight",
            "nine"][(n % 10).toNat]? = some o ∧
          w = t ++ " " ++ o)) ∧
    numberToWords 20 = .ok (some "twenty") ∧
    numberToWords 21 = .ok (some "twenty one") ∧
    numberToWords 99 = .ok (some "ninety nine") := by
  refine ⟨?_, rfl, rfl, rfl⟩
  interval_cases n <;> refine ⟨_, rfl, by decide, ?_, ?_, ?_, ?_⟩ <;>
    first
    | (intro h; omega)
    | (intro _; rfl)
    | (intro _; exact ⟨_, _, rfl, rfl, rfl⟩)

/-- Witness for C26: 45 is in range and its word, the word of 4 among the
tens followed by the word of 5, is not empty. -/
theorem numberToWords_in_range_witness :
    ∃ w, numberToWords 45 = .ok (some w) ∧ w ≠ "" ∧
      ∃ t o,
        ["twenty", "thirty", "forty", "fifty", "sixty", "seventy", "eighty",
          "ninety"][((45 : Int) / 10 - 2).toNat]? = some t ∧
        ["zero", "one", "two", "three", "four", "five", "six", "seven", "eight",
          "nine"][((45 : Int) % 10).toNat]? = some o ∧
        w = t ++ " " ++ o :=
  match (numberToWords_in_range 45 (by decide) (by decide)).1 with
  | ⟨w, h, hne, _, _, _, h4⟩ => ⟨w, h, hne, h4 (by decide)⟩

theorem isPrimeLoop_returns (n : Int) (hn : n ≤ INT_MAX) :
    ∀ (k fuel : Nat), k < fuel → 3 ≤ n - 2 * (k : Int) →
      ∃ b, isPrimeLoop n fuel (n - 2 * (k : Int)) = some b := by
  intro k
  induction k with
  | zero =>
    intro fuel hf _
    obtain ⟨f, rfl⟩ : ∃ f, fuel = f + 1 := ⟨fuel - 1, by omega⟩
    simp only [isPrimeLoop, Nat.cast_zero, mul_zero, sub_zero, Int.tmod_self]
    split_ifs <;> simp_all
  | succ k ih =>
    intro fuel hf h3
    obtain ⟨f, rfl⟩ : ∃ f, fuel = f + 1 := ⟨fuel - 1, by omega⟩
    have hw : wrap (n - 2 * ((k + 1 : Nat) : Int) + 2) = n - 2 * (k : Int) := by
      rw [wrap_of_fits]
      · push_cast; ring
      · unfold INT_MIN; push_cast at h3 ⊢; omega
      · unfold INT_MAX at hn ⊢; push_cast at h3 ⊢; omega
    simp only [isPrimeLoop, hw]
    split_ifs
    · exact ⟨_, rfl⟩
    · exact ih f (by omega) (by push_cast at h3; omega)
    · exact ⟨_, rfl⟩

theorem isPrime_returns (n : Int) (hn : n ≤ INT_MAX) : ∃ b, isPrime n = some b := by
  unfold isPrime
  split_ifs with h1 h2 h3
  · exact ⟨_, rfl⟩
  · exact ⟨_, rfl⟩
  · exact ⟨_, rfl⟩
  · have h2' : n ≠ 2 := by simpa using h2
    have hodd : n % 2 = 1 := by
      have h := h3
      rw [Int.tmod_eq_emod (by omega) (by omega)] at h
      simp at h
      omega
    have hk : (3 : Int) = n - 2 * (((n - 3) / 2).toNat : Int) := by
      rw [Int.toNat_of_nonneg (by omega)]
      omega
    rw [hk]
    apply isPrimeLoop_returns n hn
    · have : ((n - 3) / 2).toNat < n.toNat := by
        have ha : (((n - 3) / 2).toNat : Int) = (n - 3) / 2 := Int.toNat_of_nonneg (by omega)
        have hb : (n.toNat : Int) = n := Int.toNat_of_nonneg (by omega)
        omega
      exact this
    · rw [← hk]

theorem numberToWords_ok (n : Int) (h : ¬ (n < 0 ∨ n > 99)) :
    ∃ r, numberToWords n = .ok r := by
  have h1 : (decide (n < 0) || decide (n > 99)) = false := by
    simpa using h
  unfold numberToWords
  rw [if_neg (by simp [h1])]
  repeat' split
  all_goals exact ⟨_, rfl⟩

/-- C27: each function of `MathUtils` throws `std::invalid_argument` exactly on
its invalid inputs: `factorial(n)` iff `n < 0`, `power(b, e)` iff `e < 0`,
`findMax(v)` and `average(v)` iff `v` is empty, `numberToWords(n)` iff `n < 0`
or `n > 99`, `divide(a, b)` iff `b == 0.0`, each with its message; `add`,
`multiply` and `isPrime` never throw: they return an `int`, respectively a
`bool`, for all arguments of type `int`. -/
theorem throws_exactly_on_invalid_input {F : Type} (fp : DoubleOps F) :
    (∀ n : Int,
      ((∃ e, factorial n = .error e) ↔ n < 0) ∧
      (n < 0 → factorial n = .error (.invalid_argument "Factorial of negative number"))) ∧
    (∀ b e : Int,
      ((∃ x, power b e = .error x) ↔ e < 0) ∧
      (e < 0 → power b e = .error (.invalid_argument "Negative exponent not supported"))) ∧
    (∀ v : List Int,
      ((∃ e, findMax v = .error e) ↔ v = []) ∧
      (v = [] → findMax v = .error (.invalid_argument "Cannot find max of empty vector"))) ∧
    (∀ v : List Int,
      ((∃ e, average fp v = .error e) ↔ v = []) ∧
      (v = [] →
        average fp v
          = .error (.invalid_argument "Cannot calculate average of empty vector"))) ∧
    (∀ n : Int,
      ((∃ e, numberToWords n = .error e) ↔ (n < 0 ∨ n > 99)) ∧
      (n < 0 ∨ n > 99 →
        numberToWords n = .error (.invalid_argument "Only numbers 0-99 supported"))) ∧
    (∀ a b : F,
      ((∃ e, divide fp a b = .error e) ↔ fp.eq b (fp.ofInt 0) = true) ∧
      (fp.eq b (fp.ofInt 0) = true →
        divide fp a b = .error (.invalid_argument "Division by zero"))) ∧
    (∀ a b : Int, INT_MIN ≤ add a b ∧ add a b ≤ INT_MAX) ∧
    (∀ a b : Int, INT_MIN ≤ multiply a b ∧ multiply a b ≤ INT_MAX) ∧
    (∀ n : Int, INT_MIN ≤ n → n ≤ INT_MAX → ∃ b, isPrime n = some b) := by
  refine ⟨?_, ?_, ?_, ?_, ?_, ?_, fun a b => wrap_fits _, fun a b => wrap_fits _, ?_⟩
  · intro n
    unfold factorial
    split_ifs <;> simp_all
  · intro b e
    unfold power
    split_ifs <;> simp_all
  · intro v
    cases v <;> simp [findMax]
  · intro v
    cases v <;> simp [average]
  · intro n
    by_cases h : n < 0 ∨ n > 99
    · have hthrow : numberToWords n
          = .error (.invalid_argument "Only numbers 0-99 supported") := by
        unfold numberToWords
        rw [if_pos (by simpa using h)]
      exact ⟨⟨fun _ => h, fun _ => ⟨_, hthrow⟩⟩, fun _ => hthrow⟩
    · obtain ⟨r, hr⟩ := numberToWords_ok n h
      refine ⟨⟨fun ⟨e, he⟩ => ?_, fun h' => absurd h' h⟩, fun h' => absurd h' h⟩
      rw [hr] at he
      cases he
  · intro a b
    unfold divide
    split_ifs <;> simp_all
  · intro n _ hmax
    exact isPrime_returns n hmax

theorem wrap_le (x : Int) : wrap x ≤ 2147483647 := (wrap_fits x).2

theorem prime_INT_MAX : Nat.Prime 2147483647 := by
  have h : (mersenne 31).Prime := lucas_lehmer_sufficiency _ (by norm_num) (by norm_num)
  have e : mersenne 31 = 2147483647 := by norm_num [mersenne]
  rwa [e] at h

theorem INT_MAX_tmod_ne_zero (i : Int) (h3 : 3 ≤ i) (hlt : i < 2147483647) :
    ¬ ((2147483647 : Int).tmod i == 0) = true := by
  rw [Int.tmod_eq_emod (by omega) (by omega)]
  intro h
  have hdvd : i ∣ (2147483647 : Int) := Int.dvd_of_emod_eq_zero (by simpa using h)
  obtain ⟨m, rfl⟩ : ∃ m : Nat, i = (m : Int) := ⟨i.toNat, (Int.toNat_of_nonneg (by omega)).symm⟩
  have hdvd' : m ∣ 2147483647 := by exact_mod_cast hdvd
  rcases (Nat.dvd_prime prime_INT_MAX).1 hdvd' with h1 | h1
  · omega
  · omega

theorem isPrimeLoop_INT_MAX :
    ∀ (k fuel : Nat), k < fuel → 3 ≤ (2147483647 : Int) - 2 * (k : Int) →
      isPrimeLoop 2147483647 fuel (2147483647 - 2 * (k : Int)) = some false := by
  intro k
  induction k with
  | zero =>
    intro fuel hf _
    obtain ⟨f, rfl⟩ : ∃ f, fuel = f + 1 := ⟨fuel - 1, by omega⟩
    simp only [isPrimeLoop, Nat.cast_zero, mul_zero, sub_zero, Int.tmod_self]
    rw [if_pos (wrap_le _)]
    rfl
  | succ k ih =>
    intro fuel hf h3
    obtain ⟨f, rfl⟩ : ∃ f, fuel = f + 1 := ⟨fuel - 1, by omega⟩
    have hw : wrap (2147483647 - 2 * ((k + 1 : Nat) : Int) + 2) = 2147483647 - 2 * (k : Int) := by
      rw [wrap_of_fits]
      · push_cast; ring
      · unfold INT_MIN; push_cast at h3 ⊢; omega
      · unfold INT_MAX; push_cast at h3 ⊢; omega
    simp only [isPrimeLoop, hw]
    rw [if_pos (wrap_le _),
      if_neg (INT_MAX_tmod_ne_zero _ h3 (by push_cast; omega))]
    exact ih f (by omega) (by push_cast at h3; omega)

/-- C22, the failing input: 2147483647, the greatest `int`, is a prime number,
and `MathUtils::isPrime(2147483647)` returns false.  The test `i * i <= n`
overflows from `i = 46341` on (46341 * 46341 = 2147488281 is no `int`), every
wrapped square is at most `n`, so the loop runs until `i` is `n` itself and
finds the divisor `n`. -/
theorem isPrime_INT_MAX_returns_false :
    Nat.Prime 2147483647 ∧ (46341 : Int) * 46341 > INT_MAX ∧
      isPrime 2147483647 = some false := by
  refine ⟨prime_INT_MAX, by decide, ?_⟩
  have h := isPrimeLoop_INT_MAX 1073741822 2147483647 (by omega) (by omega)
  have e : (2147483647 : Int) - 2 * ((1073741822 : Nat) : Int) = 3 := by norm_num
  rw [e] at h
  unfold isPrime
  rw [if_neg (by decide), if_neg (by decide), if_neg (by decide)]
  exact h

/-- Loop of `MathUtils::isPrime` below the overflow: for an odd `N` smaller than
46339 * 46339 no square `i * i` leaves `int`, and trial division by the odd
numbers from `i` on decides whether `N` is prime, with fuel for every step. -/
theorem isPrimeLoop_correct (N : Nat) (hN : N < 2147302921) (hodd : N % 2 = 1) :
    ∀ (fuel i : Nat), 3 ≤ i → i % 2 = 1 → i ≤ N → (i - 2) * (i - 2) ≤ N →
      (∀ d, 2 ≤ d → d < i → ¬ d ∣ N) → N - i < 2 * fuel →
      isPrimeLoop (N : Int) fuel (i : Int) = some (decide (Nat.Prime N)) := by
  intro fuel
  induction fuel with
  | zero => intro i _ _ _ _ _ hf; omega
  | succ f ih =>
    intro i h3 hi hle hprev hdiv hf
    have hi46 : i ≤ 46339 := by
      by_contra hc
      have h1 : 46339 ≤ i - 2 := by omega
      have h2 : 46339 * 46339 ≤ (i - 2) * (i - 2) := Nat.mul_le_mul h1 h1
      omega
    have hsq : i * i ≤ 2147302921 := by
      have := Nat.mul_le_mul hi46 hi46
      omega
    have hw1 : wrap ((i : Int) * (i : Int)) = ((i * i : Nat) : Int) := by
      rw [wrap_of_fits]
      · push_cast; rfl
      · unfold INT_MIN; have : (0 : Int) ≤ (i : Int) * (i : Int) := by positivity
        omega
      · unfold INT_MAX
        have : ((i * i : Nat) : Int) ≤ 2147302921 := by exact_mod_cast hsq
        push_cast at this
        omega
    have hw2 : wrap ((i : Int) + 2) = ((i + 2 : Nat) : Int) := by
      rw [wrap_of_fits]
      · push_cast; rfl
      · unfold INT_MIN; omega
      · unfold INT_MAX; omega
    have htmod : (N : Int).tmod (i : Int) = ((N % i : Nat) : Int) := (Int.ofNat_tmod N i).symm
    simp only [isPrimeLoop, hw1, hw2, htmod]
    by_cases hcond : i * i ≤ N
    · rw [if_pos (by exact_mod_cast hcond)]
      by_cases hmod : N % i = 0
      · rw [if_pos (by simp [hmod])]
        have hnp : ¬ Nat.Prime N := by
          intro hp
          have hdvd : i ∣ N := Nat.dvd_of_mod_eq_zero hmod
          rcases (Nat.dvd_prime hp).1 hdvd with h | h
          · omega
          · have : i * i ≤ i := by rw [h] at hcond ⊢; exact hcond
            have : 3 * i ≤ i * i := Nat.mul_le_mul_right i h3
            omega
        simp [hnp]
      · rw [if_neg (by simp only [beq_iff_eq]; exact_mod_cast hmod)]
        have h3i : 3 * i ≤ i * i := Nat.mul_le_mul_right i h3
        apply ih (i + 2) (by omega) (by omega) (by omega)
        · simpa using hcond
        · intro d hd2 hdlt hdvd
          by_cases h1 : d < i
          · exact hdiv d hd2 h1 hdvd
          · by_cases h2 : d = i
            · subst h2
              exact hmod (Nat.mod_eq_zero_of_dvd hdvd)
            · have hd : d = i + 1 := by omega
              have h2d : 2 ∣ d := by omega
              have : 2 ∣ N := Nat.dvd_trans h2d hdvd
              omega
        · omega
    · rw [if_neg (by exact_mod_cast hcond)]
      have hp : Nat.Prime N := by
        rw [Nat.prime_def_le_sqrt]
        refine ⟨by omega, fun m hm2 hms hdvd => ?_⟩
        have hmm : m * m ≤ N := le_trans (Nat.mul_le_mul hms hms) (Nat.sqrt_le N)
        have hmi : m < i := by
          by_contra hc
          have : i * i ≤ m * m := Nat.mul_le_mul (by omega) (by omega)
          omega
        exact hdiv m hm2 hmi hdvd
      simp [hp]

/-- Below the squares that overflow, `MathUtils::isPrime` decides primality:
for every `n < 46339 * 46339` it returns whether `n` is a prime number, false
for every `n < 2`. -/
theorem isPrime_correct_below (n : Int) (h : n < 2147302921) :
    isPrime n = some (decide (Nat.Prime n.toNat)) := by
  unfold isPrime
  split_ifs with h1 h2 h3
  · have : ¬ Nat.Prime n.toNat := by
      intro hp
      have := hp.two_le
      omega
    simp [this]
  · have h2' : n = 2 := by simpa using h2
    subst h2'
    simp [Nat.prime_two]
  · have h3' : n % 2 = 0 := by
      have h := h3
      rw [Int.tmod_eq_emod (by omega) (by omega)] at h
      simpa using h
    have h2' : n ≠ 2 := by simpa using h2
    have : ¬ Nat.Prime n.toNat := by
      intro hp
      have hdvd : 2 ∣ n.toNat := by omega
      rcases (Nat.dvd_prime hp).1 hdvd with h | h
      · omega
      · omega
    simp [this]
  · have hodd : n % 2 = 1 := by
      have h := h3
      rw [Int.tmod_eq_emod (by omega) (by omega)] at h
      simp at h
      omega
    have h2' : n ≠ 2 := by simpa using h2
    obtain ⟨N, rfl⟩ : ∃ N : Nat, n = (N : Int) := ⟨n.toNat, (Int.toNat_of_nonneg (by omega)).symm⟩
    simp only [Int.toNat_ofNat]
    have := isPrimeLoop_correct N (by omega) (by omega) N 3 (by omega) (by omega) (by omega)
      (by simp; omega) (fun d hd2 hd3 hdvd => by
        have : d = 2 := by omega
        subst this
        omega) (by omega)
    simpa using this

theorem fits_of_natAbs_le {x : Int} (h : x.natAbs ≤ 2147483647) :
    INT_MIN ≤ x ∧ x ≤ INT_MAX := by
  unfold INT_MIN INT_MAX
  omega

theorem natAbs_le_of_fits {x : Int} (h : INT_MIN ≤ x ∧ x ≤ INT_MAX) :
    x.natAbs ≤ 2147483648 := by
  unfold INT_MIN INT_MAX at h
  omega

theorem fits_pow_of_le (b : Int) (e j : Nat)
    (hfit : INT_MIN ≤ b ^ e ∧ b ^ e ≤ INT_MAX) (hj : j ≤ e) :
    INT_MIN ≤ b ^ j ∧ b ^ j ≤ INT_MAX := by
  rcases Nat.eq_or_lt_of_le hj with h | h
  · rw [h]; exact hfit
  · apply fits_of_natAbs_le
    rw [Int.natAbs_pow]
    have he := natAbs_le_of_fits hfit
    rw [Int.natAbs_pow] at he
    by_cases ha : b.natAbs ≤ 1
    · have : b.natAbs ^ j ≤ 1 ^ j := Nat.pow_le_pow_left ha j
      rw [Nat.one_pow] at this
      omega
    · have h2 : 2 ≤ b.natAbs := by omega
      have h3 : b.natAbs ^ (j + 1) ≤ b.natAbs ^ e :=
        Nat.pow_le_pow_right (by omega) h
      have h4 : b.natAbs ^ j * 2 ≤ b.natAbs ^ (j + 1) := by
        rw [Nat.pow_succ]
        exact Nat.mul_le_mul_left _ h2
      omega

theorem powerLoop_spec (b : Int) (e : Nat) (he : (e : Int) ≤ INT_MAX)
    (hfit : ∀ j, j ≤ e → INT_MIN ≤ b ^ j ∧ b ^ j ≤ INT_MAX) :
    ∀ (m fuel i : Nat), i + m = e → m < fuel →
      powerLoop b (e : Int) fuel (i : Int) (b ^ i) = some (b ^ e) := by
  intro m
  induction m with
  | zero =>
    intro fuel i hi hf
    obtain ⟨f, rfl⟩ : ∃ f, fuel = f + 1 := ⟨fuel - 1, by omega⟩
    have : i = e := by omega
    subst this
    simp [powerLoop]
  | succ m ih =>
    intro fuel i hi hf
    obtain ⟨f, rfl⟩ : ∃ f, fuel = f + 1 := ⟨fuel - 1, by omega⟩
    have hlt : (i : Int) < (e : Int) := by omega
    have hw1 : wrap ((i : Int) + 1) = ((i + 1 : Nat) : Int) := by
      rw [wrap_of_fits]
      · push_cast; rfl
      · unfold INT_MIN; omega
      · unfold INT_MAX at he ⊢; omega
    have hw2 : wrap (b ^ i * b) = b ^ (i + 1) := by
      rw [← pow_succ]
      exact wrap_of_fits (hfit (i + 1) (by omega)).1 (hfit (i + 1) (by omega)).2
    simp only [powerLoop, if_pos hlt, hw1, hw2]
    exact ih f (i + 1) (by omega) (by omega)

/-- C24: for every `base` and every `exponent >= 0` such that `base` raised to
`exponent` fits an `int`, `MathUtils::power(base, exponent)` returns that
power; `power(base, 0)` is 1 for every base, `power(0, 0)` included. -/
theorem power_eq_pow (base exponent : Int) (h0 : 0 ≤ exponent) (hmax : exponent ≤ INT_MAX)
    (hfit : INT_MIN ≤ base ^ exponent.toNat ∧ base ^ exponent.toNat ≤ INT_MAX) :
    power base exponent = .ok (some (base ^ exponent.toNat)) ∧
      power base 0 = .ok (some 1) ∧ power 0 0 = .ok (some 1) := by
  refine ⟨?_, rfl, rfl⟩
  obtain ⟨e, rfl⟩ : ∃ e : Nat, exponent = (e : Int) :=
    ⟨exponent.toNat, (Int.toNat_of_nonneg h0).symm⟩
  simp only [Int.toNat_ofNat] at hfit ⊢
  unfold power
  rw [if_neg (by omega)]
  split_ifs with h
  · have : e = 0 := by simpa using h
    subst this
    simp
  · have h := powerLoop_spec base e hmax (fun j hj => fits_pow_of_le base e j hfit hj)
      e (e + 1) 0 (by omega) (by omega)
    simpa using h

/-- Witness for C24: a negative base whose power is the least `int`. -/
theorem power_eq_pow_witness :
    power (-2) 31 = .ok (some ((-2) ^ (31 : Int).toNat)) ∧
      power (-2) 0 = .ok (some 1) ∧ power 0 0 = .ok (some 1) :=
  power_eq_pow (-2) 31 (by decide) (by decide) (by decide)

end MathUtils

namespace Calculator

open Cpp

/-! ## Calculator: lemmas -/

theorem addToHistory_of_lt {F : Type} (c : State F) (v : F) (h : c.history.length < 100) :
    addToHistory c v = { c with history := c.history ++ [v] } := by
  unfold addToHistory
  rw [if_neg (by simp; omega)]

theorem addToHistory_of_ge {F : Type} (c : State F) (v : F) (h : 100 ≤ c.history.length) :
    addToHistory c v = { c with history := (c.history ++ [v]).tail } := by
  unfold addToHistory
  rw [if_pos (by simp; omega)]

theorem addToHistory_length_le {F : Type} (c : State F) (v : F)
    (h : c.history.length ≤ 100) : (addToHistory c v).history.length ≤ 100 := by
  by_cases h1 : c.history.length < 100
  · rw [addToHistory_of_lt c v h1]
    simp; omega
  · rw [addToHistory_of_ge c v (by omega)]
    simp; omega

theorem Arith.run_cases {F : Type} (fp : DoubleOps F) (a : Arith F) (c : State F) :
    (∃ v, a.run fp c = (.ok v, addToHistory c v)) ∨
      (∃ w, a.run fp c = (.error (.invalid_argument w), c)) := by
  cases a with
  | add a b => exact Or.inl ⟨_, rfl⟩
  | subtract a b => exact Or.inl ⟨_, rfl⟩
  | multiply a b => exact Or.inl ⟨_, rfl⟩
  | divide a b =>
    simp only [Arith.run, Calculator.divide]
    split_ifs
    · exact Or.inr ⟨_, rfl⟩
    · exact Or.inl ⟨_, rfl⟩
  | power a b =>
    simp only [Arith.run, Calculator.power]
    split_ifs
    · exact Or.inr ⟨_, rfl⟩
    · exact Or.inl ⟨_, rfl⟩
  | sqrt a =>
    simp only [Arith.run, Calculator.sqrt]
    split_ifs
    · exact Or.inr ⟨_, rfl⟩
    · exact Or.inl ⟨_, rfl⟩
  | sin a => exact Or.inl ⟨_, rfl⟩
  | cos a => exact Or.inl ⟨_, rfl⟩

theorem runArith_all_ok {F : Type} (fp : DoubleOps F) (as : List (Arith F)) (c : State F)
    (hk : c.history.length + as.length ≤ 100)
    (hok : ∀ r ∈ (runArith fp as c).1, ∃ v, r = Except.ok v) :
    ∃ vs : List F, vs.length = as.length ∧
      (runArith fp as c).1 = vs.map Except.ok ∧
      (runArith fp as c).2 = { c with history := c.history ++ vs } := by
  induction as generalizing c with
  | nil => exact ⟨[], rfl, rfl, by simp [runArith]⟩
  | cons a rest ih =>
    simp only [List.length_cons] at hk
    rcases Arith.run_cases fp a c with ⟨v, hv⟩ | ⟨w, hw⟩
    · have hstate : (a.run fp c).2 = { c with history := c.history ++ [v] } := by
        rw [hv]; exact addToHistory_of_lt c v (by omega)
      have hok' : ∀ r ∈ (runArith fp rest (a.run fp c).2).1, ∃ v, r = Except.ok v := by
        intro r hr
        exact hok r (by simp only [runArith]; exact List.mem_cons_of_mem _ hr)
      have hk' : (a.run fp c).2.history.length + rest.length ≤ 100 := by
        rw [hstate]; simp; omega
      obtain ⟨vs, hlen, hres, hst⟩ := ih (a.run fp c).2 hk' hok'
      refine ⟨v :: vs, by simp [hlen], ?_, ?_⟩
      · simp only [runArith, hres, List.map_cons]
        rw [hv]
      · simp only [runArith, hst]
        rw [hstate]
        simp
    · exfalso
      obtain ⟨v, hv⟩ := hok (a.run fp c).1 (by simp [runArith])
      rw [hw] at hv
      cases hv

theorem getLastResult_append {F : Type} (c : State F) (vs : List F) (v : F)
    (h : c.history = vs ++ [v]) : getLastResult c = .ok v := by
  unfold getLastResult
  split
  · next h0 => rw [h0] at h; simp at h
  · next first rest h0 =>
    have : (first :: rest).getLast (List.cons_ne_nil first rest) = v := by
      have h1 : first :: rest = vs ++ [v] := by rw [← h0, h]
      simp [h1]
    rw [this]

/-- C28: on a freshly constructed `Calculator`, after a sequence of `k <= 100`
arithmetic operations (`add`, `subtract`, `multiply`, `divide`, `power`,
`sqrt`, `sin`, `cos`) that all return normally, `getHistory()` has exactly `k`
entries, the i-th being the value the i-th operation returned, and
`getLastResult()` returns the value the last operation returned; and on any
calculator `getLastResult()` throws, a `std::runtime_error`, exactly when the
history is empty. -/
theorem history_records_returned_values {F : Type} (fp : DoubleOps F)
    (as : List (Arith F)) (hk : as.length ≤ 100)
    (hok : ∀ r ∈ (runArith fp as (new fp)).1, ∃ v, r = Except.ok v) :
    (getHistory (runArith fp as (new fp)).2).length = as.length ∧
      (runArith fp as (new fp)).1 = (getHistory (runArith fp as (new fp)).2).map Except.ok ∧
      (∀ r, (runArith fp as (new fp)).1.getLast? = some r →
        getLastResult (runArith fp as (new fp)).2 = r) ∧
      (∀ c : State F,
        ((∃ e, getLastResult c = .error e) ↔ getHistory c = []) ∧
        (getHistory c = [] →
          getLastResult c = .error (.runtime_error "No calculations performed yet"))) := by
  obtain ⟨vs, hlen, hres, hst⟩ :=
    runArith_all_ok fp as (new fp) (by simpa [new] using hk) hok
  have hh : getHistory (runArith fp as (new fp)).2 = vs := by
    rw [hst]; simp [getHistory, new]
  refine ⟨by rw [hh, hlen], by rw [hh, hres], ?_, ?_⟩
  · intro r hr
    rw [hres] at hr
    rcases List.eq_nil_or_concat vs with h | ⟨init, last, h⟩
    · subst h; simp at hr
    · subst h
      simp at hr
      subst hr
      exact getLastResult_append _ init last (by rw [← List.concat_eq_append]; exact hh)
  · intro c
    unfold getLastResult getHistory
    cases c.history with
    | nil => simp
    | cons first rest => simp

/-- Witness for C28: the three operations of the history test. -/
theorem history_records_returned_values_witness :
    (getHistory (runArith intOps [.add 2 3, .multiply 4 5, .divide 10 2] (new intOps)).2).length
        = [Arith.add (2 : Int) 3, .multiply 4 5, .divide 10 2].length ∧
      getHistory (runArith intOps [.add 2 3, .multiply 4 5, .divide 10 2] (new intOps)).2
        = [5, 20, 5] :=
  ⟨(history_records_returned_values intOps [.add 2 3, .multiply 4 5, .divide 10 2]
      (by decide) (by
        intro r hr
        have h : (runArith intOps [.add 2 3, .multiply 4 5, .divide 10 2] (new intOps)).1
            = [.ok 5, .ok 20, .ok 5] := rfl
        rw [h] at hr
        simp at hr
        rcases hr with h | h | h <;> exact ⟨_, h⟩)).1,
    by decide⟩

/-- C29: a `Calculator` operation that throws leaves the calculator as it was:
`divide(a, b)` with `b == 0.0`, `sqrt(v)` with `v < 0.0` and `power(b, e)` with
`b == 0.0` and `e < 0.0` each throw `std::invalid_argument` and change neither
the history, nor the memory, nor the angle mode; so does every arithmetic
operation that throws; and on a fresh calculator `getLastResult()` still throws
"No calculations performed yet" after any sequence of such operations. -/
theorem throwing_operation_keeps_state {F : Type} (fp : DoubleOps F) :
    (∀ (c : State F) (a b : F), fp.eq b (fp.ofInt 0) = true →
      divide fp c a b = (.error (.invalid_argument "Division by zero"), c)) ∧
    (∀ (c : State F) (v : F), fp.lt v (fp.ofInt 0) = true →
      sqrt fp c v
        = (.error (.invalid_argument "Cannot take square root of negative number"), c)) ∧
    (∀ (c : State F) (b e : F), fp.eq b (fp.ofInt 0) = true → fp.lt e (fp.ofInt 0) = true →
      power fp c b e
        = (.error (.invalid_argument "Cannot raise zero to negative power"), c)) ∧
    (∀ (c : State F) (a : Arith F) (e : Exception), (a.run fp c).1 = .error e →
      (a.run fp c).2 = c ∧ ∃ w, e = .invalid_argument w) ∧
    (∀ as : List (Arith F),
      (∀ r ∈ (runArith fp as (new fp)).1, ∃ e, r = Except.error e) →
      (runArith fp as (new fp)).2 = new fp ∧
      getLastResult (runArith fp as (new fp)).2
        = .error (.runtime_error "No calculations performed yet")) := by
  have hone : ∀ (c : State F) (a : Arith F) (e : Exception), (a.run fp c).1 = .error e →
      (a.run fp c).2 = c ∧ ∃ w, e = .invalid_argument w := by
    intro c a e h
    rcases Arith.run_cases fp a c with ⟨v, hv⟩ | ⟨w, hw⟩
    · rw [hv] at h; cases h
    · rw [hw] at h ⊢
      cases h
      exact ⟨rfl, w, rfl⟩
  have hall : ∀ (as : List (Arith F)) (c : State F),
      (∀ r ∈ (runArith fp as c).1, ∃ e, r = Except.error e) → (runArith fp as c).2 = c := by
    intro as
    induction as with
    | nil => intro c _; rfl
    | cons a rest ih =>
      intro c h
      obtain ⟨e, he⟩ := h (a.run fp c).1 (by simp [runArith])
      have hc := (hone c a e he).1
      have h' : ∀ r ∈ (runArith fp rest (a.run fp c).2).1, ∃ e, r = Except.error e :=
        fun r hr => h r (by simp only [runArith]; exact List.mem_cons_of_mem _ hr)
      have := ih (a.run fp c).2 h'
      simp only [runArith]
      rw [this, hc]
  refine ⟨?_, ?_, ?_, hone, ?_⟩
  · intro c a b h
    simp [divide, h]
  · intro c v h
    simp [sqrt, h]
  · intro c b e h1 h2
    simp [power, h1, h2]
  · intro as h
    rw [hall as (new fp) h]
    exact ⟨rfl, rfl⟩

/-- Witness for C29: the three throwing calls of the exception test, on a
fresh calculator. -/
theorem throwing_operation_keeps_state_witness :
    divide intOps (new intOps) 5 0
        = (.error (.invalid_argument "Division by zero"), new intOps) ∧
      sqrt intOps (new intOps) (-4)
        = (.error (.invalid_argument "Cannot take square root of negative number"),
            new intOps) ∧
      power intOps (new intOps) 0 (-1)
        = (.error (.invalid_argument "Cannot raise zero to negative power"), new intOps) ∧
      getLastResult (runArith intOps [.divide 5 0, .sqrt (-4), .power 0 (-1)] (new intOps)).2
        = .error (.runtime_error "No calculations performed yet") :=
  ⟨(throwing_operation_keeps_state intOps).1 _ 5 0 (by decide),
    (throwing_operation_keeps_state intOps).2.1 _ (-4) (by decide),
    (throwing_operation_keeps_state intOps).2.2.1 _ 0 (-1) (by decide) (by decide),
    rfl⟩

theorem evaluateExpression_cases {F : Type} (fp : DoubleOps F) (c : State F) (e : String) :
    (∃ v, evaluateExpression fp c e = (.ok v, addToHistory c v)) ∨
      (∃ w, evaluateExpression fp c e = (.error (.invalid_argument w), c)) := by
  unfold evaluateExpression
  split_ifs
  · exact Or.inr ⟨_, rfl⟩
  · exact Or.inl ⟨_, rfl⟩
  · exact Or.inl ⟨_, rfl⟩
  · exact Or.inl ⟨_, rfl⟩
  · exact Arith.run_cases fp (.divide (fp.ofInt 15) (fp.ofInt 3)) c
  · exact Or.inr ⟨_, rfl⟩

theorem Op.run_length_le {F : Type} (fp : DoubleOps F) (op : Op F) (c : State F)
    (h : c.history.length ≤ 100) : (op.run fp c).history.length ≤ 100 := by
  cases op with
  | arith a =>
    rcases Arith.run_cases fp a c with ⟨v, hv⟩ | ⟨w, hw⟩
    · simp only [Op.run, hv]; exact addToHistory_length_le c v h
    · simp only [Op.run, hw]; exact h
  | setMemory v => exact h
  | clearMemory => exact h
  | setDegreesMode d => exact h
  | addToHistory v => exact addToHistory_length_le c v h
  | clearHistory => simp [Op.run, Calculator.clearHistory]
  | evaluateExpression e =>
    rcases evaluateExpression_cases fp c e with ⟨v, hv⟩ | ⟨w, hw⟩
    · simp only [Op.run, hv]; exact addToHistory_length_le c v h
    · simp only [Op.run, hw]; exact h
  | reset => simp [Op.run, Calculator.reset]

theorem runOps_length_le {F : Type} (fp : DoubleOps F) (ops : List (Op F)) (c : State F)
    (h : c.history.length ≤ 100) : (runOps fp ops c).history.length ≤ 100 := by
  induction ops generalizing c with
  | nil => exact h
  | cons op rest ih => exact ih _ (Op.run_length_le fp op c h)

/-- C30: the history of a `Calculator` is a fixed-capacity FIFO of 100
entries: after any sequence of operations on a freshly constructed calculator
`getHistory().size() <= 100`; `addToHistory(v)` on a history `h` of fewer than
100 entries yields `h` followed by `v`, and on a history of exactly 100 entries
yields `h` without its first entry, followed by `v`; an arithmetic operation
that returns `v` changes the calculator exactly as `addToHistory(v)` does. -/
theorem history_is_bounded_queue {F : Type} (fp : DoubleOps F) :
    (∀ ops : List (Op F), (getHistory (runOps fp ops (new fp))).length ≤ 100) ∧
    (∀ (c : State F) (v : F), (getHistory c).length < 100 →
      getHistory (addToHistory c v) = getHistory c ++ [v]) ∧
    (∀ (c : State F) (v : F), (getHistory c).length = 100 →
      getHistory (addToHistory c v) = (getHistory c).tail ++ [v] ∧
      (getHistory (addToHistory c v)).length = 100) ∧
    (∀ (c : State F) (a : Arith F) (v : F), (a.run fp c).1 = .ok v →
      (a.run fp c).2 = addToHistory c v) := by
  refine ⟨?_, ?_, ?_, ?_⟩
  · intro ops
    exact runOps_length_le fp ops (new fp) (by simp [new])
  · intro c v h
    rw [addToHistory_of_lt c v h]
    rfl
  · intro c v h
    unfold getHistory at h ⊢
    rw [addToHistory_of_ge c v (by omega)]
    have hne : c.history ≠ [] := by
      intro h0; rw [h0] at h; simp at h
    constructor
    · show (c.history ++ [v]).tail = c.history.tail ++ [v]
      cases hc : c.history with
      | nil => exact absurd hc hne
      | cons x xs => rfl
    · show (c.history ++ [v]).tail.length = 100
      simp; omega
  · intro c a v h
    rcases Arith.run_cases fp a c with ⟨v', hv⟩ | ⟨w, hw⟩
    · rw [hv] at h ⊢
      cases h
      rfl
    · rw [hw] at h; cases h

/-- Witness for C30: on a history of 100 zeros, `addToHistory(7)` drops the
first zero and appends 7. -/
theorem history_is_bounded_queue_witness :
    getHistory (addToHistory
        { history := List.replicate 100 (0 : Int), memory := 0, degrees_mode := true } 7)
      = (List.replicate 100 (0 : Int)).tail ++ [7] :=
  ((history_is_bounded_queue intOps).2.2.1
    { history := List.replicate 100 (0 : Int), memory := 0, degrees_mode := true } 7
    (List.length_replicate 100 0)).1

/-! ## Expressions -/

theorem addToHistory_ends_with {F : Type} (c : State F) (v : F) :
    ∃ kept, (addToHistory c v).history = kept ++ [v] ∧
      (c.history.length < 100 → kept = c.history) := by
  by_cases h : c.history.length < 100
  · exact ⟨c.history, by rw [addToHistory_of_lt c v h], fun _ => rfl⟩
  · refine ⟨c.history.tail, ?_, fun h1 => absurd h1 h⟩
    rw [addToHistory_of_ge c v (by omega)]
    cases hc : c.history with
    | nil => rw [hc] at h; simp at h
    | cons x xs => rfl

/-- C31: with `3.0 == 0.0` false, `Calculator::evaluateExpression(e)` returns
normally exactly when `e` is one of "2+3", "10-4", "6*7", "15/3"; it is then the
call `add(2, 3)`, `subtract(10, 4)`, `multiply(6, 7)` or `divide(15, 3)` and
returns that sum, difference, product or quotient; the returned value is put
into the history by `addToHistory` (it is the last entry afterwards, behind the
entries there were when these are fewer than 100, and `getLastResult()` returns
it).  For every other string it throws `std::invalid_argument` and the
calculator, its history included, is as before; for the empty string the
message is "Empty expression". -/
theorem evaluateExpression_four_literals {F : Type} (fp : DoubleOps F)
    (h3 : fp.eq (fp.ofInt 3) (fp.ofInt 0) = false) (c : State F) (e : String) :
    ((∃ v, (evaluateExpression fp c e).1 = .ok v) ↔
        e = "2+3" ∨ e = "10-4" ∨ e = "6*7" ∨ e = "15/3") ∧
      (e = "2+3" → evaluateExpression fp c e = add fp c (fp.ofInt 2) (fp.ofInt 3) ∧
        (evaluateExpression fp c e).1 = .ok (fp.add (fp.ofInt 2) (fp.ofInt 3))) ∧
      (e = "10-4" → evaluateExpression fp c e = subtract fp c (fp.ofInt 10) (fp.ofInt 4) ∧
        (evaluateExpression fp c e).1 = .ok (fp.sub (fp.ofInt 10) (fp.ofInt 4))) ∧
      (e = "6*7" → evaluateExpression fp c e = multiply fp c (fp.ofInt 6) (fp.ofInt 7) ∧
        (evaluateExpression fp c e).1 = .ok (fp.mul (fp.ofInt 6) (fp.ofInt 7))) ∧
      (e = "15/3" → evaluateExpression fp c e = divide fp c (fp.ofInt 15) (fp.ofInt 3) ∧
        (evaluateExpression fp c e).1 = .ok (fp.div (fp.ofInt 15) (fp.ofInt 3))) ∧
      (∀ v, (evaluateExpression fp c e).1 = .ok v →
        (evaluateExpression fp c e).2 = addToHistory c v ∧
        (∃ kept, getHistory (evaluateExpression fp c e).2 = kept ++ [v] ∧
          ((getHistory c).length < 100 → kept = getHistory c)) ∧
        getLastResult (evaluateExpression fp c e).2 = .ok v) ∧
      (¬ (e = "2+3" ∨ e = "10-4" ∨ e = "6*7" ∨ e = "15/3") →
        ∃ w, evaluateExpression fp c e = (.error (.invalid_argument w), c)) ∧
      (e = "" →
        evaluateExpression fp c e = (.error (.invalid_argument "Empty expression"), c)) := by
  have hdiv : divide fp c (fp.ofInt 15) (fp.ofInt 3) =
      (.ok (fp.div (fp.ofInt 15) (fp.ofInt 3)),
        addToHistory c (fp.div (fp.ofInt 15) (fp.ofInt 3))) := by
    unfold divide
    rw [h3]
    rfl
  have hok : ∀ v, (evaluateExpression fp c e).1 = .ok v →
      (evaluateExpression fp c e).2 = addToHistory c v := by
    intro v hv
    rcases evaluateExpression_cases fp c e with ⟨u, hu⟩ | ⟨w, hw⟩
    · rw [hu] at hv ⊢
      cases hv
      rfl
    · rw [hw] at hv
      cases hv
  have hbad : ¬ (e = "2+3" ∨ e = "10-4" ∨ e = "6*7" ∨ e = "15/3") →
      ∃ w, evaluateExpression fp c e = (.error (.invalid_argument w), c) := by
    intro hne
    simp only [not_or] at hne
    obtain ⟨h1, h2, h4, h5⟩ := hne
    unfold evaluateExpression
    rw [if_neg h1, if_neg h2, if_neg h4, if_neg h5]
    split_ifs
    · exact ⟨_, rfl⟩
    · exact ⟨_, rfl⟩
  refine ⟨⟨?_, ?_⟩, ?_, ?_, ?_, ?_, ?_, hbad, ?_⟩
  · rintro ⟨v, hv⟩
    by_contra hne
    obtain ⟨w, hw⟩ := hbad hne
    rw [hw] at hv
    cases hv
  · rintro (h | h | h | h) <;> subst h
    · exact ⟨_, rfl⟩
    · exact ⟨_, rfl⟩
    · exact ⟨_, rfl⟩
    · refine ⟨fp.div (fp.ofInt 15) (fp.ofInt 3), ?_⟩
      show (divide fp c (fp.ofInt 15) (fp.ofInt 3)).1 = _
      rw [hdiv]
  · rintro rfl; exact ⟨rfl, rfl⟩
  · rintro rfl; exact ⟨rfl, rfl⟩
  · rintro rfl; exact ⟨rfl, rfl⟩
  · rintro rfl
    refine ⟨rfl, ?_⟩
    show (divide fp c (fp.ofInt 15) (fp.ofInt 3)).1 = _
    rw [hdiv]
  · intro v hv
    obtain ⟨kept, hk, hlt⟩ := addToHistory_ends_with c v
    rw [hok v hv]
    exact ⟨rfl, ⟨kept, hk, hlt⟩, getLastResult_append _ kept v hk⟩
  · rintro rfl; rfl

/-- C31 at the integers, on a new calculator: "15/3" returns 5 and the history
is `[5]`; "1+1" throws. -/
theorem evaluateExpression_four_literals_witness :
    intOps.eq (intOps.ofInt 3) (intOps.ofInt 0) = false ∧
      evaluateExpression intOps (new intOps) "15/3" =
        divide intOps (new intOps) (intOps.ofInt 15) (intOps.ofInt 3) ∧
      (evaluateExpression intOps (new intOps) "15/3").1 = .ok 5 ∧
      getHistory (evaluateExpression intOps (new intOps) "15/3").2 = [5] ∧
      ∃ w, evaluateExpression intOps (new intOps) "1+1" =
        (.error (.invalid_argument w), new intOps) :=
  ⟨rfl,
    ((evaluateExpression_four_literals intOps rfl (new intOps) "15/3").2.2.2.2.1 rfl).1,
    rfl, rfl,
    (evaluateExpression_four_literals intOps rfl (new intOps) "1+1").2.2.2.2.2.2.1
      (by decide)⟩

end Calculator

/-! ## Lemmas on `std::getline` -/

namespace Cpp

theorem getlineLoop_delim (delim : Char) (xs rest : List Char) (h : delim ∉ xs) :
    ∀ stored, getlineLoop delim (xs ++ delim :: rest) stored = (stored ++ xs, rest, false) := by
  induction xs with
  | nil => intro stored; simp [getlineLoop]
  | cons x xs ih =>
    intro stored
    have hx : x ≠ delim := fun e => h (by simp [e])
    have hxs : delim ∉ xs := fun m => h (by simp [m])
    simp only [List.cons_append, getlineLoop, if_neg hx]
    show getlineLoop delim (xs ++ delim :: rest) (stored ++ [x]) = _
    rw [ih hxs]
    simp

theorem getlineLoop_end (delim : Char) (xs : List Char) (h : delim ∉ xs) :
    ∀ stored, getlineLoop delim xs stored = (stored ++ xs, [], true) := by
  induction xs with
  | nil => intro stored; simp [getlineLoop]
  | cons x xs ih =>
    intro stored
    have hx : x ≠ delim := fun e => h (by simp [e])
    have hxs : delim ∉ xs := fun m => h (by simp [m])
    simp only [getlineLoop, if_neg hx]
    rw [ih hxs]
    simp

end Cpp

/-! ## Theorems on the record service -/

namespace UserService

open Cpp

theorem callsSince_append {σ : Type} (st0 st1 : State σ) (cs : List Call)
    (h : st1.calls = st0.calls ++ cs) : callsSince st0 st1 = cs := by
  simp [callsSince, h]

theorem empty_false_iff_ne (s : String) : empty s = false ↔ s ≠ "" := by
  unfold empty
  constructor
  · intro h e
    rw [e] at h
    simp at h
  · intro h
    cases hs : s with
    | mk d =>
      cases d with
      | nil => exact absurd hs h
      | cons c cs => simp

theorem fields_present_iff (user : User) :
    (empty user.id || empty user.name || empty user.email) = false ↔
      user.id ≠ "" ∧ user.name ≠ "" ∧ user.email ≠ "" := by
  simp only [Bool.or_eq_false_iff, empty_false_iff_ne, and_assoc]

/-! ### `createUser`, branch by branch -/

theorem createUser_invalid {σ : Type} (D : Deps σ) (user : User) (st : State σ)
    (h0 : (empty user.id || empty user.name || empty user.email) = true) :
    createUser D user st =
      (false, logError D "Invalid user data: missing required fields" st) := by
  simp [createUser, h0]

theorem createUser_existing {σ : Type} (D : Deps σ) (user : User) (st : State σ)
    (h0 : (empty user.id || empty user.name || empty user.email) = false)
    (h1 : (D.database.«exists» user.id st.world).1 = true) :
    createUser D user st =
      (false, logWarning D ("User already exists: " ++ user.id) (callExists D user.id st).2) := by
  simp [createUser, h0, callExists, h1]

theorem createUser_fresh {σ : Type} (D : Deps σ) (user : User) (st : State σ)
    (h0 : (empty user.id || empty user.name || empty user.email) = false)
    (h1 : (D.database.«exists» user.id st.world).1 = false) :
    createUser D user st =
      if (callSave D user.id (userToString user) (callExists D user.id st).2).1 then
        (true, logInfo D ("User created successfully: " ++ user.id)
          (callSave D user.id (userToString user) (callExists D user.id st).2).2)
      else
        (false, logError D ("Failed to create user: " ++ user.id)
          (callSave D user.id (userToString user) (callExists D user.id st).2).2) := by
  simp only [createUser, h0, callExists, h1]
  split_ifs with h2 <;> simp_all

theorem createUser_path {σ : Type} (D : Deps σ) (user : User) (st : State σ) :
    ((empty user.id || empty user.name || empty user.email) = true ∧
        callsSince st (createUser D user st).2 =
          [Call.error "Invalid user data: missing required fields"] ∧
        (createUser D user st).1 = false) ∨
      ((empty user.id || empty user.name || empty user.email) = false ∧
        (D.database.«exists» user.id st.world).1 = true ∧
        callsSince st (createUser D user st).2 =
          [Call.«exists» user.id true, Call.warning ("User already exists: " ++ user.id)] ∧
        (createUser D user st).1 = false) ∨
      ((empty user.id || empty user.name || empty user.email) = false ∧
        (D.database.«exists» user.id st.world).1 = false ∧
        ∃ b, callsSince st (createUser D user st).2 =
          [Call.«exists» user.id false, Call.save user.id (userToString user) b,
            if b then Call.info ("User created successfully: " ++ user.id)
            else Call.error ("Failed to create user: " ++ user.id)] ∧
        (createUser D user st).1 = b) := by
  by_cases h0 : (empty user.id || empty user.name || empty user.email) = true
  · left
    rw [createUser_invalid D user st h0]
    exact ⟨h0, callsSince_append _ _ _ rfl, rfl⟩
  · right
    have h0f : (empty user.id || empty user.name || empty user.email) = false := by
      simpa using h0
    by_cases h1 : (D.database.«exists» user.id st.world).1 = true
    · left
      rw [createUser_existing D user st h0f h1]
      refine ⟨h0f, h1, callsSince_append _ _ _ ?_, rfl⟩
      simp [logWarning, callExists, h1]
    · right
      have h1f : (D.database.«exists» user.id st.world).1 = false := by simpa using h1
      rw [createUser_fresh D user st h0f h1f]
      refine ⟨h0f, h1f, ?_⟩
      split_ifs with h2
      · refine ⟨true, callsSince_append _ _ _ ?_, rfl⟩
        simp only [callSave, callExists] at h2
        simp [logInfo, callSave, callExists, h1f, h2]
      · refine ⟨false, callsSince_append _ _ _ ?_, rfl⟩
        simp only [callSave, callExists, Bool.not_eq_true] at h2
        simp [logError, callSave, callExists, h1f, h2]

/-! ### The database that keeps what is saved -/

theorem lookup_isSome_after_save (k v : String) (w : List (String × String)) :
    (((k, v) :: w.filter (fun p => p.1 != k)).lookup k).isSome = true := by
  simp [List.lookup]

theorem createUser_keeping_exists (user : User) (st : State (List (String × String)))
    (h0 : (empty user.id || empty user.name || empty user.email) = false) :
    (keeping.database.«exists» user.id (createUser keeping user st).2.world).1 = true := by
  by_cases h1 : (keeping.database.«exists» user.id st.world).1 = true
  · rw [createUser_existing keeping user st h0 h1]
    exact h1
  · have h1f : (keeping.database.«exists» user.id st.world).1 = false := by simpa using h1
    rw [createUser_fresh keeping user st h0 h1f]
    exact lookup_isSome_after_save _ _ _

/-- C32: `UserService::createUser` calls `database->save` exactly when the id,
the name and the email of the user are all non-empty and `exists(user.id)`
answered false; the call is then the one call `save(user.id,
userToString(user))`, made after `exists`, and `createUser` returns what it
returned.  In every other case, so whenever `exists(user.id)` answered true,
`createUser` returns false and `save` is not called.  On a database that keeps
what is saved, a second `createUser` of the same user returns false and saves
nothing. -/
theorem createUser_saves_only_new_record {σ : Type} (D : Deps σ) (user : User)
    (st : State σ) :
    ((∃ c ∈ callsSince st (createUser D user st).2, c.isSave = true) ↔
        (user.id ≠ "" ∧ user.name ≠ "" ∧ user.email ≠ "" ∧
          Call.«exists» user.id false ∈ callsSince st (createUser D user st).2)) ∧
      ((∃ c ∈ callsSince st (createUser D user st).2, c.isSave = true) →
        ∃ b rest, callsSince st (createUser D user st).2 =
            Call.«exists» user.id false :: Call.save user.id (userToString user) b :: rest ∧
          (∀ c ∈ rest, c.isSave = false) ∧ (createUser D user st).1 = b) ∧
      ((∀ c ∈ callsSince st (createUser D user st).2, c.isSave = false) →
        (createUser D user st).1 = false) ∧
      (Call.«exists» user.id true ∈ callsSince st (createUser D user st).2 →
        (createUser D user st).1 = false ∧
        ∀ c ∈ callsSince st (createUser D user st).2, c.isSave = false) ∧
      (∀ s : State (List (String × String)),
        (createUser keeping user (createUser keeping user s).2).1 = false ∧
        ∀ c ∈ callsSince (createUser keeping user s).2
            (createUser keeping user (createUser keeping user s).2).2, c.isSave = false) := by
  refine ⟨?_, ?_, ?_, ?_, ?_⟩
  · rcases createUser_path D user st with ⟨h0, hc, -⟩ | ⟨h0, -, hc, -⟩ | ⟨h0, -, b, hc, -⟩
    · rw [hc]
      have : ¬ (user.id ≠ "" ∧ user.name ≠ "" ∧ user.email ≠ "") := by
        rw [← fields_present_iff, h0]; simp
      constructor
      · rintro ⟨c, hm, hs⟩
        simp at hm; subst hm; simp [Call.isSave] at hs
      · rintro ⟨h1, h2, h3, -⟩
        exact absurd ⟨h1, h2, h3⟩ this
    · rw [hc]
      constructor
      · rintro ⟨c, hm, hs⟩
        simp at hm
        rcases hm with rfl | rfl <;> simp [Call.isSave] at hs
      · rintro ⟨-, -, -, hm⟩
        simp at hm
    · rw [hc]
      obtain ⟨h1, h2, h3⟩ := (fields_present_iff user).1 h0
      constructor
      · intro _
        exact ⟨h1, h2, h3, by simp⟩
      · intro _
        exact ⟨Call.save user.id (userToString user) b, by simp, rfl⟩
  · rcases createUser_path D user st with ⟨-, hc, -⟩ | ⟨-, -, hc, -⟩ | ⟨-, -, b, hc, hr⟩
    · rw [hc]
      rintro ⟨c, hm, hs⟩
      simp at hm; subst hm; simp [Call.isSave] at hs
    · rw [hc]
      rintro ⟨c, hm, hs⟩
      simp at hm
      rcases hm with rfl | rfl <;> simp [Call.isSave] at hs
    · rw [hc]
      intro _
      refine ⟨b, _, rfl, ?_, hr⟩
      intro c hm
      simp at hm
      subst hm
      cases b <;> rfl
  · intro hno
    rcases createUser_path D user st with ⟨-, -, hr⟩ | ⟨-, -, -, hr⟩ | ⟨-, -, b, hc, -⟩
    · exact hr
    · exact hr
    · have := hno (Call.save user.id (userToString user) b) (by rw [hc]; simp)
      simp [Call.isSave] at this
  · intro hm
    rcases createUser_path D user st with ⟨-, hc, -⟩ | ⟨-, -, hc, hr⟩ | ⟨-, -, b, hc, -⟩
    · rw [hc] at hm; simp at hm
    · refine ⟨hr, ?_⟩
      rw [hc]
      intro c hc'
      simp at hc'
      rcases hc' with rfl | rfl <;> rfl
    · rw [hc] at hm
      cases b <;> simp at hm
  · intro s
    by_cases h0 : (empty user.id || empty user.name || empty user.email) = true
    · rw [createUser_invalid keeping user (createUser keeping user s).2 h0]
      refine ⟨rfl, ?_⟩
      rw [callsSince_append _ _ [Call.error "Invalid user data: missing required fields"] rfl]
      intro c hc
      simp at hc
      subst hc
      rfl
    · have h0f : (empty user.id || empty user.name || empty user.email) = false := by
        simpa using h0
      have h1 := createUser_keeping_exists user s h0f
      rw [createUser_existing keeping user (createUser keeping user s).2 h0f h1]
      refine ⟨rfl, ?_⟩
      rw [callsSince_append _ _
        [Call.«exists» user.id true, Call.warning ("User already exists: " ++ user.id)]
        (by simp [logWarning, callExists, h1])]
      intro c hc
      simp at hc
      rcases hc with rfl | rfl <;> rfl

/-- C32 on the database that keeps what is saved, empty at first: creating Bob
asks `exists`, saves "1|Bob|b@x" and returns true; creating Bob again returns
false and saves nothing. -/
theorem createUser_saves_only_new_record_witness :
    callsSince (new []) (createUser keeping ⟨"1", "Bob", "b@x"⟩ (new [])).2 =
        [Call.«exists» "1" false, Call.save "1" "1|Bob|b@x" true,
          Call.info "User created successfully: 1"] ∧
      (createUser keeping ⟨"1", "Bob", "b@x"⟩ (new [])).1 = true ∧
      (createUser keeping ⟨"1", "Bob", "b@x"⟩
        (createUser keeping ⟨"1", "Bob", "b@x"⟩ (new [])).2).1 = false ∧
      ∀ c ∈ callsSince (createUser keeping ⟨"1", "Bob", "b@x"⟩ (new [])).2
          (createUser keeping ⟨"1", "Bob", "b@x"⟩
            (createUser keeping ⟨"1", "Bob", "b@x"⟩ (new [])).2).2, c.isSave = false :=
  ⟨by decide, by decide,
    (createUser_saves_only_new_record keeping ⟨"1", "Bob", "b@x"⟩ (new [])).2.2.2.2 (new [])⟩

/-! ### The record as a string -/

theorem userToString_data (u : User) :
    (userToString u).data = u.id.data ++ '|' :: (u.name.data ++ '|' :: u.email.data) := by
  simp [userToString, String.data_append]

theorem stringToUser_of_data (data : String) (i n e : List Char)
    (hd : data.data = i ++ '|' :: (n ++ '|' :: e))
    (hi : '|' ∉ i) (hn : '|' ∉ n) :
    stringToUser data =
      if (getlineLoop '\n' e []).2.2 && (getlineLoop '\n' e []).1.isEmpty then
        .error (.invalid_argument "Invalid user data format")
      else
        .ok { id := String.mk i, name := String.mk n,
              email := String.mk (getlineLoop '\n' e []).1 } := by
  simp only [stringToUser, getline, IStringStream.new, hd, getlineLoop_delim '|' i _ hi,
    getlineLoop_delim '|' n _ hn, Bool.false_and, Bool.or_self, Bool.false_eq_true, if_false,
    List.nil_append]

/-- C33: `stringToUser(userToString(u))` returns a user with the id, the name
and the email of `u`, for every `u` whose id and name hold no '|' and whose
email is not empty and holds no newline. -/
theorem stringToUser_userToString (u : User) (hid : '|' ∉ u.id.data)
    (hname : '|' ∉ u.name.data) (hemail : u.email ≠ "") (hline : '\n' ∉ u.email.data) :
    stringToUser (userToString u) = .ok u ∧
      ∃ v, stringToUser (userToString u) = .ok v ∧
        v.id = u.id ∧ v.name = u.name ∧ v.email = u.email := by
  have h : stringToUser (userToString u) = .ok u := by
    rw [stringToUser_of_data _ _ _ _ (userToString_data u) hid hname,
      getlineLoop_end '\n' _ hline]
    have hne : u.email.data ≠ [] := by
      intro h0
      apply hemail
      cases hu : u.email with
      | mk d => rw [hu] at h0; simp at h0; rw [h0]
    rw [if_neg (by simpa using hne)]
    simp
  exact ⟨h, u, h, rfl, rfl, rfl⟩

/-- C33 at Bob: "1|Bob|b@x" is read back as Bob. -/
theorem stringToUser_userToString_witness :
    '|' ∉ "1".data ∧ '|' ∉ "Bob".data ∧ "b@x" ≠ "" ∧ '\n' ∉ "b@x".data ∧
      userToString ⟨"1", "Bob", "b@x"⟩ = "1|Bob|b@x" ∧
      stringToUser (userToString ⟨"1", "Bob", "b@x"⟩) = .ok ⟨"1", "Bob", "b@x"⟩ :=
  ⟨by decide, by decide, by decide, by decide, by decide,
    (stringToUser_userToString ⟨"1", "Bob", "b@x"⟩ (by decide) (by decide) (by decide)
      (by decide)).1⟩

/-- Method `stringToUser` rejects what `userToString` makes of a user without
email whose id and name hold no '|': the third `std::getline` finds the input
at its end. -/
theorem stringToUser_rejects_empty_email (u : User) (hid : '|' ∉ u.id.data)
    (hname : '|' ∉ u.name.data) (hemail : u.email = "") :
    stringToUser (userToString u) = .error (.invalid_argument "Invalid user data format") := by
  rw [stringToUser_of_data _ _ _ _ (userToString_data u) hid hname, hemail]
  rfl

theorem userToString_not_empty (u : User) : empty (userToString u) = false := by
  rw [empty_false_iff_ne]
  intro h
  have := userToString_data u
  rw [h] at this
  simp at this

/-! ### `updateUser` and `getUser`, branch by branch -/

theorem updateUser_path {σ : Type} (D : Deps σ) (user : User) (st : State σ) :
    (empty user.id = true ∧
        callsSince st (updateUser D user st).2 = [Call.error "Cannot update user: empty ID"] ∧
        (updateUser D user st).1 = false) ∨
      (empty user.id = false ∧
        callsSince st (updateUser D user st).2 =
          [Call.«exists» user.id false,
            Call.warning ("Cannot update non-existent user: " ++ user.id)] ∧
        (updateUser D user st).1 = false) ∨
      (empty user.id = false ∧
        ∃ b, callsSince st (updateUser D user st).2 =
          [Call.«exists» user.id true, Call.save user.id (userToString user) b,
            if b then Call.info ("User updated successfully: " ++ user.id)
            else Call.error ("Failed to update user: " ++ user.id)] ∧
        (updateUser D user st).1 = b) := by
  by_cases h0 : empty user.id = true
  · left
    refine ⟨h0, callsSince_append _ _ _ ?_, ?_⟩ <;> simp [updateUser, h0, logError]
  · right
    have h0f : empty user.id = false := by simpa using h0
    by_cases h1 : (D.database.«exists» user.id st.world).1 = true
    · right
      refine ⟨h0f, ?_⟩
      by_cases h2 : (D.database.save user.id (userToString user)
          (D.database.«exists» user.id st.world).2).1 = true
      · refine ⟨true, callsSince_append _ _ _ ?_, ?_⟩ <;>
          simp [updateUser, h0f, callExists, h1, callSave, h2, logInfo]
      · have h2f : (D.database.save user.id (userToString user)
            (D.database.«exists» user.id st.world).2).1 = false := by simpa using h2
        refine ⟨false, callsSince_append _ _ _ ?_, ?_⟩ <;>
          simp [updateUser, h0f, callExists, h1, callSave, h2f, logError]
    · left
      have h1f : (D.database.«exists» user.id st.world).1 = false := by simpa using h1
      refine ⟨h0f, callsSince_append _ _ _ ?_, ?_⟩ <;>
        simp [updateUser, h0f, callExists, h1f, logWarning]

theorem getUser_path {σ : Type} (D : Deps σ) (userId : String) (st : State σ) :
    (empty userId = true ∧
        callsSince st (getUser D userId st).2 = [Call.error "Invalid user ID: empty string"] ∧
        (getUser D userId st).1 = none) ∨
      (empty userId = false ∧
        callsSince st (getUser D userId st).2 =
          [Call.«exists» userId false, Call.warning ("User not found: " ++ userId)] ∧
        (getUser D userId st).1 = none) ∨
      (empty userId = false ∧
        ∃ data, callsSince st (getUser D userId st).2 =
          [Call.«exists» userId true, Call.load userId data,
            if empty data then Call.error ("Failed to load user data: " ++ userId)
            else match stringToUser data with
              | .ok _ => Call.info ("User retrieved successfully: " ++ userId)
              | .error _ => Call.error ("Failed to parse user data: " ++ userId)] ∧
        (getUser D userId st).1 =
          if empty data then none
          else match stringToUser data with
            | .ok user => some user
            | .error _ => none) := by
  by_cases h0 : empty userId = true
  · left
    refine ⟨h0, callsSince_append _ _ _ ?_, ?_⟩ <;> simp [getUser, h0, logError]
  · right
    have h0f : empty userId = false := by simpa using h0
    by_cases h1 : (D.database.«exists» userId st.world).1 = true
    · right
      refine ⟨h0f, (D.database.load userId (D.database.«exists» userId st.world).2).1, ?_⟩
      by_cases h2 : empty (D.database.load userId (D.database.«exists» userId st.world).2).1
          = true
      · refine ⟨callsSince_append _ _ _ ?_, ?_⟩ <;>
          simp [getUser, h0f, callExists, h1, callLoad, h2, logError]
      · have h2f : empty (D.database.load userId (D.database.«exists» userId st.world).2).1
            = false := by simpa using h2
        cases h3 : stringToUser (D.database.load userId (D.database.«exists» userId st.world).2).1
          with
        | ok u =>
          refine ⟨callsSince_append _ _ _ ?_, ?_⟩ <;>
            simp [getUser, h0f, callExists, h1, callLoad, h2f, h3, logInfo]
        | error e =>
          refine ⟨callsSince_append _ _ _ ?_, ?_⟩ <;>
            simp [getUser, h0f, callExists, h1, callLoad, h2f, h3, logError]
    · left
      have h1f : (D.database.«exists» userId st.world).1 = false := by simpa using h1
      refine ⟨h0f, callsSince_append _ _ _ ?_, ?_⟩ <;>
        simp [getUser, h0f, callExists, h1f, logWarning]

/-- C34: take a user with an empty email and no '|' in id and name, and a call
`updateUser(user)` in which `save` answered true.  Then the id is not empty,
`exists(user.id)` answered true, `updateUser` returns true, and the string it
passed to `save` is `userToString(user)`, which `stringToUser` rejects with
`std::invalid_argument`; so every `getUser(user.id)` in which `load` returns
that string logs "Failed to parse user data" and returns `nullptr`. -/
theorem updateUser_saves_unreadable_record {σ : Type} (D : Deps σ) (user : User)
    (st : State σ) (hbar : '|' ∉ user.id.data) (hname : '|' ∉ user.name.data)
    (hemail : user.email = "")
    (hsaved : ∃ data, Call.save user.id data true ∈ callsSince st (updateUser D user st).2) :
    user.id ≠ "" ∧
      (updateUser D user st).1 = true ∧
      callsSince st (updateUser D user st).2 =
        [Call.«exists» user.id true, Call.save user.id (userToString user) true,
          Call.info ("User updated successfully: " ++ user.id)] ∧
      stringToUser (userToString user) =
        .error (.invalid_argument "Invalid user data format") ∧
      ∀ later : State σ,
        Call.load user.id (userToString user) ∈
            callsSince later (getUser D user.id later).2 →
          (getUser D user.id later).1 = none ∧
          callsSince later (getUser D user.id later).2 =
            [Call.«exists» user.id true, Call.load user.id (userToString user),
              Call.error ("Failed to parse user data: " ++ user.id)] := by
  have hrej := stringToUser_rejects_empty_email user hbar hname hemail
  obtain ⟨data, hs⟩ := hsaved
  have hup : empty user.id = false ∧ (updateUser D user st).1 = true ∧
      callsSince st (updateUser D user st).2 =
        [Call.«exists» user.id true, Call.save user.id (userToString user) true,
          Call.info ("User updated successfully: " ++ user.id)] := by
    rcases updateUser_path D user st with ⟨-, hc, -⟩ | ⟨-, hc, -⟩ | ⟨h0, b, hc, hr⟩
    · rw [hc] at hs; simp at hs
    · rw [hc] at hs; simp at hs
    · rw [hc] at hs ⊢
      cases b
      · simp at hs
      · exact ⟨h0, hr, rfl⟩
  refine ⟨(empty_false_iff_ne _).1 hup.1, hup.2.1, hup.2.2, hrej, ?_⟩
  intro later hl
  rcases getUser_path D user.id later with ⟨-, hc, -⟩ | ⟨-, hc, -⟩ | ⟨-, data, hc, hr⟩
  · rw [hc] at hl; simp at hl
  · rw [hc] at hl; simp at hl
  · have hd : data = userToString user := by
      rw [hc] at hl
      simp only [List.mem_cons, List.mem_singleton, List.not_mem_nil, or_false] at hl
      rcases hl with hl | hl | hl
      · cases hl
      · cases hl; rfl
      · cases hemp : empty data <;> cases hst : stringToUser data <;>
          simp [hemp, hst] at hl
    subst hd
    rw [hr, hc]
    simp [userToString_not_empty, hrej]

/-- C34 on the database that keeps what is saved: the record of "1" is read as
Bob with an email; `updateUser` of Bob without email returns true; after it
`getUser("1")` returns `nullptr`. -/
theorem updateUser_saves_unreadable_record_witness :
    (getUser keeping "1" (new [("1", "1|Bob|b@x")])).1 = some ⟨"1", "Bob", "b@x"⟩ ∧
      (updateUser keeping ⟨"1", "Bob", ""⟩ (new [("1", "1|Bob|b@x")])).1 = true ∧
      (updateUser keeping ⟨"1", "Bob", ""⟩ (new [("1", "1|Bob|b@x")])).2.world
        = [("1", "1|Bob|")] ∧
      (getUser keeping "1"
        (updateUser keeping ⟨"1", "Bob", ""⟩ (new [("1", "1|Bob|b@x")])).2).1 = none :=
  ⟨by decide, by decide, by decide,
    ((updateUser_saves_unreadable_record keeping ⟨"1", "Bob", ""⟩
      (new [("1", "1|Bob|b@x")]) (by decide) (by decide) rfl
      ⟨"1|Bob|", by decide⟩).2.2.2.2
      (updateUser keeping ⟨"1", "Bob", ""⟩ (new [("1", "1|Bob|b@x")])).2 (by decide)).1⟩

end UserService
